import Mathlib

/-!
Verification of the ZX81-Debugger smart disassembler core.

This file gives a shallow embedding, in Lean 4, of the flow-graph
reconstruction pipeline of the repository:
  * `src/src/disassembler/smartdisassembler.ts` (class SmartDisassembler),
  * the memory model `Memory` (same file, memory.ts part),
  * the opcode decoder `Opcode` and its tables (src/unnamed/part_000,
    opcode.ts part),
  * the `Comments` diagnostics sink (renderflowchart.ts, comments.ts part).

JavaScript objects with mutable cross references (AsmNode) are modelled by a
pool (list) of node records addressed by index; object identity is index
identity.  JS `Map` iteration order is insertion order, modelled by
association lists in insertion order.  JS numbers are modelled by `Int`
(addresses can temporarily leave the 0..0xFFFF range, e.g. a relative branch
target), and `Uint8Array` cells by naturals reduced mod 256.

A few helper classes of the repository are not part of the given sources
(asmnode.ts, basememory.ts, utility.ts, format.ts, skippseudoopcode.ts);
the definitions for those carry a doc comment starting with
`Modelled from the spec:` and follow the specification's wording.
-/

namespace ZX81

/-! ### JS string helpers (used by the Opcode constructor parsing) -/

/-- JS `String.prototype.indexOf` on char lists: first index of `pat` in `s`, `-1` if absent. -/
def jsIndexOfAux (pat : List Char) : List Char → Nat → Int
  | [], i => if pat.isPrefixOf ([] : List Char) then (i : Int) else -1
  | s@(_ :: t), i => if pat.isPrefixOf s then (i : Int) else jsIndexOfAux pat t (i + 1)

def jsIndexOf (s pat : List Char) : Int := jsIndexOfAux pat s 0

/-- JS `String.prototype.substring(a, b)`: the characters with indices in `[a, b)`. -/
def jsSubstring (s : List Char) (a b : Nat) : List Char := (s.take b).drop a

/-- JS `String.prototype.startsWith`. -/
def jsStartsWith (s pre : List Char) : Bool := pre.isPrefixOf s

/-- JS `String.prototype.trim` (the opcode names only ever carry plain spaces). -/
def jsTrim (s : List Char) : List Char :=
  ((s.dropWhile (· = ' ')).reverse.dropWhile (· = ' ')).reverse

/-! ### NumberType (numbertype.ts), OpcodeFlag and MemAttribute constants -/

/-- numbertype.ts `NumberType`: categorization of the numbers (labels) in the opcodes. -/
inductive NumberType where
  | NONE
  | DATA_LBL
  | PORT_LBL
  | CODE_LOCAL_LBL
  | CODE_LOCAL_LOOP
  | CODE_LBL
  | CODE_SUB
  | CODE_RST
  | RELATIVE_INDEX
  | NUMBER_BYTE
  | NUMBER_WORD
  | NUMBER_WORD_BIG_ENDIAN
deriving DecidableEq, Repr

/-- opcode.ts `OpcodeFlag` bit values. -/
def OpcodeFlag.BRANCH_ADDRESS : Nat := 0x01

def OpcodeFlag.CALL : Nat := 0x02

def OpcodeFlag.STOP : Nat := 0x04

def OpcodeFlag.RET : Nat := 0x08

def OpcodeFlag.CONDITIONAL : Nat := 0x10

/-- memory.ts `MemAttribute` bit values. -/
def MemAttribute.ASSIGNED : Nat := 0x01

def MemAttribute.CODE : Nat := 0x02

def MemAttribute.CODE_FIRST : Nat := 0x04

def MemAttribute.DATA : Nat := 0x10

def MemAttribute.RET_ANALYZED : Nat := 0x20

def MemAttribute.FLOW_ANALYZED : Nat := 0x40

/-! ### Memory (memory.ts / basememory.ts) -/

/-- Modelled from the spec: basememory.ts `MAX_MEM_SIZE` — the unified 64K address space. -/
def MAX_MEM_SIZE : Nat := 0x10000

/-- The byte image plus the per-address attribute bitmask (memory.ts `Memory`,
on top of the basememory.ts byte array).  `bytes` models the `Uint8Array`
(all writes are reduced mod 256, as a `Uint8Array` store does), `attrs` the
`memoryAttr` array. -/
structure Memory where
  bytes : Nat → Nat
  attrs : Nat → Nat

def Memory.init : Memory := ⟨fun _ => 0, fun _ => 0⟩

/-- Modelled from the spec: basememory.ts `getValueAt` — returns the byte at the
address.  Reads outside the 64K range (never taken on the paths verified
here) return 0. -/
def Memory.getValueAt (m : Memory) (address : Int) : Nat :=
  if 0 ≤ address ∧ address < 0x10000 then m.bytes address.toNat % 256 else 0

/-- Modelled from the spec: basememory.ts `getWordValueAt` — little-endian word. -/
def Memory.getWordValueAt (m : Memory) (address : Int) : Nat :=
  m.getValueAt address + 256 * m.getValueAt (address + 1)

/-- Modelled from the spec: basememory.ts `getBigEndianWordValueAt` — the
big-endian word variant used by the single push-immediate instruction. -/
def Memory.getBigEndianWordValueAt (m : Memory) (address : Int) : Nat :=
  256 * m.getValueAt address + m.getValueAt (address + 1)

/-- Modelled from the spec: basememory.ts `getData` — reads `len` bytes starting at `address`. -/
def Memory.getData (m : Memory) (address : Int) (len : Nat) : List Nat :=
  (List.range len).map (fun i => m.getValueAt (address + i))

/-- memory.ts `getAttributeAt`: returns 0 (unassigned) for out-of-range addresses. -/
def Memory.getAttributeAt (m : Memory) (address : Int) : Nat :=
  if address < 0 ∨ 0x10000 ≤ address then 0 else m.attrs address.toNat

/-- Raw read of the `memoryAttr` JS array (as done by `searchAddrWithAttribute`
without a bounds check; a JS out-of-bounds read yields `undefined`, which is
falsy under `&`, i.e. behaves as 0). -/
def Memory.attrRaw (m : Memory) (address : Int) : Nat :=
  if 0 ≤ address then m.attrs address.toNat else 0

/-- memory.ts `addAttributeAt`: ORs a single attribute at one address. -/
def Memory.addAttributeAt (m : Memory) (address : Nat) (attr : Nat) : Memory :=
  { m with attrs := fun k => if k = address then m.attrs k ||| attr else m.attrs k }

/-- memory.ts `addAttributesAt`: ORs an attribute over an address range. -/
def Memory.addAttributesAt (m : Memory) (address : Nat) (len : Nat) (attr : Nat) : Memory :=
  match len with
  | 0 => m
  | l + 1 => (m.addAttributeAt address attr).addAttributesAt (address + 1) l attr

/-- memory.ts `setAttributesAt`: overwrites the attribute over an address range. -/
def Memory.setAttributesAt (m : Memory) (address : Nat) (len : Nat) (attr : Nat) : Memory :=
  match len with
  | 0 => m
  | l + 1 =>
    ({ m with attrs := fun k => if k = address then attr else m.attrs k } :
        Memory).setAttributesAt (address + 1) l attr

/-- memory.ts `resetAttributeFlag`: clears the given flags at every address
(JS `attr &= ~flags`, on 32-bit integers viewed as unsigned here). -/
def Memory.resetAttributeFlag (m : Memory) (flags : Nat) : Memory :=
  let notFlags := 0xFFFFFFFF ^^^ (flags &&& 0xFFFFFFFF)
  { m with attrs := fun k => m.attrs k &&& notFlags }

/-- memory.ts `setMemory`: merges a loaded region into the 64K space, wrapping
at the address-space size and OR-ing `ASSIGNED` into the attribute mask. -/
def Memory.setMemory (m : Memory) (origin : Nat) (data : List Nat) : Memory :=
  go m 0 data
where
  go (m : Memory) (i : Nat) : List Nat → Memory
    | [] => m
    | b :: rest =>
      let addr := (origin + i) &&& (MAX_MEM_SIZE - 1)
      let m := { m with
        bytes := fun k => if k = addr then b % 256 else m.bytes k,
        attrs := fun k => if k = addr then m.attrs k ||| MemAttribute.ASSIGNED else m.attrs k }
      go m (i + 1) rest

/-- memory.ts `searchAddrWithAttribute`: first address in `[addr64k, addr64k+len)`
having any bit of `searchAttr` set, or `none`. -/
def Memory.searchAddrWithAttribute (m : Memory) (searchAttr : Nat) (addr64k : Int) (len : Nat) :
    Option Int :=
  match len with
  | 0 => none
  | l + 1 =>
    if m.attrRaw addr64k &&& searchAttr ≠ 0 then some addr64k
    else m.searchAddrWithAttribute searchAttr (addr64k + 1) l

/-! ### Opcode records and the constructor parsing (opcode.ts) -/

/-- The opcode tables; an `OpcodeExtended`/`OpcodeExtended2` entry refers to
its sub table through this tag. -/
inductive TableId where
  | main
  | cb
  | ed
  | dd
  | fd
  | ddcb
  | fdcb
deriving DecidableEq, Repr

/-- Which `getOpcodeAt` override an opcode object carries (i.e. which of the
opcode.ts classes it is an instance of).  `normal` covers `Opcode`,
`OpcodeIndex`, `OpcodeNOP` and `OpcodeInvalid` (which inherit the base
`getOpcodeAt`). -/
inductive OpKind where
  | normal
  | prevIndex
  | indexImmediate
  | ext (sub : TableId)
  | ext2 (sub : TableId)
deriving DecidableEq, Repr

/-- opcode.ts `Opcode` (plus the `secondValue` of `OpcodeIndexImmediate`). -/
structure Opc where
  code : Nat
  name : String
  flags : Nat
  valueType : NumberType
  length : Nat
  value : Int
  secondValue : Int
  kind : OpKind
deriving DecidableEq, Repr

instance : Inhabited Opc :=
  ⟨{ code := 0, name := "", flags := 0, valueType := .NONE, length := 1,
     value := 0, secondValue := 0, kind := .normal }⟩

def sCALL : List Char := "CALL".toList

def sJP : List Char := "JP".toList

def sLDSP : List Char := "LD SP,".toList

def sDJNZ : List Char := "DJNZ".toList

def sJR : List Char := "JR".toList

def sIN : List Char := "IN".toList

def sOUT : List Char := "OUT".toList

def sRET : List Char := "RET".toList

def sRST : List Char := "RST".toList

def sHashN : List Char := ['#', 'n']

def sComma : List Char := [',']

def sSpace : List Char := [' ']

/-- The opcode.ts `Opcode` constructor: derives value type, flags and length
from the mnemonic template.  (The TS constructor mutates `this`; here the
same case analysis is written as a pure decision tree.) -/
def parseOpcode (code : Nat) (nameStr : String) : Opc :=
  let name0 := jsTrim nameStr.toList
  let kIdx := jsIndexOf name0 sHashN
  let fin : List Char → Nat → NumberType → Nat → Int → Opc :=
    fun name flags valueType length value =>
      { code := code, name := String.mk name, flags := flags, valueType := valueType,
        length := length, value := value, secondValue := 0, kind := .normal }
  if kIdx > 0 then
    let k := kIdx.toNat
    if jsSubstring name0 (k + 2) (k + 3) = ['n'] then
      -- Word ('#nn'); substitute '%s' for the operand
      let name := jsSubstring name0 0 k ++ ['%', 's'] ++ name0.drop (k + 3)
      let indirect := jsSubstring name (k - 1) k
      if indirect = ['('] then
        -- Enclosed in brackets, e.g. "(20fe)": indirect, no call or jp
        fin name 0 .DATA_LBL 3 0
      else if jsStartsWith name sCALL = true then
        fin name (OpcodeFlag.CALL ||| OpcodeFlag.BRANCH_ADDRESS |||
            (if jsIndexOf name sComma ≥ 0 then OpcodeFlag.CONDITIONAL else 0))
          .CODE_SUB 3 0
      else if jsStartsWith name sJP = true then
        fin name (OpcodeFlag.BRANCH_ADDRESS |||
            (if jsIndexOf name sComma ≥ 0 then OpcodeFlag.CONDITIONAL else OpcodeFlag.STOP))
          .CODE_LBL 3 0
      else if jsStartsWith name sLDSP = true then
        -- the stack pointer is loaded: top of the stack, a data label
        fin name 0 .DATA_LBL 3 0
      else
        fin name 0 .NUMBER_WORD 3 0
    else
      -- Byte ('#n'); substitute '%s' for the operand
      let name := jsSubstring name0 0 k ++ ['%', 's'] ++ name0.drop (k + 2)
      -- first the DJNZ check (a plain `if`), then the JR / IN / OUT chain
      let vf1 : NumberType × Nat :=
        if jsStartsWith name sDJNZ = true then
          (.CODE_LOCAL_LBL, OpcodeFlag.BRANCH_ADDRESS ||| OpcodeFlag.CONDITIONAL)
        else (.NUMBER_BYTE, 0)
      if jsStartsWith name sJR = true then
        fin name (vf1.2 ||| OpcodeFlag.BRANCH_ADDRESS |||
            (if jsIndexOf name sComma ≥ 0 then OpcodeFlag.CONDITIONAL else OpcodeFlag.STOP))
          .CODE_LOCAL_LBL 2 0
      else if (jsStartsWith name sIN || jsStartsWith name sOUT) = true then
        fin name vf1.2 .PORT_LBL 2 0
      else
        fin name vf1.2 vf1.1 2 0
  else if jsStartsWith name0 sRET = true then
    -- "RETN", "RETI", "RET" with or without condition
    fin name0 (OpcodeFlag.RET |||
        (if jsIndexOf name0 sSpace ≥ 0 then OpcodeFlag.CONDITIONAL else OpcodeFlag.STOP))
      .NONE 1 0
  else if jsStartsWith name0 sRST = true then
    -- Use like a CALL; the jump value comes from bits 3..5 of the opcode byte
    fin name0 (OpcodeFlag.BRANCH_ADDRESS ||| OpcodeFlag.CALL) .CODE_RST 1
      ((code &&& 0b00111000 : Nat) : Int)
  else if jsStartsWith name0 sJP = true then
    -- "JP (HL)" etc.: no branch address known, but a stop code
    fin name0 OpcodeFlag.STOP .NONE 1 0
  else
    fin name0 0 .NONE 1 0

/-- `new Opcode(code, name)`. -/
def mkOp (code : Nat) (name : String) : Opc := parseOpcode code name

/-- `new OpcodeIndex(code, name)`: relative index operand, one byte longer. -/
def mkIndex (code : Nat) (name : String) : Opc :=
  let o := parseOpcode code name
  { o with valueType := .RELATIVE_INDEX, length := o.length + 1 }

/-- `new OpcodePrevIndex(code, name)`: DDCB-style opcode whose index byte
precedes the final opcode byte. -/
def mkPrevIndex (code : Nat) (name : String) : Opc :=
  let o := mkIndex code name
  { o with length := o.length + 1, kind := .prevIndex }

/-- `new OpcodeIndexImmediate(code, name)`: index plus immediate value. -/
def mkIndexImmediate (code : Nat) (name : String) : Opc :=
  let o := parseOpcode code name
  { o with length := 3, valueType := .RELATIVE_INDEX, kind := .indexImmediate }

/-- `new OpcodeExtended(code, opcodes)`: prefix byte deferring to a sub table. -/
def mkExtended (code : Nat) (sub : TableId) : Opc :=
  let o := parseOpcode code ""
  { o with length := o.length + 1, kind := .ext sub }

/-- `new OpcodeExtended2(code, opcodes)`: the doubly-prefixed DDCB/FDCB form. -/
def mkExtended2 (code : Nat) (sub : TableId) : Opc :=
  let o := parseOpcode code ""
  { o with length := o.length + 2, kind := .ext2 sub }

/-- `new OpcodeNOP(code)`: a DD/FD prefix followed by another prefix byte acts
as a one-byte NOP (its length is decremented, then re-incremented by the
table fix-up). -/
def mkNOP (code : Nat) : Opc :=
  let o := parseOpcode code ""
  { o with name := "[NOP]", length := o.length - 1 }

/-- `new OpcodeInvalid(code)`. -/
def mkInvalid (code : Nat) : Opc :=
  let o := parseOpcode code ""
  { o with name := "INVALID INSTRUCTION" }

/-- The per-table `forEach(opcode => opcode.length++)` fix-up. -/
def incLength (o : Opc) : Opc := { o with length := o.length + 1 }

/-! ### The opcode tables (`Opcode.InitOpcodes`, opcode.ts).

The list literals below are a line-by-line transcription of the table
literals in the source; the `(List.range …).map mkInvalid` pieces mirror the
`…Array(n).fill(0).map((_v, i) => new OpcodeInvalid(…))` spreads. -/

def opcodesEDRaw : List Opc :=
  (List.range 0x40).map (fun i => mkInvalid i) ++
  [mkOp 0x40 "IN B,(C)",
  mkOp 0x41 "OUT (C),B",
  mkOp 0x42 "SBC HL,BC",
  mkOp 0x43 "LD (#nn),BC",
  mkOp 0x44 "NEG",
  mkOp 0x45 "RETN",
  mkOp 0x46 "IM 0",
  mkOp 0x47 "LD I,A",
  mkOp 0x48 "IN C,(C)",
  mkOp 0x49 "OUT (C),C",
  mkOp 0x4A "ADC HL,BC",
  mkOp 0x4B "LD BC,(#nn)",
  mkOp 0x4C "[neg]",
  mkOp 0x4D "RETI",
  mkOp 0x4E "[im0]",
  mkOp 0x4F "LD R,A",
  mkOp 0x50 "IN D,(C)",
  mkOp 0x51 "OUT (C),D",
  mkOp 0x52 "SBC HL,DE",
  mkOp 0x53 "LD (#nn),DE",
  mkOp 0x54 "[neg]",
  mkOp 0x55 "[retn]",
  mkOp 0x56 "IM 1",
  mkOp 0x57 "LD A,I",
  mkOp 0x58 "IN E,(C)",
  mkOp 0x59 "OUT (C),E",
  mkOp 0x5A "ADC HL,DE",
  mkOp 0x5B "LD DE,(#nn)",
  mkOp 0x5C "[neg]",
  mkOp 0x5D "[reti]",
  mkOp 0x5E "IM 2",
  mkOp 0x5F "LD A,R",
  mkOp 0x60 "IN H,(C)",
  mkOp 0x61 "OUT (C),H",
  mkOp 0x62 "SBC HL,HL",
  mkOp 0x63 "LD (#nn),HL",
  mkOp 0x64 "[neg]",
  mkOp 0x65 "[retn]",
  mkOp 0x66 "[im0]",
  mkOp 0x67 "RRD",
  mkOp 0x68 "IN L,(C)",
  mkOp 0x69 "OUT (C),L",
  mkOp 0x6A "ADC HL,HL",
  mkOp 0x6B "LD HL,(#nn)",
  mkOp 0x6C "[neg]",
  mkOp 0x6D "[reti]",
  mkOp 0x6E "[im0]",
  mkOp 0x6F "RLD",
  mkOp 0x70 "IN F,(C)",
  mkOp 0x71 "OUT (C),0",
  mkOp 0x72 "SBC HL,SP",
  mkOp 0x73 "LD (#nn),SP",
  mkOp 0x74 "[neg]",
  mkOp 0x75 "[retn]",
  mkOp 0x76 "[im1]",
  mkOp 0x77 "[ld i,i?]",
  mkOp 0x78 "IN A,(C)",
  mkOp 0x79 "OUT (C),A",
  mkOp 0x7A "ADC HL,SP",
  mkOp 0x7B "LD SP,(#nn)",
  mkOp 0x7C "[neg]",
  mkOp 0x7D "[reti]",
  mkOp 0x7E "[im2]",
  mkOp 0x7F "[ld r,r?]"] ++
  (List.range 0x20).map (fun i => mkInvalid (0x80 + i)) ++
  [mkOp 0xA0 "LDI",
  mkOp 0xA1 "CPI",
  mkOp 0xA2 "INI",
  mkOp 0xA3 "OUTI"] ++
  (List.range 0x04).map (fun i => mkInvalid (0xA4 + i)) ++
  [mkOp 0xA8 "LDD",
  mkOp 0xA9 "CPD",
  mkOp 0xAA "IND",
  mkOp 0xAB "OUTD"] ++
  (List.range 0x04).map (fun i => mkInvalid (0xAC + i)) ++
  [mkOp 0xB0 "LDIR",
  mkOp 0xB1 "CPIR",
  mkOp 0xB2 "INIR",
  mkOp 0xB3 "OUTIR"] ++
  (List.range 0x04).map (fun i => mkInvalid (0xB4 + i)) ++
  [mkOp 0xB8 "LDDR",
  mkOp 0xB9 "CPDR",
  mkOp 0xBA "INDR",
  mkOp 0xBB "OUTDR"] ++
  (List.range 0x04).map (fun i => mkInvalid (0xBC + i)) ++
  (List.range 0x40).map (fun i => mkInvalid (0xC0 + i))

def opcodesCBRaw : List Opc :=
  [mkOp 0x00 "RLC B",
  mkOp 0x01 "RLC C",
  mkOp 0x02 "RLC D",
  mkOp 0x03 "RLC E",
  mkOp 0x04 "RLC H",
  mkOp 0x05 "RLC L",
  mkOp 0x06 "RLC (HL)",
  mkOp 0x07 "RLC A",
  mkOp 0x08 "RRC B",
  mkOp 0x09 "RRC C",
  mkOp 0x0A "RRC D",
  mkOp 0x0B "RRC E",
  mkOp 0x0C "RRC H",
  mkOp 0x0D "RRC L",
  mkOp 0x0E "RRC (HL)",
  mkOp 0x0F "RRC A",
  mkOp 0x10 "RL B",
  mkOp 0x11 "RL C",
  mkOp 0x12 "RL D",
  mkOp 0x13 "RL E",
  mkOp 0x14 "RL H",
  mkOp 0x15 "RL L",
  mkOp 0x16 "RL (HL)",
  mkOp 0x17 "RL A",
  mkOp 0x18 "RR B",
  mkOp 0x19 "RR C",
  mkOp 0x1A "RR D",
  mkOp 0x1B "RR E",
  mkOp 0x1C "RR H",
  mkOp 0x1D "RR L",
  mkOp 0x1E "RR (HL)",
  mkOp 0x1F "RR A",
  mkOp 0x20 "SLA B",
  mkOp 0x21 "SLA C",
  mkOp 0x22 "SLA D",
  mkOp 0x23 "SLA E",
  mkOp 0x24 "SLA H",
  mkOp 0x25 "SLA L",
  mkOp 0x26 "SLA (HL)",
  mkOp 0x27 "SLA A",
  mkOp 0x28 "SRA B",
  mkOp 0x29 "SRA C",
  mkOp 0x2A "SRA D",
  mkOp 0x2B "SRA E",
  mkOp 0x2C "SRA H",
  mkOp 0x2D "SRA L",
  mkOp 0x2E "SRA (HL)",
  mkOp 0x2F "SRA A",
  mkOp 0x30 "SLL B",
  mkOp 0x31 "SLL C",
  mkOp 0x32 "SLL D",
  mkOp 0x33 "SLL E",
  mkOp 0x34 "SLL H",
  mkOp 0x35 "SLL L",
  mkOp 0x36 "SLL (HL)",
  mkOp 0x37 "SLL A",
  mkOp 0x38 "SRL B",
  mkOp 0x39 "SRL C",
  mkOp 0x3A "SRL D",
  mkOp 0x3B "SRL E",
  mkOp 0x3C "SRL H",
  mkOp 0x3D "SRL L",
  mkOp 0x3E "SRL (HL)",
  mkOp 0x3F "SRL A",
  mkOp 0x40 "BIT 0,B",
  mkOp 0x41 "BIT 0,C",
  mkOp 0x42 "BIT 0,D",
  mkOp 0x43 "BIT 0,E",
  mkOp 0x44 "BIT 0,H",
  mkOp 0x45 "BIT 0,L",
  mkOp 0x46 "BIT 0,(HL)",
  mkOp 0x47 "BIT 0,A",
  mkOp 0x48 "BIT 1,B",
  mkOp 0x49 "BIT 1,C",
  mkOp 0x4A "BIT 1,D",
  mkOp 0x4B "BIT 1,E",
  mkOp 0x4C "BIT 1,H",
  mkOp 0x4D "BIT 1,L",
  mkOp 0x4E "BIT 1,(HL)",
  mkOp 0x4F "BIT 1,A",
  mkOp 0x50 "BIT 2,B",
  mkOp 0x51 "BIT 2,C",
  mkOp 0x52 "BIT 2,D",
  mkOp 0x53 "BIT 2,E",
  mkOp 0x54 "BIT 2,H",
  mkOp 0x55 "BIT 2,L",
  mkOp 0x56 "BIT 2,(HL)",
  mkOp 0x57 "BIT 2,A",
  mkOp 0x58 "BIT 3,B",
  mkOp 0x59 "BIT 3,C",
  mkOp 0x5A "BIT 3,D",
  mkOp 0x5B "BIT 3,E",
  mkOp 0x5C "BIT 3,H",
  mkOp 0x5D "BIT 3,L",
  mkOp 0x5E "BIT 3,(HL)",
  mkOp 0x5F "BIT 3,A",
  mkOp 0x60 "BIT 4,B",
  mkOp 0x61 "BIT 4,C",
  mkOp 0x62 "BIT 4,D",
  mkOp 0x63 "BIT 4,E",
  mkOp 0x64 "BIT 4,H",
  mkOp 0x65 "BIT 4,L",
  mkOp 0x66 "BIT 4,(HL)",
  mkOp 0x67 "BIT 4,A",
  mkOp 0x68 "BIT 5,B",
  mkOp 0x69 "BIT 5,C",
  mkOp 0x6A "BIT 5,D",
  mkOp 0x6B "BIT 5,E",
  mkOp 0x6C "BIT 5,H",
  mkOp 0x6D "BIT 5,L",
  mkOp 0x6E "BIT 5,(HL)",
  mkOp 0x6F "BIT 5,A",
  mkOp 0x70 "BIT 6,B",
  mkOp 0x71 "BIT 6,C",
  mkOp 0x72 "BIT 6,D",
  mkOp 0x73 "BIT 6,E",
  mkOp 0x74 "BIT 6,H",
  mkOp 0x75 "BIT 6,L",
  mkOp 0x76 "BIT 6,(HL)",
  mkOp 0x77 "BIT 6,A",
  mkOp 0x78 "BIT 7,B",
  mkOp 0x79 "BIT 7,C",
  mkOp 0x7A "BIT 7,D",
  mkOp 0x7B "BIT 7,E",
  mkOp 0x7C "BIT 7,H",
  mkOp 0x7D "BIT 7,L",
  mkOp 0x7E "BIT 7,(HL)",
  mkOp 0x7F "BIT 7,A",
  mkOp 0x80 "RES 0,B",
  mkOp 0x81 "RES 0,C",
  mkOp 0x82 "RES 0,D",
  mkOp 0x83 "RES 0,E",
  mkOp 0x84 "RES 0,H",
  mkOp 0x85 "RES 0,L",
  mkOp 0x86 "RES 0,(HL)",
  mkOp 0x87 "RES 0,A",
  mkOp 0x88 "RES 1,B",
  mkOp 0x89 "RES 1,C",
  mkOp 0x8A "RES 1,D",
  mkOp 0x8B "RES 1,E",
  mkOp 0x8C "RES 1,H",
  mkOp 0x8D "RES 1,L",
  mkOp 0x8E "RES 1,(HL)",
  mkOp 0x8F "RES 1,A",
  mkOp 0x90 "RES 2,B",
  mkOp 0x91 "RES 2,C",
  mkOp 0x92 "RES 2,D",
  mkOp 0x93 "RES 2,E",
  mkOp 0x94 "RES 2,H",
  mkOp 0x95 "RES 2,L",
  mkOp 0x96 "RES 2,(HL)",
  mkOp 0x97 "RES 2,A",
  mkOp 0x98 "RES 3,B",
  mkOp 0x99 "RES 3,C",
  mkOp 0x9A "RES 3,D",
  mkOp 0x9B "RES 3,E",
  mkOp 0x9C "RES 3,H",
  mkOp 0x9D "RES 3,L",
  mkOp 0x9E "RES 3,(HL)",
  mkOp 0x9F "RES 3,A",
  mkOp 0xA0 "RES 4,B",
  mkOp 0xA1 "RES 4,C",
  mkOp 0xA2 "RES 4,D",
  mkOp 0xA3 "RES 4,E",
  mkOp 0xA4 "RES 4,H",
  mkOp 0xA5 "RES 4,L",
  mkOp 0xA6 "RES 4,(HL)",
  mkOp 0xA7 "RES 4,A",
  mkOp 0xA8 "RES 5,B",
  mkOp 0xA9 "RES 5,C",
  mkOp 0xAA "RES 5,D",
  mkOp 0xAB "RES 5,E",
  mkOp 0xAC "RES 5,H",
  mkOp 0xAD "RES 5,L",
  mkOp 0xAE "RES 5,(HL)",
  mkOp 0xAF "RES 5,A",
  mkOp 0xB0 "RES 6,B",
  mkOp 0xB1 "RES 6,C",
  mkOp 0xB2 "RES 6,D",
  mkOp 0xB3 "RES 6,E",
  mkOp 0xB4 "RES 6,H",
  mkOp 0xB5 "RES 6,L",
  mkOp 0xB6 "RES 6,(HL)",
  mkOp 0xB7 "RES 6,A",
  mkOp 0xB8 "RES 7,B",
  mkOp 0xB9 "RES 7,C",
  mkOp 0xBA "RES 7,D",
  mkOp 0xBB "RES 7,E",
  mkOp 0xBC "RES 7,H",
  mkOp 0xBD "RES 7,L",
  mkOp 0xBE "RES 7,(HL)",
  mkOp 0xBF "RES 7,A",
  mkOp 0xC0 "SET 0,B",
  mkOp 0xC1 "SET 0,C",
  mkOp 0xC2 "SET 0,D",
  mkOp 0xC3 "SET 0,E",
  mkOp 0xC4 "SET 0,H",
  mkOp 0xC5 "SET 0,L",
  mkOp 0xC6 "SET 0,(HL)",
  mkOp 0xC7 "SET 0,A",
  mkOp 0xC8 "SET 1,B",
  mkOp 0xC9 "SET 1,C",
  mkOp 0xCA "SET 1,D",
  mkOp 0xCB "SET 1,E",
  mkOp 0xCC "SET 1,H",
  mkOp 0xCD "SET 1,L",
  mkOp 0xCE "SET 1,(HL)",
  mkOp 0xCF "SET 1,A",
  mkOp 0xD0 "SET 2,B",
  mkOp 0xD1 "SET 2,C",
  mkOp 0xD2 "SET 2,D",
  mkOp 0xD3 "SET 2,E",
  mkOp 0xD4 "SET 2,H",
  mkOp 0xD5 "SET 2,L",
  mkOp 0xD6 "SET 2,(HL)",
  mkOp 0xD7 "SET 2,A",
  mkOp 0xD8 "SET 3,B",
  mkOp 0xD9 "SET 3,C",
  mkOp 0xDA "SET 3,D",
  mkOp 0xDB "SET 3,E",
  mkOp 0xDC "SET 3,H",
  mkOp 0xDD "SET 3,L",
  mkOp 0xDE "SET 3,(HL)",
  mkOp 0xDF "SET 3,A",
  mkOp 0xE0 "SET 4,B",
  mkOp 0xE1 "SET 4,C",
  mkOp 0xE2 "SET 4,D",
  mkOp 0xE3 "SET 4,E",
  mkOp 0xE4 "SET 4,H",
  mkOp 0xE5 "SET 4,L",
  mkOp 0xE6 "SET 4,(HL)",
  mkOp 0xE7 "SET 4,A",
  mkOp 0xE8 "SET 5,B",
  mkOp 0xE9 "SET 5,C",
  mkOp 0xEA "SET 5,D",
  mkOp 0xEB "SET 5,E",
  mkOp 0xEC "SET 5,H",
  mkOp 0xED "SET 5,L",
  mkOp 0xEE "SET 5,(HL)",
  mkOp 0xEF "SET 5,A",
  mkOp 0xF0 "SET 6,B",
  mkOp 0xF1 "SET 6,C",
  mkOp 0xF2 "SET 6,D",
  mkOp 0xF3 "SET 6,E",
  mkOp 0xF4 "SET 6,H",
  mkOp 0xF5 "SET 6,L",
  mkOp 0xF6 "SET 6,(HL)",
  mkOp 0xF7 "SET 6,A",
  mkOp 0xF8 "SET 7,B",
  mkOp 0xF9 "SET 7,C",
  mkOp 0xFA "SET 7,D",
  mkOp 0xFB "SET 7,E",
  mkOp 0xFC "SET 7,H",
  mkOp 0xFD "SET 7,L",
  mkOp 0xFE "SET 7,(HL)",
  mkOp 0xFF "SET 7,A"]

def opcodesDDCBRaw : List Opc :=
  [mkPrevIndex 0x00 "RLC (IX%s),B",
  mkPrevIndex 0x01 "RLC (IX%s),C",
  mkPrevIndex 0x02 "RLC (IX%s),D",
  mkPrevIndex 0x03 "RLC (IX%s),E",
  mkPrevIndex 0x04 "RLC (IX%s),H",
  mkPrevIndex 0x05 "RLC (IX%s),L",
  mkPrevIndex 0x06 "RLC (IX%s)",
  mkPrevIndex 0x07 "RLC (IX%s),A",
  mkPrevIndex 0x08 "RRC (IX%s),B",
  mkPrevIndex 0x09 "RRC (IX%s),C",
  mkPrevIndex 0x0A "RRC (IX%s),D",
  mkPrevIndex 0x0B "RRC (IX%s),E",
  mkPrevIndex 0x0C "RRC (IX%s),H",
  mkPrevIndex 0x0D "RRC (IX%s),L",
  mkPrevIndex 0x0E "RRC (IX%s)",
  mkPrevIndex 0x0F "RRC (IX%s),A",
  mkPrevIndex 0x10 "RL (IX%s),B",
  mkPrevIndex 0x11 "RL (IX%s),C",
  mkPrevIndex 0x12 "RL (IX%s),D",
  mkPrevIndex 0x13 "RL (IX%s),E",
  mkPrevIndex 0x14 "RL (IX%s),H",
  mkPrevIndex 0x15 "RL (IX%s),L",
  mkPrevIndex 0x16 "RL (IX%s)",
  mkPrevIndex 0x17 "RL (IX%s),A",
  mkPrevIndex 0x18 "RR (IX%s),B",
  mkPrevIndex 0x19 "RR (IX%s),C",
  mkPrevIndex 0x1A "RR (IX%s),D",
  mkPrevIndex 0x1B "RR (IX%s),E",
  mkPrevIndex 0x1C "RR (IX%s),H",
  mkPrevIndex 0x1D "RR (IX%s),L",
  mkPrevIndex 0x1E "RR (IX%s)",
  mkPrevIndex 0x1F "RR (IX%s),A",
  mkPrevIndex 0x20 "SLA (IX%s),B",
  mkPrevIndex 0x21 "SLA (IX%s),C",
  mkPrevIndex 0x22 "SLA (IX%s),D",
  mkPrevIndex 0x23 "SLA (IX%s),E",
  mkPrevIndex 0x24 "SLA (IX%s),H",
  mkPrevIndex 0x25 "SLA (IX%s),L",
  mkPrevIndex 0x26 "SLA (IX%s)",
  mkPrevIndex 0x27 "SLA (IX%s),A",
  mkPrevIndex 0x28 "SRA (IX%s),B",
  mkPrevIndex 0x29 "SRA (IX%s),C",
  mkPrevIndex 0x2A "SRA (IX%s),D",
  mkPrevIndex 0x2B "SRA (IX%s),E",
  mkPrevIndex 0x2C "SRA (IX%s),H",
  mkPrevIndex 0x2D "SRA (IX%s),L",
  mkPrevIndex 0x2E "SRA (IX%s)",
  mkPrevIndex 0x2F "SRA (IX%s),A",
  mkPrevIndex 0x30 "SLL (IX%s),B",
  mkPrevIndex 0x31 "SLL (IX%s),C",
  mkPrevIndex 0x32 "SLL (IX%s),D",
  mkPrevIndex 0x33 "SLL (IX%s),E",
  mkPrevIndex 0x34 "SLL (IX%s),H",
  mkPrevIndex 0x35 "SLL (IX%s),L",
  mkPrevIndex 0x36 "SLL (IX%s)",
  mkPrevIndex 0x37 "SLL (IX%s),A",
  mkPrevIndex 0x38 "SRL (IX%s),B",
  mkPrevIndex 0x39 "SRL (IX%s),C",
  mkPrevIndex 0x3A "SRL (IX%s),D",
  mkPrevIndex 0x3B "SRL (IX%s),E",
  mkPrevIndex 0x3C "SRL (IX%s),H",
  mkPrevIndex 0x3D "SRL (IX%s),L",
  mkPrevIndex 0x3E "SRL (IX%s)",
  mkPrevIndex 0x3F "SRL (IX%s),A",
  mkPrevIndex 0x40 "BIT 0,(IX%s)",
  mkPrevIndex 0x41 "BIT 0,(IX%s)",
  mkPrevIndex 0x42 "BIT 0,(IX%s)",
  mkPrevIndex 0x43 "BIT 0,(IX%s)",
  mkPrevIndex 0x44 "BIT 0,(IX%s)",
  mkPrevIndex 0x45 "BIT 0,(IX%s)",
  mkPrevIndex 0x46 "BIT 0,(IX%s)",
  mkPrevIndex 0x47 "BIT 0,(IX%s)",
  mkPrevIndex 0x48 "BIT 1,(IX%s)",
  mkPrevIndex 0x49 "BIT 1,(IX%s)",
  mkPrevIndex 0x4A "BIT 1,(IX%s)",
  mkPrevIndex 0x4B "BIT 1,(IX%s)",
  mkPrevIndex 0x4C "BIT 1,(IX%s)",
  mkPrevIndex 0x4D "BIT 1,(IX%s)",
  mkPrevIndex 0x4E "BIT 1,(IX%s)",
  mkPrevIndex 0x4F "BIT 1,(IX%s)",
  mkPrevIndex 0x50 "BIT 2,(IX%s)",
  mkPrevIndex 0x51 "BIT 2,(IX%s)",
  mkPrevIndex 0x52 "BIT 2,(IX%s)",
  mkPrevIndex 0x53 "BIT 2,(IX%s)",
  mkPrevIndex 0x54 "BIT 2,(IX%s)",
  mkPrevIndex 0x55 "BIT 2,(IX%s)",
  mkPrevIndex 0x56 "BIT 2,(IX%s)",
  mkPrevIndex 0x57 "BIT 2,(IX%s)",
  mkPrevIndex 0x58 "BIT 3,(IX%s)",
  mkPrevIndex 0x59 "BIT 3,(IX%s)",
  mkPrevIndex 0x5A "BIT 3,(IX%s)",
  mkPrevIndex 0x5B "BIT 3,(IX%s)",
  mkPrevIndex 0x5C "BIT 3,(IX%s)",
  mkPrevIndex 0x5D "BIT 3,(IX%s)",
  mkPrevIndex 0x5E "BIT 3,(IX%s)",
  mkPrevIndex 0x5F "BIT 3,(IX%s)",
  mkPrevIndex 0x60 "BIT 4,(IX%s)",
  mkPrevIndex 0x61 "BIT 4,(IX%s)",
  mkPrevIndex 0x62 "BIT 4,(IX%s)",
  mkPrevIndex 0x63 "BIT 4,(IX%s)",
  mkPrevIndex 0x64 "BIT 4,(IX%s)",
  mkPrevIndex 0x65 "BIT 4,(IX%s)",
  mkPrevIndex 0x66 "BIT 4,(IX%s)",
  mkPrevIndex 0x67 "BIT 4,(IX%s)",
  mkPrevIndex 0x68 "BIT 5,(IX%s)",
  mkPrevIndex 0x69 "BIT 5,(IX%s)",
  mkPrevIndex 0x6A "BIT 5,(IX%s)",
  mkPrevIndex 0x6B "BIT 5,(IX%s)",
  mkPrevIndex 0x6C "BIT 5,(IX%s)",
  mkPrevIndex 0x6D "BIT 5,(IX%s)",
  mkPrevIndex 0x6E "BIT 5,(IX%s)",
  mkPrevIndex 0x6F "BIT 5,(IX%s)",
  mkPrevIndex 0x70 "BIT 6,(IX%s)",
  mkPrevIndex 0x71 "BIT 6,(IX%s)",
  mkPrevIndex 0x72 "BIT 6,(IX%s)",
  mkPrevIndex 0x73 "BIT 6,(IX%s)",
  mkPrevIndex 0x74 "BIT 6,(IX%s)",
  mkPrevIndex 0x75 "BIT 6,(IX%s)",
  mkPrevIndex 0x76 "BIT 6,(IX%s)",
  mkPrevIndex 0x77 "BIT 6,(IX%s)",
  mkPrevIndex 0x78 "BIT 7,(IX%s)",
  mkPrevIndex 0x79 "BIT 7,(IX%s)",
  mkPrevIndex 0x7A "BIT 7,(IX%s)",
  mkPrevIndex 0x7B "BIT 7,(IX%s)",
  mkPrevIndex 0x7C "BIT 7,(IX%s)",
  mkPrevIndex 0x7D "BIT 7,(IX%s)",
  mkPrevIndex 0x7E "BIT 7,(IX%s)",
  mkPrevIndex 0x7F "BIT 7,(IX%s)",
  mkPrevIndex 0x80 "RES 0,(IX%s),B",
  mkPrevIndex 0x81 "RES 0,(IX%s),C",
  mkPrevIndex 0x82 "RES 0,(IX%s),D",
  mkPrevIndex 0x83 "RES 0,(IX%s),E",
  mkPrevIndex 0x84 "RES 0,(IX%s),H",
  mkPrevIndex 0x85 "RES 0,(IX%s),L",
  mkPrevIndex 0x86 "RES 0,(IX%s)",
  mkPrevIndex 0x87 "RES 0,(IX%s),A",
  mkPrevIndex 0x88 "RES 1,(IX%s),B",
  mkPrevIndex 0x89 "RES 1,(IX%s),C",
  mkPrevIndex 0x8A "RES 1,(IX%s),D",
  mkPrevIndex 0x8B "RES 1,(IX%s),E",
  mkPrevIndex 0x8C "RES 1,(IX%s),H",
  mkPrevIndex 0x8D "RES 1,(IX%s),L",
  mkPrevIndex 0x8E "RES 1,(IX%s)",
  mkPrevIndex 0x8F "RES 1,(IX%s),A",
  mkPrevIndex 0x90 "RES 2,(IX%s),B",
  mkPrevIndex 0x91 "RES 2,(IX%s),C",
  mkPrevIndex 0x92 "RES 2,(IX%s),D",
  mkPrevIndex 0x93 "RES 2,(IX%s),E",
  mkPrevIndex 0x94 "RES 2,(IX%s),H",
  mkPrevIndex 0x95 "RES 2,(IX%s),L",
  mkPrevIndex 0x96 "RES 2,(IX%s)",
  mkPrevIndex 0x97 "RES 2,(IX%s),A",
  mkPrevIndex 0x98 "RES 3,(IX%s),B",
  mkPrevIndex 0x99 "RES 3,(IX%s),C",
  mkPrevIndex 0x9A "RES 3,(IX%s),D",
  mkPrevIndex 0x9B "RES 3,(IX%s),E",
  mkPrevIndex 0x9C "RES 3,(IX%s),H",
  mkPrevIndex 0x9D "RES 3,(IX%s),L",
  mkPrevIndex 0x9E "RES 3,(IX%s)",
  mkPrevIndex 0x9F "RES 3,(IX%s),A",
  mkPrevIndex 0xA0 "RES 4,(IX%s),B",
  mkPrevIndex 0xA1 "RES 4,(IX%s),C",
  mkPrevIndex 0xA2 "RES 4,(IX%s),D",
  mkPrevIndex 0xA3 "RES 4,(IX%s),E",
  mkPrevIndex 0xA4 "RES 4,(IX%s),H",
  mkPrevIndex 0xA5 "RES 4,(IX%s),L",
  mkPrevIndex 0xA6 "RES 4,(IX%s)",
  mkPrevIndex 0xA7 "RES 4,(IX%s),A",
  mkPrevIndex 0xA8 "RES 5,(IX%s),B",
  mkPrevIndex 0xA9 "RES 5,(IX%s),C",
  mkPrevIndex 0xAA "RES 5,(IX%s),D",
  mkPrevIndex 0xAB "RES 5,(IX%s),E",
  mkPrevIndex 0xAC "RES 5,(IX%s),H",
  mkPrevIndex 0xAD "RES 5,(IX%s),L",
  mkPrevIndex 0xAE "RES 5,(IX%s)",
  mkPrevIndex 0xAF "RES 5,(IX%s),A",
  mkPrevIndex 0xB0 "RES 6,(IX%s),B",
  mkPrevIndex 0xB1 "RES 6,(IX%s),C",
  mkPrevIndex 0xB2 "RES 6,(IX%s),D",
  mkPrevIndex 0xB3 "RES 6,(IX%s),E",
  mkPrevIndex 0xB4 "RES 6,(IX%s),H",
  mkPrevIndex 0xB5 "RES 6,(IX%s),L",
  mkPrevIndex 0xB6 "RES 6,(IX%s)",
  mkPrevIndex 0xB7 "RES 6,(IX%s),A",
  mkPrevIndex 0xB8 "RES 7,(IX%s),B",
  mkPrevIndex 0xB9 "RES 7,(IX%s),C",
  mkPrevIndex 0xBA "RES 7,(IX%s),D",
  mkPrevIndex 0xBB "RES 7,(IX%s),E",
  mkPrevIndex 0xBC "RES 7,(IX%s),H",
  mkPrevIndex 0xBD "RES 7,(IX%s),L",
  mkPrevIndex 0xBE "RES 7,(IX%s)",
  mkPrevIndex 0xBF "RES 7,(IX%s),A",
  mkPrevIndex 0xC0 "SET 0,(IX%s),B",
  mkPrevIndex 0xC1 "SET 0,(IX%s),C",
  mkPrevIndex 0xC2 "SET 0,(IX%s),D",
  mkPrevIndex 0xC3 "SET 0,(IX%s),E",
  mkPrevIndex 0xC4 "SET 0,(IX%s),H",
  mkPrevIndex 0xC5 "SET 0,(IX%s),L",
  mkPrevIndex 0xC6 "SET 0,(IX%s)",
  mkPrevIndex 0xC7 "SET 0,(IX%s),A",
  mkPrevIndex 0xC8 "SET 1,(IX%s),B",
  mkPrevIndex 0xC9 "SET 1,(IX%s),C",
  mkPrevIndex 0xCA "SET 1,(IX%s),D",
  mkPrevIndex 0xCB "SET 1,(IX%s),E",
  mkPrevIndex 0xCC "SET 1,(IX%s),H",
  mkPrevIndex 0xCD "SET 1,(IX%s),L",
  mkPrevIndex 0xCE "SET 1,(IX%s)",
  mkPrevIndex 0xCF "SET 1,(IX%s),A",
  mkPrevIndex 0xD0 "SET 2,(IX%s),B",
  mkPrevIndex 0xD1 "SET 2,(IX%s),C",
  mkPrevIndex 0xD2 "SET 2,(IX%s),D",
  mkPrevIndex 0xD3 "SET 2,(IX%s),E",
  mkPrevIndex 0xD4 "SET 2,(IX%s),H",
  mkPrevIndex 0xD5 "SET 2,(IX%s),L",
  mkPrevIndex 0xD6 "SET 2,(IX%s)",
  mkPrevIndex 0xD7 "SET 2,(IX%s),A",
  mkPrevIndex 0xD8 "SET 3,(IX%s),B",
  mkPrevIndex 0xD9 "SET 3,(IX%s),C",
  mkPrevIndex 0xDA "SET 3,(IX%s),D",
  mkPrevIndex 0xDB "SET 3,(IX%s),E",
  mkPrevIndex 0xDC "SET 3,(IX%s),H",
  mkPrevIndex 0xDD "SET 3,(IX%s),L",
  mkPrevIndex 0xDE "SET 3,(IX%s)",
  mkPrevIndex 0xDF "SET 3,(IX%s),A",
  mkPrevIndex 0xE0 "SET 4,(IX%s),B",
  mkPrevIndex 0xE1 "SET 4,(IX%s),C",
  mkPrevIndex 0xE2 "SET 4,(IX%s),D",
  mkPrevIndex 0xE3 "SET 4,(IX%s),E",
  mkPrevIndex 0xE4 "SET 4,(IX%s),H",
  mkPrevIndex 0xE5 "SET 4,(IX%s),L",
  mkPrevIndex 0xE6 "SET 4,(IX%s)",
  mkPrevIndex 0xE7 "SET 4,(IX%s),A",
  mkPrevIndex 0xE8 "SET 5,(IX%s),B",
  mkPrevIndex 0xE9 "SET 5,(IX%s),C",
  mkPrevIndex 0xEA "SET 5,(IX%s),D",
  mkPrevIndex 0xEB "SET 5,(IX%s),E",
  mkPrevIndex 0xEC "SET 5,(IX%s),H",
  mkPrevIndex 0xED "SET 5,(IX%s),L",
  mkPrevIndex 0xEE "SET 5,(IX%s)",
  mkPrevIndex 0xEF "SET 5,(IX%s),A",
  mkPrevIndex 0xF0 "SET 6,(IX%s),B",
  mkPrevIndex 0xF1 "SET 6,(IX%s),C",
  mkPrevIndex 0xF2 "SET 6,(IX%s),D",
  mkPrevIndex 0xF3 "SET 6,(IX%s),E",
  mkPrevIndex 0xF4 "SET 6,(IX%s),H",
  mkPrevIndex 0xF5 "SET 6,(IX%s),L",
  mkPrevIndex 0xF6 "SET 6,(IX%s)",
  mkPrevIndex 0xF7 "SET 6,(IX%s),A",
  mkPrevIndex 0xF8 "SET 7,(IX%s),B",
  mkPrevIndex 0xF9 "SET 7,(IX%s),C",
  mkPrevIndex 0xFA "SET 7,(IX%s),D",
  mkPrevIndex 0xFB "SET 7,(IX%s),E",
  mkPrevIndex 0xFC "SET 7,(IX%s),H",
  mkPrevIndex 0xFD "SET 7,(IX%s),L",
  mkPrevIndex 0xFE "SET 7,(IX%s)",
  mkPrevIndex 0xFF "SET 7,(IX%s),A"]

def opcodesDDRaw : List Opc :=
  [mkInvalid 0x00,
  mkInvalid 0x01,
  mkInvalid 0x02,
  mkInvalid 0x03,
  mkInvalid 0x04,
  mkInvalid 0x05,
  mkInvalid 0x06,
  mkInvalid 0x07,
  mkInvalid 0x08,
  mkOp 0x09 "ADD IX,BC",
  mkInvalid 0x0A,
  mkInvalid 0x0B,
  mkInvalid 0x0C,
  mkInvalid 0x0D,
  mkInvalid 0x0E,
  mkInvalid 0x0F,
  mkInvalid 0x10,
  mkInvalid 0x11,
  mkInvalid 0x12,
  mkInvalid 0x13,
  mkInvalid 0x14,
  mkInvalid 0x15,
  mkInvalid 0x16,
  mkInvalid 0x17,
  mkInvalid 0x18,
  mkOp 0x19 "ADD IX,DE",
  mkInvalid 0x1A,
  mkInvalid 0x1B,
  mkInvalid 0x1C,
  mkInvalid 0x1D,
  mkInvalid 0x1E,
  mkInvalid 0x1F,
  mkInvalid 0x20,
  mkOp 0x21 "LD IX,#nn",
  mkOp 0x22 "LD (#nn),IX",
  mkOp 0x23 "INC IX",
  mkOp 0x24 "INC IXH",
  mkOp 0x25 "DEC IXH",
  mkOp 0x26 "LD IXH,#n",
  mkInvalid 0x27,
  mkInvalid 0x28,
  mkOp 0x29 "ADD IX,IX",
  mkOp 0x2A "LD IX,(#nn)",
  mkOp 0x2B "DEC IX",
  mkOp 0x2C "INC IXL",
  mkOp 0x2D "DEC IXL",
  mkOp 0x2E "LD IXL,#n",
  mkInvalid 0x2F,
  mkInvalid 0x30,
  mkInvalid 0x31,
  mkInvalid 0x32,
  mkInvalid 0x33,
  mkIndex 0x34 "INC (IX%s)",
  mkIndex 0x35 "DEC (IX%s)",
  mkIndexImmediate 0x36 "LD (IX%s),%s",
  mkInvalid 0x37,
  mkInvalid 0x38,
  mkOp 0x39 "ADD IX,SP",
  mkInvalid 0x3A,
  mkInvalid 0x3B,
  mkInvalid 0x3C,
  mkInvalid 0x3D,
  mkInvalid 0x3E,
  mkInvalid 0x3F,
  mkInvalid 0x40,
  mkInvalid 0x41,
  mkInvalid 0x42,
  mkInvalid 0x43,
  mkOp 0x44 "LD B,IXH",
  mkOp 0x45 "LD B,IXL",
  mkIndex 0x46 "LD B,(IX%s)",
  mkInvalid 0x47,
  mkInvalid 0x48,
  mkInvalid 0x49,
  mkInvalid 0x4A,
  mkInvalid 0x4B,
  mkOp 0x4C "LD C,IXH",
  mkOp 0x4D "LD C,IXL",
  mkIndex 0x4E "LD C,(IX%s)",
  mkInvalid 0x4F,
  mkInvalid 0x50,
  mkInvalid 0x51,
  mkInvalid 0x52,
  mkInvalid 0x53,
  mkOp 0x54 "LD D,IXH",
  mkOp 0x55 "LD D,IXL",
  mkIndex 0x56 "LD D,(IX%s)",
  mkInvalid 0x57,
  mkInvalid 0x58,
  mkInvalid 0x59,
  mkInvalid 0x5A,
  mkInvalid 0x5B,
  mkOp 0x5C "LD E,IXH",
  mkOp 0x5D "LD E,IXL",
  mkIndex 0x5E "LD E,(IX%s)",
  mkInvalid 0x5F,
  mkOp 0x60 "LD IXH,B",
  mkOp 0x61 "LD IXH,C",
  mkOp 0x62 "LD IXH,D",
  mkOp 0x63 "LD IXH,E",
  mkOp 0x64 "LD IXH,IXH",
  mkOp 0x65 "LD IXH,IXL",
  mkIndex 0x66 "LD H,(IX%s)",
  mkOp 0x67 "LD IXH,A",
  mkOp 0x68 "LD IXL,B",
  mkOp 0x69 "LD IXL,C",
  mkOp 0x6A "LD IXL,D",
  mkOp 0x6B "LD IXL,E",
  mkOp 0x6C "LD IXL,IXH",
  mkOp 0x6D "LD IXL,IXL",
  mkIndex 0x6E "LD L,(IX%s)",
  mkOp 0x6F "LD IXL,A",
  mkIndex 0x70 "LD (IX%s),B",
  mkIndex 0x71 "LD (IX%s),C",
  mkIndex 0x72 "LD (IX%s),D",
  mkIndex 0x73 "LD (IX%s),E",
  mkIndex 0x74 "LD (IX%s),H",
  mkIndex 0x75 "LD (IX%s),L",
  mkInvalid 0x76,
  mkIndex 0x77 "LD (IX%s),A",
  mkInvalid 0x78,
  mkInvalid 0x79,
  mkInvalid 0x7A,
  mkInvalid 0x7B,
  mkOp 0x7C "LD A,IXH",
  mkOp 0x7D "LD A,IXL",
  mkIndex 0x7E "LD A,(IX%s)",
  mkInvalid 0x7F,
  mkInvalid 0x80,
  mkInvalid 0x81,
  mkInvalid 0x82,
  mkInvalid 0x83,
  mkOp 0x84 "ADD A,IXH",
  mkOp 0x85 "ADD A,IXL",
  mkIndex 0x86 "ADD A,(IX%s)",
  mkInvalid 0x87,
  mkInvalid 0x88,
  mkInvalid 0x89,
  mkInvalid 0x8A,
  mkInvalid 0x8B,
  mkOp 0x8C "ADC A,IXH",
  mkOp 0x8D "ADC A,IXL",
  mkIndex 0x8E "ADC A,(IX%s)",
  mkInvalid 0x8F,
  mkInvalid 0x90,
  mkInvalid 0x91,
  mkInvalid 0x92,
  mkInvalid 0x93,
  mkOp 0x94 "SUB IXH",
  mkOp 0x95 "SUB IXL",
  mkIndex 0x96 "SUB (IX%s)",
  mkInvalid 0x97,
  mkInvalid 0x98,
  mkInvalid 0x99,
  mkInvalid 0x9A,
  mkInvalid 0x9B,
  mkOp 0x9C "SBC A,IXH",
  mkOp 0x9D "SBC A,IXL",
  mkIndex 0x9E "SBC A,(IX%s)",
  mkInvalid 0x9F,
  mkInvalid 0xA0,
  mkInvalid 0xA1,
  mkInvalid 0xA2,
  mkInvalid 0xA3,
  mkOp 0xA4 "AND IXH",
  mkOp 0xA5 "AND IXL",
  mkIndex 0xA6 "AND (IX%s)",
  mkInvalid 0xA7,
  mkInvalid 0xA8,
  mkInvalid 0xA9,
  mkInvalid 0xAA,
  mkInvalid 0xAB,
  mkOp 0xAC "XOR IXH",
  mkOp 0xAD "XOR IXL",
  mkIndex 0xAE "XOR (IX%s)",
  mkInvalid 0xAF,
  mkInvalid 0xB0,
  mkInvalid 0xB1,
  mkInvalid 0xB2,
  mkInvalid 0xB3,
  mkOp 0xB4 "OR IXH",
  mkOp 0xB5 "OR IXL",
  mkIndex 0xB6 "OR (IX%s)",
  mkInvalid 0xB7,
  mkInvalid 0xB8,
  mkInvalid 0xB9,
  mkInvalid 0xBA,
  mkInvalid 0xBB,
  mkOp 0xBC "CP IXH",
  mkOp 0xBD "CP IXL",
  mkIndex 0xBE "CP (IX%s)",
  mkInvalid 0xBF,
  mkInvalid 0xC0,
  mkInvalid 0xC1,
  mkInvalid 0xC2,
  mkInvalid 0xC3,
  mkInvalid 0xC4,
  mkInvalid 0xC5,
  mkInvalid 0xC6,
  mkInvalid 0xC7,
  mkInvalid 0xC8,
  mkInvalid 0xC9,
  mkInvalid 0xCA,
  mkExtended2 0xCB TableId.ddcb,
  mkInvalid 0xCC,
  mkInvalid 0xCD,
  mkInvalid 0xCE,
  mkInvalid 0xCF,
  mkInvalid 0xD0,
  mkInvalid 0xD1,
  mkInvalid 0xD2,
  mkInvalid 0xD3,
  mkInvalid 0xD4,
  mkInvalid 0xD5,
  mkInvalid 0xD6,
  mkInvalid 0xD7,
  mkInvalid 0xD8,
  mkInvalid 0xD9,
  mkInvalid 0xDA,
  mkInvalid 0xDB,
  mkInvalid 0xDC,
  mkNOP 0xDD,
  mkInvalid 0xDE,
  mkInvalid 0xDF,
  mkInvalid 0xE0,
  mkOp 0xE1 "POP IX",
  mkInvalid 0xE2,
  mkOp 0xE3 "EX (SP),IX",
  mkInvalid 0xE4,
  mkOp 0xE5 "PUSH IX",
  mkInvalid 0xE6,
  mkInvalid 0xE7,
  mkInvalid 0xE8,
  mkOp 0xE9 "JP (IX)",
  mkInvalid 0xEA,
  mkInvalid 0xEB,
  mkInvalid 0xEC,
  mkNOP 0xED,
  mkInvalid 0xEE,
  mkInvalid 0xEF,
  mkInvalid 0xF0,
  mkInvalid 0xF1,
  mkInvalid 0xF2,
  mkInvalid 0xF3,
  mkInvalid 0xF4,
  mkInvalid 0xF5,
  mkInvalid 0xF6,
  mkInvalid 0xF7,
  mkInvalid 0xF8,
  mkOp 0xF9 "LD SP,IX",
  mkInvalid 0xFA,
  mkInvalid 0xFB,
  mkInvalid 0xFC,
  mkNOP 0xFD,
  mkInvalid 0xFE,
  mkInvalid 0xFF]

def Opcodes : List Opc :=
  [mkOp 0x00 "NOP",
  mkOp 0x01 "LD BC,#nn",
  mkOp 0x02 "LD (BC),A",
  mkOp 0x03 "INC BC",
  mkOp 0x04 "INC B",
  mkOp 0x05 "DEC B",
  mkOp 0x06 "LD B,#n",
  mkOp 0x07 "RLCA",
  mkOp 0x08 "EX AF,AF\x27",
  mkOp 0x09 "ADD HL,BC",
  mkOp 0x0A "LD A,(BC)",
  mkOp 0x0B "DEC BC",
  mkOp 0x0C "INC C",
  mkOp 0x0D "DEC C",
  mkOp 0x0E "LD C,#n",
  mkOp 0x0F "RRCA",
  mkOp 0x10 "DJNZ #n",
  mkOp 0x11 "LD DE,#nn",
  mkOp 0x12 "LD (DE),A",
  mkOp 0x13 "INC DE",
  mkOp 0x14 "INC D",
  mkOp 0x15 "DEC D",
  mkOp 0x16 "LD D,#n",
  mkOp 0x17 "RLA",
  mkOp 0x18 "JR #n",
  mkOp 0x19 "ADD HL,DE",
  mkOp 0x1A "LD A,(DE)",
  mkOp 0x1B "DEC DE",
  mkOp 0x1C "INC E",
  mkOp 0x1D "DEC E",
  mkOp 0x1E "LD E,#n",
  mkOp 0x1F "RRA",
  mkOp 0x20 "JR NZ,#n",
  mkOp 0x21 "LD HL,#nn",
  mkOp 0x22 "LD (#nn),HL",
  mkOp 0x23 "INC HL",
  mkOp 0x24 "INC H",
  mkOp 0x25 "DEC H",
  mkOp 0x26 "LD H,#n",
  mkOp 0x27 "DAA",
  mkOp 0x28 "JR Z,#n",
  mkOp 0x29 "ADD HL,HL",
  mkOp 0x2A "LD HL,(#nn)",
  mkOp 0x2B "DEC HL",
  mkOp 0x2C "INC L",
  mkOp 0x2D "DEC L",
  mkOp 0x2E "LD L,#n",
  mkOp 0x2F "CPL",
  mkOp 0x30 "JR NC,#n",
  mkOp 0x31 "LD SP,#nn",
  mkOp 0x32 "LD (#nn),A",
  mkOp 0x33 "INC SP",
  mkOp 0x34 "INC (HL)",
  mkOp 0x35 "DEC (HL)",
  mkOp 0x36 "LD (HL),#n",
  mkOp 0x37 "SCF",
  mkOp 0x38 "JR C,#n",
  mkOp 0x39 "ADD HL,SP",
  mkOp 0x3A "LD A,(#nn)",
  mkOp 0x3B "DEC SP",
  mkOp 0x3C "INC A",
  mkOp 0x3D "DEC A",
  mkOp 0x3E "LD A,#n",
  mkOp 0x3F "CCF",
  mkOp 0x40 "LD B,B",
  mkOp 0x41 "LD B,C",
  mkOp 0x42 "LD B,D",
  mkOp 0x43 "LD B,E",
  mkOp 0x44 "LD B,H",
  mkOp 0x45 "LD B,L",
  mkOp 0x46 "LD B,(HL)",
  mkOp 0x47 "LD B,A",
  mkOp 0x48 "LD C,B",
  mkOp 0x49 "LD C,C",
  mkOp 0x4A "LD C,D",
  mkOp 0x4B "LD C,E",
  mkOp 0x4C "LD C,H",
  mkOp 0x4D "LD C,L",
  mkOp 0x4E "LD C,(HL)",
  mkOp 0x4F "LD C,A",
  mkOp 0x50 "LD D,B",
  mkOp 0x51 "LD D,C",
  mkOp 0x52 "LD D,D",
  mkOp 0x53 "LD D,E",
  mkOp 0x54 "LD D,H",
  mkOp 0x55 "LD D,L",
  mkOp 0x56 "LD D,(HL)",
  mkOp 0x57 "LD D,A",
  mkOp 0x58 "LD E,B",
  mkOp 0x59 "LD E,C",
  mkOp 0x5A "LD E,D",
  mkOp 0x5B "LD E,E",
  mkOp 0x5C "LD E,H",
  mkOp 0x5D "LD E,L",
  mkOp 0x5E "LD E,(HL)",
  mkOp 0x5F "LD E,A",
  mkOp 0x60 "LD H,B",
  mkOp 0x61 "LD H,C",
  mkOp 0x62 "LD H,D",
  mkOp 0x63 "LD H,E",
  mkOp 0x64 "LD H,H",
  mkOp 0x65 "LD H,L",
  mkOp 0x66 "LD H,(HL)",
  mkOp 0x67 "LD H,A",
  mkOp 0x68 "LD L,B",
  mkOp 0x69 "LD L,C",
  mkOp 0x6A "LD L,D",
  mkOp 0x6B "LD L,E",
  mkOp 0x6C "LD L,H",
  mkOp 0x6D "LD L,L",
  mkOp 0x6E "LD L,(HL)",
  mkOp 0x6F "LD L,A",
  mkOp 0x70 "LD (HL),B",
  mkOp 0x71 "LD (HL),C",
  mkOp 0x72 "LD (HL),D",
  mkOp 0x73 "LD (HL),E",
  mkOp 0x74 "LD (HL),H",
  mkOp 0x75 "LD (HL),L",
  mkOp 0x76 "HALT",
  mkOp 0x77 "LD (HL),A",
  mkOp 0x78 "LD A,B",
  mkOp 0x79 "LD A,C",
  mkOp 0x7A "LD A,D",
  mkOp 0x7B "LD A,E",
  mkOp 0x7C "LD A,H",
  mkOp 0x7D "LD A,L",
  mkOp 0x7E "LD A,(HL)",
  mkOp 0x7F "LD A,A",
  mkOp 0x80 "ADD A,B",
  mkOp 0x81 "ADD A,C",
  mkOp 0x82 "ADD A,D",
  mkOp 0x83 "ADD A,E",
  mkOp 0x84 "ADD A,H",
  mkOp 0x85 "ADD A,L",
  mkOp 0x86 "ADD A,(HL)",
  mkOp 0x87 "ADD A,A",
  mkOp 0x88 "ADC A,B",
  mkOp 0x89 "ADC A,C",
  mkOp 0x8A "ADC A,D",
  mkOp 0x8B "ADC A,E",
  mkOp 0x8C "ADC A,H",
  mkOp 0x8D "ADC A,L",
  mkOp 0x8E "ADC A,(HL)",
  mkOp 0x8F "ADC A,A",
  mkOp 0x90 "SUB B",
  mkOp 0x91 "SUB C",
  mkOp 0x92 "SUB D",
  mkOp 0x93 "SUB E",
  mkOp 0x94 "SUB H",
  mkOp 0x95 "SUB L",
  mkOp 0x96 "SUB (HL)",
  mkOp 0x97 "SUB A",
  mkOp 0x98 "SBC A,B",
  mkOp 0x99 "SBC A,C",
  mkOp 0x9A "SBC A,D",
  mkOp 0x9B "SBC A,E",
  mkOp 0x9C "SBC A,H",
  mkOp 0x9D "SBC A,L",
  mkOp 0x9E "SBC A,(HL)",
  mkOp 0x9F "SBC A,A",
  mkOp 0xA0 "AND B",
  mkOp 0xA1 "AND C",
  mkOp 0xA2 "AND D",
  mkOp 0xA3 "AND E",
  mkOp 0xA4 "AND H",
  mkOp 0xA5 "AND L",
  mkOp 0xA6 "AND (HL)",
  mkOp 0xA7 "AND A",
  mkOp 0xA8 "XOR B",
  mkOp 0xA9 "XOR C",
  mkOp 0xAA "XOR D",
  mkOp 0xAB "XOR E",
  mkOp 0xAC "XOR H",
  mkOp 0xAD "XOR L",
  mkOp 0xAE "XOR (HL)",
  mkOp 0xAF "XOR A",
  mkOp 0xB0 "OR B",
  mkOp 0xB1 "OR C",
  mkOp 0xB2 "OR D",
  mkOp 0xB3 "OR E",
  mkOp 0xB4 "OR H",
  mkOp 0xB5 "OR L",
  mkOp 0xB6 "OR (HL)",
  mkOp 0xB7 "OR A",
  mkOp 0xB8 "CP B",
  mkOp 0xB9 "CP C",
  mkOp 0xBA "CP D",
  mkOp 0xBB "CP E",
  mkOp 0xBC "CP H",
  mkOp 0xBD "CP L",
  mkOp 0xBE "CP (HL)",
  mkOp 0xBF "CP A",
  mkOp 0xC0 "RET NZ",
  mkOp 0xC1 "POP BC",
  mkOp 0xC2 "JP NZ,#nn",
  mkOp 0xC3 "JP #nn",
  mkOp 0xC4 "CALL NZ,#nn",
  mkOp 0xC5 "PUSH BC",
  mkOp 0xC6 "ADD A,#n",
  mkOp 0xC7 "RST %s",
  mkOp 0xC8 "RET Z",
  mkOp 0xC9 "RET",
  mkOp 0xCA "JP Z,#nn",
  mkExtended 0xCB TableId.cb,
  mkOp 0xCC "CALL Z,#nn",
  mkOp 0xCD "CALL #nn",
  mkOp 0xCE "ADC A,#n",
  mkOp 0xCF "RST %s",
  mkOp 0xD0 "RET NC",
  mkOp 0xD1 "POP DE",
  mkOp 0xD2 "JP NC,#nn",
  mkOp 0xD3 "OUT (#n),A",
  mkOp 0xD4 "CALL NC,#nn",
  mkOp 0xD5 "PUSH DE",
  mkOp 0xD6 "SUB #n",
  mkOp 0xD7 "RST %s",
  mkOp 0xD8 "RET C",
  mkOp 0xD9 "EXX",
  mkOp 0xDA "JP C,#nn",
  mkOp 0xDB "IN A,(#n)",
  mkOp 0xDC "CALL C,#nn",
  mkExtended 0xDD TableId.dd,
  mkOp 0xDE "SBC A,#n",
  mkOp 0xDF "RST %s",
  mkOp 0xE0 "RET PO",
  mkOp 0xE1 "POP HL",
  mkOp 0xE2 "JP PO,#nn",
  mkOp 0xE3 "EX (SP),HL",
  mkOp 0xE4 "CALL PO,#nn",
  mkOp 0xE5 "PUSH HL",
  mkOp 0xE6 "AND #n",
  mkOp 0xE7 "RST %s",
  mkOp 0xE8 "RET PE",
  mkOp 0xE9 "JP (HL)",
  mkOp 0xEA "JP PE,#nn",
  mkOp 0xEB "EX DE,HL",
  mkOp 0xEC "CALL PE,#nn",
  mkExtended 0xED TableId.ed,
  mkOp 0xEE "XOR #n",
  mkOp 0xEF "RST %s",
  mkOp 0xF0 "RET P",
  mkOp 0xF1 "POP AF",
  mkOp 0xF2 "JP P,#nn",
  mkOp 0xF3 "DI",
  mkOp 0xF4 "CALL P,#nn",
  mkOp 0xF5 "PUSH AF",
  mkOp 0xF6 "OR #n",
  mkOp 0xF7 "RST %s",
  mkOp 0xF8 "RET M",
  mkOp 0xF9 "LD SP,HL",
  mkOp 0xFA "JP M,#nn",
  mkOp 0xFB "EI",
  mkOp 0xFC "CALL M,#nn",
  mkExtended 0xFD TableId.fd,
  mkOp 0xFE "CP #n",
  mkOp 0xFF "RST %s"]

/-- `Opcode.OpcodesED` after its `forEach(opcode => opcode.length++)` fix-up. -/
def OpcodesED : List Opc := opcodesEDRaw.map incLength

/-- `Opcode.OpcodesCB` after its length fix-up. -/
def OpcodesCB : List Opc := opcodesCBRaw.map incLength

/-- `Opcode.OpcodesDDCB` after its length fix-up. -/
def OpcodesDDCB : List Opc := opcodesDDCBRaw.map incLength

/-- `Opcode.OpcodesFDCB`: clones of the DDCB opcodes with "IX" replaced by
"IY" (the TS `replace` with a string pattern replaces the first occurrence;
every DDCB mnemonic contains exactly one "IX", so replacing all occurrences
is the same). -/
def OpcodesFDCB : List Opc := OpcodesDDCB.map (fun o => { o with name := o.name.replace "IX" "IY" })

/-- `Opcode.OpcodesDD` after its length fix-up. -/
def OpcodesDD : List Opc := opcodesDDRaw.map incLength

/-- `Opcode.OpcodesFD`: clones of the DD opcodes with "IX" replaced by "IY"
(a `/IX/g` regexp, i.e. all occurrences), except the 0xCB entry which becomes
a fresh `OpcodeExtended2` deferring to the FDCB table. -/
def OpcodesFD : List Opc :=
  OpcodesDD.map (fun o =>
    if o.code = 0xCB then mkExtended2 0xCB TableId.fdcb
    else { o with name := o.name.replace "IX" "IY" })

def tableFor : TableId → List Opc
  | .main => Opcodes
  | .cb => OpcodesCB
  | .ed => OpcodesED
  | .dd => OpcodesDD
  | .fd => OpcodesFD
  | .ddcb => OpcodesDDCB
  | .fdcb => OpcodesFDCB

/-! ### Decoding (`Opcode.getOpcodeAt` and its overrides) -/

/-- The two's-complement reading `if (value >= 0x80) value -= 0x100` applied
to a byte read. -/
def toSignedByte (v : Nat) : Int := if v ≥ 0x80 then (v : Int) - 0x100 else (v : Int)

/-- The terminal (non-prefix) `getOpcodeAt` overrides:
  * `OpcodePrevIndex.getOpcodeAt` reads the byte PREVIOUS to the passed
    address (the DDCB displacement quirk),
  * `OpcodeIndexImmediate.getOpcodeAt` reads displacement and immediate,
  * the base `Opcode.getOpcodeAt` switches on the value type. -/
def Opc.decodeTerminal (o : Opc) (m : Memory) (address : Int) : Opc :=
  match o.kind with
  | .prevIndex => { o with value := toSignedByte (m.getValueAt (address - 1)) }
  | .indexImmediate =>
    { o with value := toSignedByte (m.getValueAt (address + 1)),
             secondValue := (m.getValueAt (address + 2) : Int) }
  | _ =>
    match o.valueType with
    | .CODE_RST | .NONE => o
    | .CODE_LBL | .CODE_SUB | .DATA_LBL | .NUMBER_WORD =>
      { o with value := (m.getWordValueAt (address + 1) : Int) }
    | .NUMBER_WORD_BIG_ENDIAN =>
      { o with value := (m.getBigEndianWordValueAt (address + 1) : Int) }
    | .RELATIVE_INDEX => { o with value := toSignedByte (m.getValueAt (address + 1)) }
    | .CODE_LOCAL_LBL | .CODE_LOCAL_LOOP =>
      -- relative jump: change to absolute by adding the address after the instruction
      { o with value := toSignedByte (m.getValueAt (address + 1)) + address + 2 }
    | .NUMBER_BYTE | .PORT_LBL => { o with value := (m.getValueAt (address + 1) : Int) }

/-- The static `Opcode.getOpcodeAt(memory, address, opcodes)`: looks up the
byte at `address` in the table and lets the entry finish the decode.
`OpcodeExtended` re-enters at `address + 1` with its sub table,
`OpcodeExtended2` at `address + 2`.  The prefix chain is at most
main → DD/FD → DDCB/FDCB, so fuel 3 always suffices. -/
def getOpcodeAtIn (fuel : Nat) (m : Memory) (address : Int) (tid : TableId) : Opc :=
  match fuel with
  | 0 => default
  | f + 1 =>
    let memValue := m.getValueAt address
    let op := (tableFor tid).getD memValue default
    match op.kind with
    | .ext sub => getOpcodeAtIn f m (address + 1) sub
    | .ext2 sub => getOpcodeAtIn f m (address + 2) sub
    | _ => op.decodeTerminal m address

/-- `Opcode.getOpcodeAt(memory, address)` with the default (base) table. -/
def Opcode.getOpcodeAt (m : Memory) (address : Int) : Opc :=
  getOpcodeAtIn 3 m address TableId.main

/-! ### AsmNode and the disassembler context -/

/-- Modelled from the spec: asmnode.ts `AsmNode` — the fields are exactly the
ones used by smartdisassembler.ts and described in the data model (start
address, length, instruction list, optional label, data-reference addresses,
`isSubroutine`, `stop`, and the non-owning edge lists `branchNodes`,
`predecessors`, `callee`, `callers`).  Edges are indices into the node pool. -/
structure AsmNode where
  start : Int := 0
  length : Int := 0
  instructions : List Opc := []
  label : Option String := none
  dataReferences : List Int := []
  isSubroutine : Bool := false
  stop : Bool := false
  branchNodes : List Nat := []
  predecessors : List Nat := []
  callee : Option Nat := none
  callers : List Nat := []
deriving DecidableEq, Repr

instance : Inhabited AsmNode := ⟨{}⟩

/-- Modelled from the spec: skippseudoopcode.ts `SkipPseudoOpcode` — a pseudo
instruction covering `data.length` skipped inline data bytes. -/
def mkSkipPseudo (data : List Nat) : Opc :=
  { code := 0, name := "[skip]", flags := 0, valueType := .NONE,
    length := data.length, value := 0, secondValue := 0, kind := .normal }

/-- The mutable state of `SmartDisassembler` that the two passes and the
label assigner operate on (`this.memory`, `this.nodes`, `this.otherLabels`,
`this.comments`, `this.skipAddrs64k`, `this.funcGetLabel`), together with the
pool of all `AsmNode` objects ever created in the run.  `nodesList` is the
`this.nodes` JS `Map` as an insertion-ordered association list of
(address, pool index); placeholder nodes created by `getNodeForFill` live in
the pool without a `nodesList` entry. -/
structure Ctx where
  memory : Memory
  nodesList : List (Int × Nat) := []
  pool : List AsmNode := []
  otherLabels : List (Int × String) := []
  comments : List (Int × String) := []
  skipAddrs64k : List (Int × Nat) := []
  funcGetLabel : Int → Option String := fun _ => none

/-- `this.nodes.get(addr)`. -/
def Ctx.getNode? (c : Ctx) (addr : Int) : Option Nat :=
  (c.nodesList.find? (fun p => p.1 == addr)).map (·.2)

def Ctx.poolGet (c : Ctx) (i : Nat) : AsmNode := c.pool.getD i default

def Ctx.modifyNode (c : Ctx) (i : Nat) (f : AsmNode → AsmNode) : Ctx :=
  { c with pool := c.pool.set i (f (c.poolGet i)) }

/-- `createNodeInMap(addr)`: creates a node (start address only) and registers
it in the map. -/
def Ctx.createNodeInMap (c : Ctx) (addr : Int) : Ctx × Nat :=
  let id := c.pool.length
  ({ c with pool := c.pool ++ [({ start := addr } : AsmNode)],
            nodesList := c.nodesList ++ [(addr, id)] }, id)

/-- `Comments.addCommentForAddress` (comments.ts): appends a comment keyed by
the address. -/
def Ctx.addComment (c : Ctx) (addr : Int) (text : String) : Ctx :=
  { c with comments := c.comments ++ [(addr, text)] }

/-- `getSkipForAddress(addr)`. -/
def Ctx.getSkipForAddress (c : Ctx) (addr : Int) : Option Nat :=
  (c.skipAddrs64k.find? (fun p => p.1 == addr)).map (·.2)

/-! ### Label / comment text helpers -/

def hexDigitChar (n : Nat) : Char :=
  if n < 10 then Char.ofNat (48 + n) else Char.ofNat (55 + n)

def hexDigitsAux : Nat → Nat → List Char → List Char
  | 0, _, acc => acc
  | f + 1, n, acc => if n = 0 then acc else hexDigitsAux f (n / 16) (hexDigitChar (n % 16) :: acc)

/-- Modelled from the spec: utility.ts `Utility.getHexString(value, size)` —
uppercase hexadecimal, left-padded with zeroes to `size` digits (spec:
"2-hex-digit" / "4-hex-digit" label suffixes). -/
def getHexString (v : Int) (size : Nat) : String :=
  let ds := hexDigitsAux 16 v.toNat []
  String.mk (List.replicate (size - ds.length) '0' ++ ds)

/-- Modelled from the spec: format.ts `Format.getHexFormattedString` — a
formatted hex address such as "$8AF2" (see `funcFormatAddressHex`). -/
def getHexFormattedString (v : Int) (size : Nat) : String :=
  "$" ++ getHexString v size

/-- comments.ts `addAmbiguousComment` text. -/
def ambiguousMsg (targetAddress : Int) : String :=
  "The disassembly is ambiguous at " ++ getHexFormattedString targetAddress 4 ++ "."

/-- comments.ts `addBranchToUnassignedMemory` text. -/
def unassignedMsg (targetAddress : Int) : String :=
  "The disassembly branches into unassigned memory at " ++
    getHexFormattedString targetAddress 4 ++ "."

/-- A structural stable insertion sort (JS `Array.prototype.sort` is a stable
sort; the keys sorted in this file are unique, so any stable sort gives the
JS result).  Structural recursion keeps it reducible in the kernel. -/
def insertLe {α : Type} (le : α → α → Bool) (x : α) : List α → List α
  | [] => [x]
  | y :: t => if le x y then x :: y :: t else y :: insertLe le x t

def sortLe {α : Type} (le : α → α → Bool) (l : List α) : List α :=
  l.foldr (insertLe le) []

/-! ### Pass 1: `createNodes` / `createNodeForAddress` -/

def loopFuel : Nat := 70000

def pass1OuterFuel : Nat := 140000

/-- The skip-adjustment loop for the fall-through address of a CALL/RST in
pass 1: `while ((skip = this.getSkipForAddress(addr64k))) addr64k = (addr64k + skip) & 0xFFFF` . -/
def skipAdjust : Nat → Ctx → Int → Int
  | 0, _, a => a
  | f + 1, c, a =>
    match c.getSkipForAddress a with
    | some skip => if skip ≠ 0 then skipAdjust f c (((a + skip).toNat &&& 0xFFFF : Nat) : Int) else a
    | none => a

/-- The inner instruction walk of `createNodeForAddress`: marks the
instruction bytes, detects mis-aligned re-analysis, and returns the branch
addresses to enqueue. -/
def cnaInner : Nat → Ctx → Int → Ctx × List Int
  | 0, c, _ => (c, [])
  | f + 1, c, addr64k =>
    let refOpcode := Opcode.getOpcodeAt c.memory addr64k
    let flowAddr := c.memory.searchAddrWithAttribute MemAttribute.FLOW_ANALYZED (addr64k + 1)
      (refOpcode.length - 1)
    let mem1 := c.memory.addAttributesAt addr64k.toNat refOpcode.length
      (MemAttribute.FLOW_ANALYZED ||| MemAttribute.CODE)
    let mem2 := mem1.addAttributeAt addr64k.toNat MemAttribute.CODE_FIRST
    let c := { c with memory := mem2 }
    match flowAddr with
    | some fa =>
      -- mis-aligned earlier analysis: ambiguous, stop after this opcode
      (c.addComment addr64k (ambiguousMsg fa), [])
    | none =>
      let addr64k := addr64k + refOpcode.length
      let memAttrNext := c.memory.getAttributeAt addr64k
      let flags := refOpcode.flags
      if flags &&& OpcodeFlag.BRANCH_ADDRESS ≠ 0 then
        let branchAddress := refOpcode.value
        let pushed :=
          if flags &&& OpcodeFlag.STOP = 0 then [skipAdjust loopFuel c addr64k] else []
        (c, pushed ++ [branchAddress])
      else if addr64k > 0xFFFF then (c, [])
      else if flags &&& OpcodeFlag.RET ≠ 0 ∧ flags &&& OpcodeFlag.CONDITIONAL ≠ 0 then
        (c, [addr64k])
      else if memAttrNext &&& MemAttribute.FLOW_ANALYZED ≠ 0 then (c, [])
      else if flags &&& OpcodeFlag.STOP ≠ 0 then (c, [])
      else cnaInner f c addr64k

/-- The work-list loop of `createNodeForAddress` over `allBranchAddresses`. -/
def cnaOuter : Nat → Ctx → List Int → Nat → Ctx
  | 0, c, _, _ => c
  | f + 1, c, wl, i =>
    if h : i < wl.length then
      let addr64k := wl.get ⟨i, h⟩
      match c.getNode? addr64k with
      | some _ => cnaOuter f c wl (i + 1)
      | none =>
        let memAttr := c.memory.getAttributeAt addr64k
        if memAttr &&& MemAttribute.FLOW_ANALYZED ≠ 0 then
          if memAttr &&& MemAttribute.CODE_FIRST ≠ 0 then
            -- fits the earlier disassembly: just create the node
            cnaOuter f (c.createNodeInMap addr64k).1 wl (i + 1)
          else
            -- disassembly at an offset took place
            cnaOuter f (c.addComment addr64k (ambiguousMsg addr64k)) wl (i + 1)
        else if memAttr &&& MemAttribute.ASSIGNED = 0 then
          -- unassigned memory: silently abandon this branch of the walk
          cnaOuter f c wl (i + 1)
        else
          let (c, _) := c.createNodeInMap addr64k
          let (c, pushed) := cnaInner loopFuel c addr64k
          cnaOuter f c (wl ++ pushed) (i + 1)
    else c

/-- `createNodeForAddress(address64k)`. -/
def createNodeForAddress (c : Ctx) (address64k : Int) : Ctx :=
  cnaOuter pass1OuterFuel c [address64k] 0

/-- `createNodes(addresses)`: sorted ascending, then walked one by one. -/
def createNodes (c : Ctx) (addresses : List Int) : Ctx :=
  let sortedAdresses := sortLe (fun a b => decide (a ≤ b)) addresses
  sortedAdresses.foldl
    (fun c addr64k =>
      let memAttr := c.memory.getAttributeAt addr64k
      if memAttr &&& MemAttribute.FLOW_ANALYZED ≠ 0 then
        if memAttr &&& MemAttribute.CODE_FIRST = 0 then
          c.addComment addr64k (ambiguousMsg addr64k)
        else c
      else createNodeForAddress c addr64k)
    c

/-! ### Pass 1b: `createNodesForLabels` -/

/-- `createNodesForLabels`: a label on a `CODE_FIRST` address forces a node
(and names it); any other label goes to `otherLabels`. -/
def createNodesForLabels (c : Ctx) (addr64kLabels : List (Int × String)) : Ctx :=
  addr64kLabels.foldl
    (fun c p =>
      let addr64k := p.1
      let attr := c.memory.getAttributeAt addr64k
      if attr &&& MemAttribute.CODE_FIRST ≠ 0 then
        let (c, id) :=
          match c.getNode? addr64k with
          | some id => (c, id)
          | none => c.createNodeInMap addr64k
        c.modifyNode id (fun n => { n with label := some p.2 })
      else { c with otherLabels := c.otherLabels ++ [(addr64k, p.2)] })
    c

/-! ### Pass 2: `fillNodes` / `fillNode` / `getNodeForFill` -/

/-- `getAddressForCodeFirst(addr64k)`: steps backwards to the closest address
carrying `CODE_FIRST`.  (If none exists below, the source would loop without
end; the fuel returns the current address instead, a situation none of the
verified paths reach.) -/
def getAddressForCodeFirst (m : Memory) : Nat → Int → Int
  | 0, a => a
  | f + 1, a =>
    if m.getAttributeAt a &&& MemAttribute.CODE_FIRST ≠ 0 then a
    else getAddressForCodeFirst m f (a - 1)

/-- `getNodeForFill(originAddress, targetAddress)`: the node from the map, or
a fresh placeholder node (not registered in the map) together with an
ambiguity / branch-to-unassigned-memory diagnostic keyed by the origin. -/
def getNodeForFill (c : Ctx) (originAddress targetAddress : Int) : Ctx × Nat :=
  match c.getNode? targetAddress with
  | some otherNode => (c, otherNode)
  | none =>
    let id := c.pool.length
    let c := { c with pool := c.pool ++ [({ start := targetAddress } : AsmNode)] }
    let attr := c.memory.getAttributeAt targetAddress
    if attr &&& MemAttribute.ASSIGNED ≠ 0 then
      (c.addComment originAddress (ambiguousMsg targetAddress), id)
    else
      (c.addComment originAddress (unassignedMsg targetAddress), id)

/-- The skip loop inside `fillNode` (adds `SkipPseudoOpcode` instructions;
note: unlike pass 1 it does not mask the address). -/
def fillSkips : Nat → Ctx → Nat → Int → Ctx × Int
  | 0, c, _, a => (c, a)
  | f + 1, c, id, addr64k =>
    match c.getSkipForAddress addr64k with
    | some skip =>
      if skip ≠ 0 then
        let data := c.memory.getData addr64k skip
        let c := c.modifyNode id
          (fun n => { n with instructions := n.instructions ++ [mkSkipPseudo data] })
        fillSkips f c id (addr64k + skip)
      else (c, addr64k)
    | none => (c, addr64k)

/-- Sets `node.length = addr64k - node.start` at the end of `fillNode`. -/
def setNodeLength (c : Ctx) (id : Nat) (addr64k : Int) : Ctx :=
  c.modifyNode id (fun n => { n with length := addr64k - n.start })

/-- The instruction walk of `fillNode`: collects instructions and data
references, creates the branch / fall-through / call edges, marks
`isSubroutine` on RET and `stop` on stop codes, and finally sets the length. -/
def fnLoop : Nat → Ctx → Nat → Int → Ctx
  | 0, c, id, addr => setNodeLength c id addr
  | f + 1, c, id, addr64k =>
    let opcode := Opcode.getOpcodeAt c.memory addr64k
    -- referenced data addresses (adjusted into CODE to the instruction start)
    let c :=
      if opcode.valueType = .DATA_LBL then
        let adjAddr64k := opcode.value
        let attr := c.memory.getAttributeAt adjAddr64k
        let adjAddr64k :=
          if attr &&& MemAttribute.CODE ≠ 0 then
            getAddressForCodeFirst c.memory (loopFuel) adjAddr64k
          else adjAddr64k
        c.modifyNode id (fun n => { n with dataReferences := n.dataReferences ++ [adjAddr64k] })
      else c
    let c := c.modifyNode id (fun n => { n with instructions := n.instructions ++ [opcode] })
    let lastAddr64k := addr64k
    let addr64k := addr64k + opcode.length
    let flags := opcode.flags
    if flags &&& OpcodeFlag.BRANCH_ADDRESS ≠ 0 then
      let branchAddress := opcode.value
      -- first the natural flow (unless a stop code), including skips
      let (c, addr64k) :=
        if flags &&& OpcodeFlag.STOP = 0 then
          let (c, addr64k) := fillSkips loopFuel c id addr64k
          if addr64k < 0x10000 then
            let (c, followingNode) :=
              getNodeForFill c lastAddr64k ((addr64k.toNat &&& 0xFFFF : Nat) : Int)
            let c := c.modifyNode id
              (fun n => { n with branchNodes := n.branchNodes ++ [followingNode] })
            let c := c.modifyNode followingNode
              (fun n => { n with predecessors := n.predecessors ++ [id] })
            (c, addr64k)
          else (c, addr64k)
        else (c, addr64k)
      -- now the branch
      let (c, branchNode) := getNodeForFill c lastAddr64k branchAddress
      let c :=
        if flags &&& OpcodeFlag.CALL ≠ 0 then
          let c := c.modifyNode id (fun n => { n with callee := some branchNode })
          c.modifyNode branchNode (fun n => { n with callers := n.callers ++ [id] })
        else
          let c := c.modifyNode id (fun n => { n with branchNodes := n.branchNodes ++ [branchNode] })
          c.modifyNode branchNode (fun n => { n with predecessors := n.predecessors ++ [id] })
      let c :=
        if flags &&& OpcodeFlag.STOP ≠ 0 then c.modifyNode id (fun n => { n with stop := true })
        else c
      setNodeLength c id addr64k
    else
      let c :=
        if flags &&& OpcodeFlag.RET ≠ 0 then
          c.modifyNode id (fun n => { n with isSubroutine := true })
        else c
      if flags &&& OpcodeFlag.STOP ≠ 0 then
        setNodeLength (c.modifyNode id (fun n => { n with stop := true })) id addr64k
      else if addr64k > 0xFFFF then setNodeLength c id addr64k
      else
        match c.getNode? addr64k with
        | some followingNode =>
          let c := c.modifyNode id
            (fun n => { n with branchNodes := n.branchNodes ++ [followingNode] })
          let c := c.modifyNode followingNode
            (fun n => { n with predecessors := n.predecessors ++ [id] })
          setNodeLength c id addr64k
        | none =>
          match c.memory.searchAddrWithAttribute MemAttribute.CODE_FIRST (lastAddr64k + 1)
              (opcode.length - 1) with
          | some _ => setNodeLength c id addr64k
          | none => fnLoop f c id addr64k

/-- `fillNode(node)`. -/
def fillNode (c : Ctx) (id : Nat) : Ctx :=
  fnLoop loopFuel c id (c.poolGet id).start

/-- `fillNodes()`: fills every node of the map. -/
def fillNodes (c : Ctx) : Ctx :=
  c.nodesList.foldl (fun c p => fillNode c p.2) c

/-! ### `markSubroutines` -/

/-- Modelled from the spec: asmnode.ts `markPredecessorsAsSubroutine` — the
fixed-point backward propagation: an already-marked node stops the walk,
otherwise the node is marked and its transitive predecessors are visited
(iteratively, per the spec concurrency notes; the fuel bounds the depth by
the pool size). -/
def markPredecessorsAsSubroutine : Nat → Ctx → Nat → Ctx
  | 0, c, _ => c
  | f + 1, c, id =>
    if (c.poolGet id).isSubroutine then c
    else
      let c := c.modifyNode id (fun n => { n with isSubroutine := true })
      (c.poolGet id).predecessors.foldl (fun c p => markPredecessorsAsSubroutine f c p) c

/-- One iteration of the `markSubroutines` loop, for the map entry `p`. -/
def markSubroutinesStep (c : Ctx) (p : Int × Nat) : Ctx :=
  let node := c.poolGet p.2
  if node.isSubroutine then
    node.predecessors.foldl
      (fun c predec => markPredecessorsAsSubroutine (c.pool.length + 1) c predec) c
  else if node.callers.length ≠ 0 then
    c.modifyNode p.2 (fun n => { n with isSubroutine := true })
  else c

/-- `markSubroutines()`: propagates `isSubroutine` backwards from RET nodes,
and marks any node that has callers. -/
def markSubroutines (c : Ctx) : Ctx :=
  c.nodesList.foldl markSubroutinesStep c

/-! ### `partitionBlocks` -/

/-- Modelled from the spec: asmnode.ts `getBranchesRecursive(list)` — collects
the node and, recursively, everything reachable over `branchNodes` (§3
"Block": the closure under fallthrough/branch continuation), skipping nodes
already collected. -/
def getBranchesRecursive (c : Ctx) : Nat → List Nat → Nat → List Nat
  | 0, acc, _ => acc
  | f + 1, acc, id =>
    if acc.contains id then acc
    else (c.poolGet id).branchNodes.foldl (getBranchesRecursive c f) (acc ++ [id])

/-- One JS `Array.fill(value, start, end)` on the 64K `blocks` array. -/
def blocksFill (b : Int → Option Nat) (v : Option Nat) (a e : Int) : Int → Option Nat :=
  fun k => if a ≤ k ∧ k < e ∧ 0 ≤ k ∧ k < 0x10000 then v else b k

/-- State of the `partitionBlocks` scan. -/
structure PartSt where
  writes : List (Option Nat × Int × Int) := []
  blockNode : Option Nat := none
  blockBranches : List Nat := []
  addr : Option Int := none

/-- The `partitionBlocks` scan over the address-sorted nodes.  The scan never
reads the `blocks` array, so its `fill` calls are collected as a write list
(value, start, end) and applied afterwards. -/
def partitionWrites (c : Ctx) : List (Option Nat × Int × Int) :=
  let sortedNodes := sortLe
    (fun a b => decide ((c.poolGet a).start ≤ (c.poolGet b).start)) (c.nodesList.map (·.2))
  (sortedNodes.foldl
    (fun (st : PartSt) id =>
      let node := c.poolGet id
      if st.addr ≠ some node.start ∨ node.callers.length > 0 ∨ ¬ st.blockBranches.contains id
      then
        -- block start
        let blockBranches := getBranchesRecursive c (c.pool.length + 1) [] id
        { writes := st.writes ++ [(some id, node.start, node.start + node.length)],
          blockNode := some id, blockBranches := blockBranches,
          addr := some (node.start + node.length) }
      else
        { st with
          writes := st.writes ++
            [(st.blockNode, node.start, node.start + node.length)],
          addr := some (node.start + node.length) })
    {}).writes

def applyBlockWrites (ws : List (Option Nat × Int × Int)) (b : Int → Option Nat) :
    Int → Option Nat :=
  ws.foldl (fun b w => blocksFill b w.1 w.2.1 w.2.2) b

/-- `partitionBlocks()`: fills the address → block-leader lookup. -/
def partitionBlocks (c : Ctx) (b : Int → Option Nat) : Int → Option Nat :=
  applyBlockWrites (partitionWrites c) b

/-! ### Label assignment (`assignNodeLabels` / `assignLocalLabels`) -/

/-- Modelled from the spec: asmnode.ts `otherReference()` — the node is
referenced out of the normal flow: it has callers, or a predecessor whose
instruction run does not fall straight through onto it (an edge that is not
simple top-down fallthrough). -/
def otherReference (c : Ctx) (id : Nat) : Bool :=
  let n := c.poolGet id
  n.callers.length > 0 ||
    n.predecessors.any (fun p => (c.poolGet p).start + (c.poolGet p).length != n.start)

/-- Modelled from the spec: asmnode.ts `isLoopRoot()` — the node is reached
via a backward edge: some predecessor does not start below it. -/
def isLoopRoot (c : Ctx) (id : Nat) : Bool :=
  (c.poolGet id).predecessors.any (fun p => (c.poolGet p).start ≥ (c.poolGet id).start)

/-- The collection walk of `assignLocalLabels`: walks the blocks of `node`
from its start address, collecting label-less nodes referenced out of the
normal flow, split into plain local nodes and loop roots. -/
def allWalk (c : Ctx) (blocks : Int → Option Nat) (root : Nat) :
    Nat → Nat → Int → List Nat × List Nat → List Nat × List Nat
  | 0, _, _, acc => acc
  | f + 1, blockNode, addr, (localNodes, loopNodes) =>
    if addr < 0x10000 then
      let bnode := c.poolGet blockNode
      let (localNodes, loopNodes) :=
        if otherReference c blockNode then
          if bnode.label = none then
            if isLoopRoot c blockNode then (localNodes, loopNodes ++ [blockNode])
            else (localNodes ++ [blockNode], loopNodes)
          else (localNodes, loopNodes)
        else (localNodes, loopNodes)
      let addr := addr + bnode.length
      if blocks addr ≠ some root then (localNodes, loopNodes)
      else
        match c.getNode? addr with
        | some next => allWalk c blocks root f next addr (localNodes, loopNodes)
        | none => (localNodes, loopNodes)
    else (localNodes, loopNodes)

/-- Labels a list of nodes `pre ++ base ++ i` with `i` counting from `start`. -/
def labelNumbered (c : Ctx) (pre base : String) (start : Nat) (ids : List Nat) : Ctx :=
  (ids.foldl
    (fun (p : Ctx × Nat) ln =>
      (p.1.modifyNode ln (fun n => { n with label := some (pre ++ base ++ toString p.2) }),
        p.2 + 1))
    (c, start)).1

/-- `assignLocalLabels(node)`: collects the interior nodes of the block that
need names, then numbers them ".L1", ".L2", … and ".LOOP"/".LOOP1", … under
the block label; if the block's leading node has no label, global
"LBL_xxxx" names are used instead. -/
def assignLocalLabels (c : Ctx) (blocks : Int → Option Nat) (id : Nat) : Ctx :=
  let acc := allWalk c blocks id loopFuel id (c.poolGet id).start ([], [])
  let localNodes := acc.1
  let loopNodes := acc.2
  match (c.poolGet id).label with
  | some lbl =>
    let preLabel := lbl ++ "."
    -- number the local labels ("L" prefix)
    let c := labelNumbered c preLabel "L" 1 localNodes
    -- number the local loops ("LOOP"); a single loop omits the index
    if loopNodes.length = 1 then
      c.modifyNode (loopNodes.getD 0 0)
        (fun n => { n with label := some (preLabel ++ "LOOP") })
    else labelNumbered c preLabel "LOOP" 1 loopNodes
  | none =>
    -- global labels instead of local ones
    let c := localNodes.foldl
      (fun c ln => c.modifyNode ln
        (fun n => { n with label := some ("LBL_" ++ getHexString (c.poolGet ln).start 4) })) c
    loopNodes.foldl
      (fun c ln => c.modifyNode ln
        (fun n => { n with label := some ("LBL_" ++ getHexString (c.poolGet ln).start 4) })) c

/-- `assignNodeLabels()`: for each block-leading node without a label and with
callers or predecessors, assigns "RST_xx" (when the start address has only
bits of 0b00111000, i.e. `start & ~0b00111000` is zero in 32-bit arithmetic),
"SUB_xxxx" (subroutine) or "LBL_xxxx"; then assigns the local labels inside
the block. -/
def assignNodeLabelsStep (blocks : Int → Option Nat) (c : Ctx) (p : Int × Nat) : Ctx :=
  let addr64k := p.1
  match blocks addr64k with
  | none => c  -- a label has been requested for a not analyzed address
  | some blockNode =>
    if blockNode = p.2 then
      let node := c.poolGet p.2
      let c :=
        if node.label = none then
          if node.callers.length > 0 ∨ node.predecessors.length > 0 then
            if (c.poolGet blockNode).isSubroutine then
              if (c.poolGet blockNode).start.toNat &&& 0xFFFFFFC7 ≠ 0 then
                -- normal CALL
                c.modifyNode p.2
                  (fun n => { n with label := some ("SUB_" ++ getHexString addr64k 4) })
              else
                -- RST address
                c.modifyNode p.2
                  (fun n => { n with label := some ("RST_" ++ getHexString addr64k 2) })
            else
              c.modifyNode p.2
                (fun n => { n with label := some ("LBL_" ++ getHexString addr64k 4) })
          else c
        else c
      assignLocalLabels c blocks p.2
    else c

/-- `assignNodeLabels()`: the loop over the node map. -/
def assignNodeLabels (c : Ctx) (blocks : Int → Option Nat) : Ctx :=
  c.nodesList.foldl (assignNodeLabelsStep blocks) c

/-! ### `assignOpcodeReferenceLabels` -/

/-- `assignOpcodeReferenceLabels()`: for each collected data reference without
a resolvable label, synthesizes a "CODE_xxxx" (qualified by the owning block
label when present) or "DATA_xxxx" entry in `otherLabels`. -/
def assignOpcodeReferenceLabels (c : Ctx) (blocks : Int → Option Nat) : Ctx :=
  c.nodesList.foldl
    (fun c p =>
      (c.poolGet p.2).dataReferences.foldl
        (fun c addr64k =>
          let label := c.funcGetLabel addr64k
          let label := match label with
            | some l => some l
            | none => (c.getNode? addr64k).bind (fun id => (c.poolGet id).label)
          let label := match label with
            | some l => some l
            | none => (c.otherLabels.find? (fun (q : Int × String) => q.1 == addr64k)).map (fun (q : Int × String) => q.2)
          match label with
          | some _ => c
          | none =>
            let attr := c.memory.getAttributeAt addr64k
            if attr &&& MemAttribute.CODE ≠ 0 then
              match blocks addr64k with
              | none => c  -- the source asserts here; not reached on verified paths
              | some blockNode =>
                let lbl :=
                  match (c.poolGet blockNode).label with
                  | some bl => bl ++ "." ++ "CODE_" ++ getHexString addr64k 4
                  | none => "CODE_" ++ getHexString addr64k 4
                { c with otherLabels := c.otherLabels ++ [(addr64k, lbl)] }
            else
              { c with otherLabels :=
                  c.otherLabels ++ [(addr64k, "DATA_" ++ getHexString addr64k 4)] })
        c)
    c

/-! ### The SmartDisassembler state and `getFlowGraph` -/

/-- The relevant per-instance state of smartdisassembler.ts
`SmartDisassembler`: the memory, the node map (plus the node pool backing
it), the 64K `blocks` lookup, `otherLabels`, the comments sink, the skip
table, and the injected label-lookup function. -/
structure SmartDisassembler where
  memory : Memory
  nodesList : List (Int × Nat)
  pool : List AsmNode
  blocks : Int → Option Nat
  otherLabels : List (Int × String)
  comments : List (Int × String)
  skipAddrs64k : List (Int × Nat)
  funcGetLabel : Int → Option String

/-- A freshly constructed `SmartDisassembler`. -/
def SmartDisassembler.init : SmartDisassembler :=
  { memory := Memory.init, nodesList := [], pool := [], blocks := fun _ => none,
    otherLabels := [], comments := [], skipAddrs64k := [], funcGetLabel := fun _ => none }

/-- `setMemory(origin, memory)` on the disassembler. -/
def SmartDisassembler.setMemory (s : SmartDisassembler) (origin : Nat) (data : List Nat) :
    SmartDisassembler :=
  { s with memory := s.memory.setMemory origin data }

/-- `getFlowGraph(addresses, labels)`: clears the node/label/comment state,
resets every memory attribute flag except `ASSIGNED`, creates the nodes
(pass 1 and 1b), fills them (pass 2), marks subroutines, partitions blocks
and assigns the labels. -/
def getFlowGraph (s : SmartDisassembler) (addresses : List Int)
    (labels : List (Int × String)) : SmartDisassembler :=
  let c : Ctx :=
    { memory := s.memory.resetAttributeFlag (0xFFFFFFFF ^^^ MemAttribute.ASSIGNED),
      nodesList := [], pool := [], otherLabels := [], comments := [],
      skipAddrs64k := s.skipAddrs64k, funcGetLabel := s.funcGetLabel }
  let c := createNodes c addresses
  let c := createNodesForLabels c labels
  let c := fillNodes c
  let c := markSubroutines c
  let blocks := partitionBlocks c s.blocks
  let c := assignNodeLabels c blocks
  let c := assignOpcodeReferenceLabels c blocks
  { memory := c.memory, nodesList := c.nodesList, pool := c.pool, blocks := blocks,
    otherLabels := c.otherLabels, comments := c.comments,
    skipAddrs64k := c.skipAddrs64k, funcGetLabel := c.funcGetLabel }

/-- `getNodeForAddress(addr64k)`, resolved to the node record. -/
def SmartDisassembler.nodeAt (s : SmartDisassembler) (addr : Int) : Option AsmNode :=
  ((s.nodesList.find? (fun p => p.1 == addr)).map (·.2)).map (fun i => s.pool.getD i default)

/-- The pool index of the map node at an address. -/
def SmartDisassembler.nodeIdAt (s : SmartDisassembler) (addr : Int) : Option Nat :=
  (s.nodesList.find? (fun p => p.1 == addr)).map (·.2)

/-- The comments recorded for one address, in order (the string list of the
comments.ts `addrComments` map entry). -/
def SmartDisassembler.commentsAt (s : SmartDisassembler) (addr : Int) : List String :=
  (s.comments.filter (fun p => p.1 == addr)).map (·.2)

/-! ### Concrete analysis scenarios used by the claims -/

/-- Scenario A memory: `CD 10 80` (CALL 0x8010) at 0x8000, `C9` (RET) at
0x8003, `3E 05 C9` (LD A,5; RET) at 0x8010. -/
def scenAmem : Memory :=
  ((Memory.init.setMemory 0x8000 [0xCD, 0x10, 0x80]).setMemory 0x8003 [0xC9]).setMemory
    0x8010 [0x3E, 0x05, 0xC9]

/-- Scenario A: a fresh analysis of the image above from entry 0x8000. -/
def scenArun : SmartDisassembler :=
  getFlowGraph { SmartDisassembler.init with memory := scenAmem } [0x8000] []

/-- Scenario "call into unassigned memory": `CD 00 90` (CALL 0x9000) at
0x8000 and nothing loaded at 0x9000 (nor at the return address 0x8003). -/
def scenCallUnassignedRun : SmartDisassembler :=
  getFlowGraph
    { SmartDisassembler.init with memory := Memory.init.setMemory 0x8000 [0xCD, 0x00, 0x90] }
    [0x8000] []

/-- Scenario "bare RET entry": a single `C9` (RET) at 0x8000, analyzed from
entry 0x8000: the node ends in RET (so `isSubroutine` is set) but has no
callers and no predecessors. -/
def scenRetOnlyRun : SmartDisassembler :=
  getFlowGraph
    { SmartDisassembler.init with memory := Memory.init.setMemory 0x8000 [0xC9] }
    [0x8000] []

/-- Scenario D: `C3 00 90` (JP 0x9000) at 0x8000 with the target 0x9000 never
loaded. -/
def scenJpUnassignedRun : SmartDisassembler :=
  getFlowGraph
    { SmartDisassembler.init with memory := Memory.init.setMemory 0x8000 [0xC3, 0x00, 0x90] }
    [0x8000] []

/-! ### Claim C9 -/

/-- The memory image for the C9 overflow witness: `18 05` (JR +5) at 0xFFFE. -/
def c9mem : Memory := Memory.init.setMemory 0xFFFE [0x18, 0x05]

/-! ### Claim C10: `Memory.setMemory` -/

/-- One write step of the `setMemory` loop. -/
def writeStep (origin : Nat) (m : Memory) (i b : Nat) : Memory :=
  { m with
    bytes := fun k => if k = (origin + i) &&& (MAX_MEM_SIZE - 1) then b % 256 else m.bytes k,
    attrs := fun k =>
      if k = (origin + i) &&& (MAX_MEM_SIZE - 1) then m.attrs k ||| MemAttribute.ASSIGNED
      else m.attrs k }

/-- A base memory with a pre-existing attribute bit, for the C10 witness. -/
def c10base : Memory := { bytes := fun _ => 0, attrs := fun k => if k = 5 then 0x40 else 0 }

/-! ### Claim C8: branch into unassigned memory -/

/-- The observable facts of one map node: address key, pool id, length,
callee, label, isSubroutine, callers, predecessors. -/
structure NodeFact where
  addr : Int
  id : Nat
  len : Int
  callee : Option Nat
  label : Option String
  isSub : Bool
  callers : List Nat
  predecessors : List Nat
deriving DecidableEq, Repr

/-- The observable facts of each map node of an analysis result. -/
def nodeFacts (s : SmartDisassembler) : List NodeFact :=
  s.nodesList.map (fun p =>
    let n := s.pool.getD p.2 default
    ⟨p.1, p.2, n.length, n.callee, n.label, n.isSubroutine, n.callers, n.predecessors⟩)

/-- A context with empty memory for the C8 witness. -/
def c8wctx : Ctx := { memory := Memory.init }

/-- `c\x27` differs from `c` only in `isSubroutine` flags of pool nodes. -/
def SubOnly (c c' : Ctx) : Prop :=
  c'.nodesList = c.nodesList ∧ c'.pool.length = c.pool.length ∧
  ∀ i, c'.poolGet i = { c.poolGet i with isSubroutine := (c'.poolGet i).isSubroutine }

/-- A small context for the C2 witness: node 0 is called by node 1. -/
def c2wctx : Ctx :=
  { memory := Memory.init,
    nodesList := [(0, 0), (1, 1)],
    pool := [{ start := 0, callers := [1] }, { start := 1, callee := some 0 }] }

/-! ### Claim C4: label assignment by `assignNodeLabels` -/

/-- The label the step assigns to an unlabeled, referenced block-leading
node (the three branches of assignNodeLabels). -/
def anlLabelFor (c : Ctx) (a : Int) (id : Nat) : String :=
  if (c.poolGet id).isSubroutine = true then
    if (c.poolGet id).start.toNat &&& 0xFFFFFFC7 ≠ 0 then "SUB_" ++ getHexString a 4
    else "RST_" ++ getHexString a 2
  else "LBL_" ++ getHexString a 4

/-- `c\x27` differs from `c` only in the `label` fields of pool nodes. -/
def LabelOnly (c c' : Ctx) : Prop :=
  c'.nodesList = c.nodesList ∧ c'.pool.length = c.pool.length ∧
  ∀ i, c'.poolGet i = { c.poolGet i with label := (c'.poolGet i).label }

/-- A small context for the C4 witness: one map node at the RST address 0x20,
a subroutine with one caller and no label. -/
def c4wctx : Ctx :=
  { memory := Memory.init,
    nodesList := [(0x20, 0)],
    pool := [{ start := 0x20, length := 1, isSubroutine := true, callers := [1] }] }

/-- The blocks function for the C4 witness: the node at 0x20 leads its own
block. -/
def c4wblocks : Int → Option Nat := fun a => if a = 0x20 then some 0 else none

/-! ### Claim C3: idempotence of the full build -/

/-- `c\x27` preserves the fields of `c` that seed a re-analysis: the memory,
the skip table and the injected label lookup. -/
def CtxAux (c c' : Ctx) : Prop :=
  c'.memory = c.memory ∧ c'.skipAddrs64k = c.skipAddrs64k ∧
  c'.funcGetLabel = c.funcGetLabel

/-- `c\x27` preserves what seeds a re-analysis: the memory bytes, the ASSIGNED
attribute bit, the skip table and the injected label lookup. -/
def CtxBase (c c' : Ctx) : Prop :=
  c'.memory.bytes = c.memory.bytes ∧
  (∀ k, c'.memory.attrs k &&& MemAttribute.ASSIGNED =
    c.memory.attrs k &&& MemAttribute.ASSIGNED) ∧
  c'.skipAddrs64k = c.skipAddrs64k ∧ c'.funcGetLabel = c.funcGetLabel

/-- The initial `Ctx` set up at the top of `getFlowGraph`: cleared node /
label / comment state with every memory attribute flag except ASSIGNED
reset. -/
def initCtx (s : SmartDisassembler) : Ctx :=
  { memory := s.memory.resetAttributeFlag (0xFFFFFFFF ^^^ MemAttribute.ASSIGNED),
    nodesList := [], pool := [], otherLabels := [], comments := [],
    skipAddrs64k := s.skipAddrs64k, funcGetLabel := s.funcGetLabel }

/-- The pipeline of `getFlowGraph` after the state reset, returning the final
context and the partitioned `blocks` lookup. -/
def gfgCore (c : Ctx) (b0 : Int → Option Nat) (addresses : List Int)
    (labels : List (Int × String)) : Ctx × (Int → Option Nat) :=
  let c := createNodes c addresses
  let c := createNodesForLabels c labels
  let c := fillNodes c
  let c := markSubroutines c
  let blocks := partitionBlocks c b0
  let c := assignNodeLabels c blocks
  let c := assignOpcodeReferenceLabels c blocks
  (c, blocks)


/-! ### Helper lemmas about the decoder -/

theorem getOpcodeAtIn_succ (f : Nat) (m : Memory) (a : Int) (tid : TableId) :
    getOpcodeAtIn (f + 1) m a tid =
      (match ((tableFor tid).getD (m.getValueAt a) default).kind with
       | .ext sub => getOpcodeAtIn f m (a + 1) sub
       | .ext2 sub => getOpcodeAtIn f m (a + 2) sub
       | _ => ((tableFor tid).getD (m.getValueAt a) default).decodeTerminal m a) := rfl

/-- Decoding a byte whose main-table entry is a terminal (non-prefix) opcode. -/
theorem getOpcodeAt_eq_of_normal (m : Memory) (a : Int) (b : Nat) (o : Opc)
    (hbyte : m.getValueAt a = b) (htab : (tableFor TableId.main).getD b default = o)
    (hk : o.kind = OpKind.normal) :
    Opcode.getOpcodeAt m a = o.decodeTerminal m a := by
  show getOpcodeAtIn (2 + 1) m a TableId.main = _
  rw [getOpcodeAtIn_succ, hbyte, htab, hk]

/-- The `OpcodePrevIndex.getOpcodeAt` override reads the byte at the address
it is passed MINUS one, as a signed byte. -/
theorem decodeTerminal_prevIndex (o : Opc) (m : Memory) (address : Int)
    (hk : o.kind = OpKind.prevIndex) :
    (o.decodeTerminal m address).value = toSignedByte (m.getValueAt (address - 1)) := by
  unfold Opc.decodeTerminal
  rw [hk]

theorem getValueAt_lt (m : Memory) (a : Int) : m.getValueAt a < 256 := by
  unfold Memory.getValueAt
  split
  · exact Nat.mod_lt _ (by norm_num)
  · norm_num

theorem toSignedByte_range (v : Nat) (h : v < 256) :
    -128 ≤ toSignedByte v ∧ toSignedByte v ≤ 127 := by
  unfold toSignedByte
  split <;> omega

set_option maxRecDepth 10000 in
theorem ddcb_all_prevIndex :
    (tableFor TableId.ddcb).all (fun o => o.kind == OpKind.prevIndex) = true := by decide

set_option maxRecDepth 10000 in
theorem fdcb_all_prevIndex :
    (tableFor TableId.fdcb).all (fun o => o.kind == OpKind.prevIndex) = true := by decide

set_option maxRecDepth 10000 in
theorem ddcb_length : (tableFor TableId.ddcb).length = 256 := by decide

set_option maxRecDepth 10000 in
theorem fdcb_length : (tableFor TableId.fdcb).length = 256 := by decide

/-- Every entry of the DDCB/FDCB tables is an `OpcodePrevIndex`. -/
theorem tab_prevIndex (tid : TableId)
    (hall : (tableFor tid).all (fun o => o.kind == OpKind.prevIndex) = true)
    (b : Nat) (hb : b < (tableFor tid).length) :
    ((tableFor tid).getD b default).kind = OpKind.prevIndex := by
  have hget : (tableFor tid).getD b default = (tableFor tid).get ⟨b, hb⟩ := by
    simp [List.getD_eq_getElem?_getD, List.getElem?_eq_getElem hb]
  have hmem : (tableFor tid).get ⟨b, hb⟩ ∈ tableFor tid := List.get_mem _ _ _
  have := List.all_eq_true.mp hall _ hmem
  rw [hget]
  exact eq_of_beq this

/-! ### Claim C5 -/

set_option maxRecDepth 10000 in
/-- C5: Decoding opcode byte 0xE7 yields value 0x20 (from the opcode byte
itself, `code & 0b00111000`, not from an encoded operand — the value does not
depend on any other memory byte), flag set CALL + BRANCH_ADDRESS, and length
1; and every RST opcode byte 0xC7, 0xCF, …, 0xFF decodes its target as bits
3–5 of the opcode byte. -/
theorem claim_C5_rst_decode :
    (∀ (m : Memory) (a : Int), m.getValueAt a = 0xE7 →
      (Opcode.getOpcodeAt m a).value = 0x20 ∧
      (Opcode.getOpcodeAt m a).flags = (OpcodeFlag.CALL ||| OpcodeFlag.BRANCH_ADDRESS) ∧
      (Opcode.getOpcodeAt m a).length = 1) ∧
    (∀ code ∈ [0xC7, 0xCF, 0xD7, 0xDF, 0xE7, 0xEF, 0xF7, 0xFF],
      ∀ (m : Memory) (a : Int), m.getValueAt a = code →
        (Opcode.getOpcodeAt m a).value = ((code &&& 0b00111000 : Nat) : Int)) := by
  constructor
  · intro m a h
    have heq := getOpcodeAt_eq_of_normal m a 0xE7 ((tableFor TableId.main).getD 0xE7 default)
      h rfl (by decide)
    refine ⟨?_, ?_, ?_⟩ <;> rw [heq] <;> rfl
  · intro code hc m a h
    fin_cases hc <;>
      (first
        | (have heq := getOpcodeAt_eq_of_normal m a _ _ h rfl (by decide)
           rw [heq]; rfl))

set_option maxRecDepth 10000 in
theorem claim_C5_rst_decode_witness :
    (Opcode.getOpcodeAt (Memory.init.setMemory 0x100 [0xE7]) 0x100).value = 0x20 ∧
    (Opcode.getOpcodeAt (Memory.init.setMemory 0x100 [0xCF]) 0x100).value = 0x08 := by
  constructor
  · exact (claim_C5_rst_decode.1 (Memory.init.setMemory 0x100 [0xE7]) 0x100 (by decide)).1
  · exact claim_C5_rst_decode.2 0xCF (by decide) (Memory.init.setMemory 0x100 [0xCF]) 0x100
      (by decide)

/-! ### Claim C6 -/

set_option maxRecDepth 10000 in
/-- C6: For the doubly-prefixed index-bit instructions (0xDDCB / 0xFDCB
forms) the displacement is the byte immediately after the two prefix bytes
and before the final opcode byte: the terminal decoder
(`OpcodePrevIndex.getOpcodeAt`) reads the byte at the address passed to it
MINUS one, as a signed two's-complement byte; composed through the prefix
chain this byte is the one at (start address + 2). -/
theorem claim_C6_ddcb_displacement :
    (∀ (o : Opc) (m : Memory) (address : Int), o.kind = OpKind.prevIndex →
      (o.decodeTerminal m address).value = toSignedByte (m.getValueAt (address - 1))) ∧
    (∀ (m : Memory) (a : Int), m.getValueAt a = 0xDD → m.getValueAt (a + 1) = 0xCB →
      (Opcode.getOpcodeAt m a).value = toSignedByte (m.getValueAt (a + 2))) ∧
    (∀ (m : Memory) (a : Int), m.getValueAt a = 0xFD → m.getValueAt (a + 1) = 0xCB →
      (Opcode.getOpcodeAt m a).value = toSignedByte (m.getValueAt (a + 2))) := by
  refine ⟨fun o m address hk => decodeTerminal_prevIndex o m address hk, ?_, ?_⟩
  · intro m a h1 h2
    have e1 : Opcode.getOpcodeAt m a = getOpcodeAtIn 2 m (a + 1) TableId.dd := by
      show getOpcodeAtIn (2 + 1) m a TableId.main = _
      rw [getOpcodeAtIn_succ, h1,
        (by decide : ((tableFor TableId.main).getD 0xDD default).kind = OpKind.ext TableId.dd)]
    have e2 : getOpcodeAtIn 2 m (a + 1) TableId.dd =
        getOpcodeAtIn 1 m (a + 1 + 2) TableId.ddcb := by
      show getOpcodeAtIn (1 + 1) m (a + 1) TableId.dd = _
      rw [getOpcodeAtIn_succ, h2,
        (by decide : ((tableFor TableId.dd).getD 0xCB default).kind = OpKind.ext2 TableId.ddcb)]
    have hk : ((tableFor TableId.ddcb).getD (m.getValueAt (a + 1 + 2)) default).kind =
        OpKind.prevIndex :=
      tab_prevIndex TableId.ddcb ddcb_all_prevIndex _ (ddcb_length ▸ getValueAt_lt m (a + 1 + 2))
    have e3 : getOpcodeAtIn 1 m (a + 1 + 2) TableId.ddcb =
        ((tableFor TableId.ddcb).getD (m.getValueAt (a + 1 + 2)) default).decodeTerminal m
          (a + 1 + 2) := by
      show getOpcodeAtIn (0 + 1) m (a + 1 + 2) TableId.ddcb = _
      rw [getOpcodeAtIn_succ, hk]
    rw [e1, e2, e3, decodeTerminal_prevIndex _ _ _ hk]
    have harith : a + 1 + 2 - 1 = a + 2 := by ring
    rw [harith]
  · intro m a h1 h2
    have e1 : Opcode.getOpcodeAt m a = getOpcodeAtIn 2 m (a + 1) TableId.fd := by
      show getOpcodeAtIn (2 + 1) m a TableId.main = _
      rw [getOpcodeAtIn_succ, h1,
        (by decide : ((tableFor TableId.main).getD 0xFD default).kind = OpKind.ext TableId.fd)]
    have e2 : getOpcodeAtIn 2 m (a + 1) TableId.fd =
        getOpcodeAtIn 1 m (a + 1 + 2) TableId.fdcb := by
      show getOpcodeAtIn (1 + 1) m (a + 1) TableId.fd = _
      rw [getOpcodeAtIn_succ, h2,
        (by decide : ((tableFor TableId.fd).getD 0xCB default).kind = OpKind.ext2 TableId.fdcb)]
    have hk : ((tableFor TableId.fdcb).getD (m.getValueAt (a + 1 + 2)) default).kind =
        OpKind.prevIndex :=
      tab_prevIndex TableId.fdcb fdcb_all_prevIndex _ (fdcb_length ▸ getValueAt_lt m (a + 1 + 2))
    have e3 : getOpcodeAtIn 1 m (a + 1 + 2) TableId.fdcb =
        ((tableFor TableId.fdcb).getD (m.getValueAt (a + 1 + 2)) default).decodeTerminal m
          (a + 1 + 2) := by
      show getOpcodeAtIn (0 + 1) m (a + 1 + 2) TableId.fdcb = _
      rw [getOpcodeAtIn_succ, hk]
    rw [e1, e2, e3, decodeTerminal_prevIndex _ _ _ hk]
    have harith : a + 1 + 2 - 1 = a + 2 := by ring
    rw [harith]

set_option maxRecDepth 10000 in
theorem claim_C6_ddcb_displacement_witness :
    (Opcode.getOpcodeAt (Memory.init.setMemory 0x200 [0xDD, 0xCB, 0xFE, 0x06]) 0x200).value =
      -2 := by
  have h := claim_C6_ddcb_displacement.2.1 (Memory.init.setMemory 0x200 [0xDD, 0xCB, 0xFE, 0x06])
    0x200 (by decide) (by decide)
  rw [h]
  decide

/-! ### Claim C7 -/

set_option maxRecDepth 10000 in
/-- C7: Every relative jump/call form (DJNZ 0x10, JR 0x18, JR NZ 0x20,
JR Z 0x28, JR NC 0x30, JR C 0x38) decoded at address `a` (with the
displacement byte inside the 64K space) interprets the displacement byte as
a two's-complement signed byte in [-128, 127] and decodes the value as that
displacement added to the address immediately following the 2-byte
instruction, i.e. `a + 2`. -/
theorem claim_C7_relative_branch :
    ∀ code ∈ [(0x10 : Nat), 0x18, 0x20, 0x28, 0x30, 0x38],
    ∀ (m : Memory) (a : Int), 0 ≤ a → a + 1 < 0x10000 → m.getValueAt a = code →
      (-128 ≤ toSignedByte (m.getValueAt (a + 1)) ∧
       toSignedByte (m.getValueAt (a + 1)) ≤ 127) ∧
      (Opcode.getOpcodeAt m a).value = toSignedByte (m.getValueAt (a + 1)) + (a + 2) := by
  intro code hc m a _ _ h
  refine ?_
  fin_cases hc <;>
    (refine ⟨toSignedByte_range _ (getValueAt_lt m (a + 1)), ?_⟩
     have heq := getOpcodeAt_eq_of_normal m a _ _ h rfl (by decide)
     rw [heq]
     show toSignedByte (m.getValueAt (a + 1)) + a + 2 = _
     ring)

set_option maxRecDepth 10000 in
theorem claim_C7_relative_branch_witness :
    (Opcode.getOpcodeAt (Memory.init.setMemory 0x100 [0x18, 0xFE]) 0x100).value = 0x100 := by
  have h := (claim_C7_relative_branch 0x18 (by decide)
    (Memory.init.setMemory 0x100 [0x18, 0xFE]) 0x100 (by decide) (by decide) (by decide)).2
  rw [h]
  decide

set_option maxRecDepth 10000 in
/-- C9: The decoded absolute target of a relative branch is exactly
`a + 2 + d` as an unbounded integer — no reduction modulo 0x10000 — and for
a JR at 0xFFFE with positive displacement the decoded value exceeds 0xFFFF
and is not wrapped into the 64K range. -/
theorem claim_C9_no_wraparound :
    (∀ code ∈ [(0x10 : Nat), 0x18, 0x20, 0x28, 0x30, 0x38],
      ∀ (m : Memory) (a : Int), 0 ≤ a → a + 1 < 0x10000 → m.getValueAt a = code →
        (Opcode.getOpcodeAt m a).value = a + 2 + toSignedByte (m.getValueAt (a + 1))) ∧
    (Opcode.getOpcodeAt c9mem 0xFFFE).value = 0x10005 ∧
    0xFFFF < (Opcode.getOpcodeAt c9mem 0xFFFE).value := by
  refine ⟨?_, ?_, ?_⟩
  · intro code hc m a _ _ h
    fin_cases hc <;>
      (have heq := getOpcodeAt_eq_of_normal m a _ _ h rfl (by decide)
       rw [heq]
       show toSignedByte (m.getValueAt (a + 1)) + a + 2 = _
       ring)
  · decide
  · decide

set_option maxRecDepth 10000 in
theorem claim_C9_no_wraparound_witness :
    (Opcode.getOpcodeAt c9mem 0xFFFE).value = 0xFFFE + 2 + 5 := by
  have h := claim_C9_no_wraparound.1 0x18 (by decide) c9mem 0xFFFE (by decide) (by decide)
    (by decide)
  rw [h]
  decide

theorem writeStep_bytes (origin : Nat) (m : Memory) (i b a : Nat) :
    (writeStep origin m i b).bytes a =
      if a = (origin + i) &&& (MAX_MEM_SIZE - 1) then b % 256 else m.bytes a := rfl

theorem writeStep_attrs (origin : Nat) (m : Memory) (i b a : Nat) :
    (writeStep origin m i b).attrs a =
      if a = (origin + i) &&& (MAX_MEM_SIZE - 1) then m.attrs a ||| MemAttribute.ASSIGNED
      else m.attrs a := rfl

theorem setMemory_go_cons (origin : Nat) (m : Memory) (i : Nat) (b : Nat) (rest : List Nat) :
    Memory.setMemory.go origin m i (b :: rest) =
      Memory.setMemory.go origin (writeStep origin m i b) (i + 1) rest := rfl

theorem setMemory_go_frame (origin : Nat) :
    ∀ (l : List Nat) (m : Memory) (i a : Nat),
      (∀ j, i ≤ j → j < i + l.length → (origin + j) &&& (MAX_MEM_SIZE - 1) ≠ a) →
      (Memory.setMemory.go origin m i l).bytes a = m.bytes a ∧
      (Memory.setMemory.go origin m i l).attrs a = m.attrs a
  | [], _, _, _, _ => ⟨rfl, rfl⟩
  | b :: rest, m, i, a, h => by
    have hne : ¬ a = (origin + i) &&& (MAX_MEM_SIZE - 1) :=
      fun hk => h i le_rfl (by simp only [List.length_cons]; omega) hk.symm
    have step := setMemory_go_frame origin rest (writeStep origin m i b) (i + 1) a
      (fun j hj1 hj2 => h j (by omega) (by simp only [List.length_cons] at *; omega))
    rw [setMemory_go_cons, step.1, step.2, writeStep_bytes, writeStep_attrs,
      if_neg hne, if_neg hne]
    exact ⟨rfl, rfl⟩

theorem setMemory_go_attrs_or (origin : Nat) :
    ∀ (l : List Nat) (m : Memory) (i a : Nat),
      (Memory.setMemory.go origin m i l).attrs a = m.attrs a ∨
      (Memory.setMemory.go origin m i l).attrs a = m.attrs a ||| MemAttribute.ASSIGNED
  | [], _, _, _ => Or.inl rfl
  | b :: rest, m, i, a => by
    rw [setMemory_go_cons]
    rcases setMemory_go_attrs_or origin rest (writeStep origin m i b) (i + 1) a with h | h <;>
      rw [h, writeStep_attrs] <;>
      by_cases hk : a = (origin + i) &&& (MAX_MEM_SIZE - 1)
    · rw [if_pos hk]; right; rfl
    · rw [if_neg hk]; left; rfl
    · rw [if_pos hk, Nat.or_assoc, Nat.or_self]; right; rfl
    · rw [if_neg hk]; right; rfl

theorem setMemory_go_attrs_assigned (origin : Nat) :
    ∀ (l : List Nat) (m : Memory) (i a : Nat),
      (∃ j, i ≤ j ∧ j < i + l.length ∧ (origin + j) &&& (MAX_MEM_SIZE - 1) = a) →
      (Memory.setMemory.go origin m i l).attrs a = m.attrs a ||| MemAttribute.ASSIGNED
  | [], _, i, _, ⟨j, hj1, hj2, _⟩ => absurd hj2 (by simp only [List.length_nil]; omega)
  | b :: rest, m, i, a, ⟨j, hj1, hj2, hj3⟩ => by
    rw [setMemory_go_cons]
    by_cases hcase : a = (origin + i) &&& (MAX_MEM_SIZE - 1)
    · have hbase : (writeStep origin m i b).attrs a = m.attrs a ||| MemAttribute.ASSIGNED := by
        rw [writeStep_attrs, if_pos hcase]
      rcases setMemory_go_attrs_or origin rest (writeStep origin m i b) (i + 1) a with h | h <;>
        rw [h, hbase]
      rw [Nat.or_assoc, Nat.or_self]
    · have hji : j ≠ i := fun hji => hcase (hji ▸ hj3).symm
      have step := setMemory_go_attrs_assigned origin rest (writeStep origin m i b) (i + 1) a
        ⟨j, by omega, by simp only [List.length_cons] at hj2; omega, hj3⟩
      rw [step, writeStep_attrs, if_neg hcase]

theorem setMemory_go_bytes_last (origin : Nat) :
    ∀ (l : List Nat) (m : Memory) (i j : Nat) (hj : j < l.length),
      (∀ j2, j < j2 → j2 < l.length →
        (origin + (i + j2)) &&& (MAX_MEM_SIZE - 1) ≠ (origin + (i + j)) &&& (MAX_MEM_SIZE - 1)) →
      (Memory.setMemory.go origin m i l).bytes ((origin + (i + j)) &&& (MAX_MEM_SIZE - 1)) =
        l.get ⟨j, hj⟩ % 256
  | [], _, _, j, hj, _ => absurd hj (by simp)
  | b :: rest, m, i, 0, hj, hnol => by
    rw [setMemory_go_cons]
    have step := (setMemory_go_frame origin rest (writeStep origin m i b) (i + 1)
      ((origin + (i + 0)) &&& (MAX_MEM_SIZE - 1))
      (fun j2 hj21 hj22 => by
        have h0 := hnol (j2 - i) (by omega) (by simp only [List.length_cons]; omega)
        have harg : origin + (i + (j2 - i)) = origin + j2 := by omega
        rw [harg] at h0
        exact h0)).1
    rw [step, writeStep_bytes, if_pos (by rw [Nat.add_zero])]
    rfl
  | b :: rest, m, i, j + 1, hj, hnol => by
    rw [setMemory_go_cons]
    have step := setMemory_go_bytes_last origin rest (writeStep origin m i b) (i + 1) j
      (by simp only [List.length_cons] at hj; omega)
      (fun j2 hj21 hj22 => by
        have h0 := hnol (j2 + 1) (by omega) (by simp only [List.length_cons]; omega)
        have h1 : origin + (i + 1 + j2) = origin + (i + (j2 + 1)) := by omega
        have h2 : origin + (i + 1 + j) = origin + (i + (j + 1)) := by omega
        rw [h1, h2]
        exact h0)
    have h2 : origin + (i + 1 + j) = origin + (i + (j + 1)) := by omega
    rw [h2] at step
    rw [step]
    rfl

theorem land_eq_mod (n : Nat) : n &&& (MAX_MEM_SIZE - 1) = n % 65536 := by
  have h : (MAX_MEM_SIZE - 1 : Nat) = 2 ^ 16 - 1 := by norm_num [MAX_MEM_SIZE]
  rw [h, Nat.and_pow_two_sub_one_eq_mod]

/-- C10: `setMemory(origin, data)` writes byte `i` of the input to address
`(origin + i) mod 65536`, ORs exactly the ASSIGNED bit into that address's
attribute mask (all other attribute bits there are preserved, since
`x ||| ASSIGNED` keeps every bit of `x`), and leaves both the byte and the
full attribute mask of every address outside the wrapped written range
unchanged. -/
theorem claim_C10_setMemory (m : Memory) (origin : Nat) (data : List Nat) :
    (∀ a : Nat, (∀ i, i < data.length → (origin + i) % 65536 ≠ a) →
      (m.setMemory origin data).bytes a = m.bytes a ∧
      (m.setMemory origin data).attrs a = m.attrs a) ∧
    (∀ i, (hi : i < data.length) →
      (∀ j, i < j → j < data.length → (origin + j) % 65536 ≠ (origin + i) % 65536) →
      data.get ⟨i, hi⟩ < 256 →
      (m.setMemory origin data).bytes ((origin + i) % 65536) = data.get ⟨i, hi⟩) ∧
    (∀ a : Nat, (∃ i, i < data.length ∧ (origin + i) % 65536 = a) →
      (m.setMemory origin data).attrs a = m.attrs a ||| MemAttribute.ASSIGNED) := by
  have hsm : m.setMemory origin data = Memory.setMemory.go origin m 0 data := rfl
  refine ⟨?_, ?_, ?_⟩
  · intro a ha
    rw [hsm]
    exact setMemory_go_frame origin data m 0 a
      (fun j hj1 hj2 => by rw [land_eq_mod]; exact ha j (by omega))
  · intro i hi hlast hb
    rw [hsm]
    have step := setMemory_go_bytes_last origin data m 0 i hi
      (fun j2 hj21 hj22 => by
        rw [Nat.zero_add, Nat.zero_add, land_eq_mod, land_eq_mod]
        exact hlast j2 hj21 hj22)
    rw [Nat.zero_add, land_eq_mod] at step
    rw [step, Nat.mod_eq_of_lt hb]
  · intro a ⟨i, hi, hia⟩
    rw [hsm]
    exact setMemory_go_attrs_assigned origin data m 0 a
      ⟨i, by omega, by omega, by rw [land_eq_mod]; exact hia⟩

theorem claim_C10_setMemory_witness :
    (c10base.setMemory 65534 [1, 2, 3, 4]).bytes 5 = 0 ∧
    (c10base.setMemory 65534 [1, 2, 3, 4]).attrs 5 = 0x40 ∧
    (c10base.setMemory 65534 [1, 2, 3, 4]).bytes 0 = 3 ∧
    (c10base.setMemory 65534 [1, 2, 3, 4]).attrs 0 = 1 := by
  have h := claim_C10_setMemory c10base 65534 [1, 2, 3, 4]
  have hframe := h.1 5 (by intro i hi; simp only [List.length_cons, List.length_nil] at hi; omega)
  have hwrite := h.2.1 2 (by decide) (by intro j h1 h2; simp only [List.length_cons, List.length_nil] at h2; omega) (by decide)
  have hassigned := h.2.2 0 ⟨2, by decide, by decide⟩
  refine ⟨?_, ?_, ?_, ?_⟩
  · rw [hframe.1]; rfl
  · rw [hframe.2]; rfl
  · have h0 : (65534 + 2) % 65536 = 0 := by decide
    rw [h0] at hwrite
    rw [hwrite]; rfl
  · rw [hassigned]; rfl

set_option maxRecDepth 10000 in
set_option maxHeartbeats 64000000 in
/-- C8: When pass 2 resolves a branch whose target has the ASSIGNED attribute
unset, `getNodeForFill` creates a synthesized placeholder node for the target
(appended to the pool, NOT registered in the node map), records exactly one
branch-into-unassigned-memory diagnostic keyed by the originating address,
and leaves everything else (map, memory) unchanged — no exception is raised.
In the concrete Scenario D (`JP 0x9000` at 0x8000 with 0x9000 never loaded)
the build completes: the node at 0x8000 is filled (stop, length 3), the
placeholder for 0x9000 exists in the pool outside the map, and the comment
list holds exactly the one diagnostic keyed to 0x8000. -/
theorem claim_C8_unassigned_branch :
    (∀ (c : Ctx) (originAddress targetAddress : Int),
      c.getNode? targetAddress = none →
      c.memory.getAttributeAt targetAddress &&& MemAttribute.ASSIGNED = 0 →
      (getNodeForFill c originAddress targetAddress).2 = c.pool.length ∧
      (getNodeForFill c originAddress targetAddress).1.pool =
        c.pool ++ [({ start := targetAddress } : AsmNode)] ∧
      (getNodeForFill c originAddress targetAddress).1.nodesList = c.nodesList ∧
      (getNodeForFill c originAddress targetAddress).1.comments =
        c.comments ++ [(originAddress, unassignedMsg targetAddress)] ∧
      (getNodeForFill c originAddress targetAddress).1.memory = c.memory) ∧
    ((scenJpUnassignedRun.pool.map (fun n => (n.start, n.stop, n.length)),
      scenJpUnassignedRun.nodesList,
      scenJpUnassignedRun.comments) =
     ([((0x8000 : Int), true, (3 : Int)), (0x9000, false, 0)], [((0x8000 : Int), 0)],
      [((0x8000 : Int), "The disassembly branches into unassigned memory at $9000.")])) := by
  constructor
  · intro c originAddress targetAddress h1 h2
    unfold getNodeForFill
    simp only [h1]
    split
    · next hcond => exact absurd h2 hcond
    · exact ⟨rfl, rfl, rfl, rfl, rfl⟩
  · decide

set_option maxRecDepth 10000 in
theorem claim_C8_unassigned_branch_witness :
    (getNodeForFill c8wctx 3 7).2 = 0 ∧
    (getNodeForFill c8wctx 3 7).1.comments = [(3, unassignedMsg 7)] := by
  have h := claim_C8_unassigned_branch.1 c8wctx 3 7 rfl rfl
  exact ⟨h.1, h.2.2.2.1⟩

/-! ### Claim C1: Scenario A -/

set_option maxRecDepth 10000 in
set_option maxHeartbeats 64000000 in
/-- C1 counterexample: as stated, the claim requires length 4 for the node at
0x8000 in Scenario A; the code gives it length 3 (the CALL instruction only —
the fall-through address 0x8003 starts its own node). -/
theorem claim_C1_counterexample :
    (scenArun.nodeAt 0x8000).map (fun n => n.length) ≠ some 4 := by decide

set_option maxRecDepth 10000 in
set_option maxHeartbeats 64000000 in
/-- C1 (amended): in Scenario A the node table holds nodes at 0x8000, 0x8003
and 0x8010.  The node at 0x8000 has length 3 (the CALL only; its fall-through
at 0x8003 is a separate node of length 1), its callee is the node at 0x8010
(pool id 2), it stays unlabeled and has no callers and no predecessors; the
node at 0x8010 has `isSubroutine = true`. -/
theorem claim_C1_amended_scenarioA :
    nodeFacts scenArun =
      [⟨0x8000, 0, 3, some 2, none, true, [], []⟩,
       ⟨0x8003, 1, 1, none, none, true, [], [0]⟩,
       ⟨0x8010, 2, 3, none, some "SUB_8010", true, [0], []⟩] := by decide

/-! ### Claim C2: callers imply isSubroutine -/

set_option maxRecDepth 10000 in
set_option maxHeartbeats 64000000 in
/-- C2 counterexample: in the CALL-into-unassigned-memory scenario the callee
placeholder node (pool id 2, start 0x9000) is reachable from the analysis
result (`callee` of the node at 0x8000), has a non-empty callers list, but is
NOT marked `isSubroutine` after `markSubroutines` (the pass only iterates the
node map, and the placeholder is not stored there). -/
theorem claim_C2_counterexample :
    (scenCallUnassignedRun.pool.map (fun n => (n.start, n.callee, n.callers, n.isSubroutine)),
     scenCallUnassignedRun.nodesList) =
      ([((0x8000 : Int), some 2, ([] : List Nat), false),
        (0x8003, none, [], false),
        (0x9000, none, [0], false)],
       [((0x8000 : Int), 0)]) := by decide

/-! ### Claim C2 (amended): the markSubroutines invariant on the node map -/

theorem getD_set {α : Type} (l : List α) (j i : Nat) (v d : α) :
    (l.set j v).getD i d = if j = i ∧ j < l.length then v else l.getD i d := by
  induction l generalizing i j with
  | nil => simp
  | cons a t ih =>
    cases j with
    | zero =>
      cases i with
      | zero => simp
      | succ i => simp
    | succ j =>
      cases i with
      | zero => simp
      | succ i =>
        simp only [List.set, List.getD_cons_succ, List.length_cons, ih]
        by_cases h : j = i ∧ j < t.length
        · rw [if_pos h, if_pos ⟨by omega, by omega⟩]
        · rw [if_neg h, if_neg (by omega)]

theorem poolGet_modifyNode (c : Ctx) (j : Nat) (f : AsmNode → AsmNode) (i : Nat) :
    (c.modifyNode j f).poolGet i =
      if j = i ∧ j < c.pool.length then f (c.poolGet j) else c.poolGet i := by
  unfold Ctx.modifyNode Ctx.poolGet
  exact getD_set c.pool j i _ default

theorem modifyNode_poolLength (c : Ctx) (j : Nat) (f : AsmNode → AsmNode) :
    (c.modifyNode j f).pool.length = c.pool.length := by
  unfold Ctx.modifyNode
  exact List.length_set c.pool j _

theorem SubOnly.refl (c : Ctx) : SubOnly c c := ⟨rfl, rfl, fun _ => rfl⟩

theorem SubOnly.trans {c1 c2 c3 : Ctx} (h12 : SubOnly c1 c2) (h23 : SubOnly c2 c3) :
    SubOnly c1 c3 := by
  refine ⟨h23.1.trans h12.1, h23.2.1.trans h12.2.1, fun i => ?_⟩
  rw [h23.2.2 i, h12.2.2 i]

theorem SubOnly.setSub (c : Ctx) (j : Nat) :
    SubOnly c (c.modifyNode j (fun n => { n with isSubroutine := true })) := by
  refine ⟨rfl, modifyNode_poolLength c j _, fun i => ?_⟩
  rw [poolGet_modifyNode]
  by_cases h : j = i ∧ j < c.pool.length
  · rw [if_pos h, h.1]
  · rw [if_neg h]

theorem SubOnly.foldl {β : Type} (f : Ctx → β → Ctx) (h : ∀ c x, SubOnly c (f c x)) :
    ∀ (l : List β) (c : Ctx), SubOnly c (l.foldl f c)
  | [], c => SubOnly.refl c
  | x :: t, c => (h c x).trans (SubOnly.foldl f h t (f c x))

theorem subOnly_markPred : ∀ (fuel : Nat) (c : Ctx) (id : Nat),
    SubOnly c (markPredecessorsAsSubroutine fuel c id)
  | 0, c, _ => SubOnly.refl c
  | fuel + 1, c, id => by
    unfold markPredecessorsAsSubroutine
    split
    · exact SubOnly.refl c
    · exact (SubOnly.setSub c id).trans
        (SubOnly.foldl _ (fun c p => subOnly_markPred fuel c p) _ _)

theorem isSub_mono_markPred : ∀ (fuel : Nat) (c : Ctx) (id i : Nat),
    (c.poolGet i).isSubroutine = true →
    ((markPredecessorsAsSubroutine fuel c id).poolGet i).isSubroutine = true
  | 0, _, _, _, h => h
  | fuel + 1, c, id, i, h => by
    unfold markPredecessorsAsSubroutine
    split
    · exact h
    · have hset : ((c.modifyNode id (fun n => { n with isSubroutine := true })).poolGet
          i).isSubroutine = true := by
        rw [poolGet_modifyNode]
        by_cases hc : id = i ∧ id < c.pool.length
        · rw [if_pos hc]
        · rw [if_neg hc]; exact h
      have monoFold : ∀ (l : List Nat) (c : Ctx),
          (c.poolGet i).isSubroutine = true →
          ((l.foldl (fun c p => markPredecessorsAsSubroutine fuel c p) c).poolGet
            i).isSubroutine = true := by
        intro l
        induction l with
        | nil => exact fun c h => h
        | cons x t ih => exact fun c h => ih _ (isSub_mono_markPred fuel c x i h)
      exact monoFold _ _ hset

theorem isSub_mono_msInner : ∀ (l : List Nat) (c : Ctx) (i : Nat),
    (c.poolGet i).isSubroutine = true →
    ((l.foldl (fun c predec => markPredecessorsAsSubroutine (c.pool.length + 1) c predec)
        c).poolGet i).isSubroutine = true
  | [], _, _, h => h
  | x :: t, c, i, h =>
    isSub_mono_msInner t _ i (isSub_mono_markPred (c.pool.length + 1) c x i h)

theorem subOnly_msStep (c : Ctx) (p : Int × Nat) : SubOnly c (markSubroutinesStep c p) := by
  unfold markSubroutinesStep
  simp only []
  split
  · exact SubOnly.foldl _ (fun c q => subOnly_markPred (c.pool.length + 1) c q) _ _
  · split
    · exact SubOnly.setSub c p.2
    · exact SubOnly.refl c

theorem isSub_mono_msStep (c : Ctx) (p : Int × Nat) (i : Nat)
    (h : (c.poolGet i).isSubroutine = true) :
    ((markSubroutinesStep c p).poolGet i).isSubroutine = true := by
  unfold markSubroutinesStep
  simp only []
  split
  · exact isSub_mono_msInner _ c i h
  · split
    · rw [poolGet_modifyNode]
      by_cases hc : p.2 = i ∧ p.2 < c.pool.length
      · rw [if_pos hc]
      · rw [if_neg hc]; exact h
    · exact h

theorem msStep_establishes (c : Ctx) (p : Int × Nat) :
    ((markSubroutinesStep c p).poolGet p.2).isSubroutine = true ∨
    (c.poolGet p.2).callers = [] := by
  unfold markSubroutinesStep
  simp only []
  split
  · next hsub => exact Or.inl (isSub_mono_msInner _ c p.2 hsub)
  · split
    · next hne =>
      left
      rw [poolGet_modifyNode]
      by_cases hc : p.2 = p.2 ∧ p.2 < c.pool.length
      · rw [if_pos hc]
      · rw [if_neg hc]
        have hlen : ¬ p.2 < c.pool.length := fun hl => hc ⟨Eq.refl p.2, hl⟩
        have hd : c.poolGet p.2 = default := by
          unfold Ctx.poolGet
          exact List.getD_eq_default _ _ (by omega)
        rw [hd] at hne
        exact absurd rfl hne
    · next hne =>
      right
      have hz : (c.poolGet p.2).callers.length = 0 := by omega
      exact List.eq_nil_of_length_eq_zero hz

theorem isSub_mono_msFold :
    ∀ (l : List (Int × Nat)) (c : Ctx) (i : Nat),
      (c.poolGet i).isSubroutine = true →
      ((l.foldl markSubroutinesStep c).poolGet i).isSubroutine = true
  | [], _, _, h => h
  | x :: t, c, i, h => isSub_mono_msFold t _ i (isSub_mono_msStep c x i h)

theorem msFold_spec :
    ∀ (l : List (Int × Nat)) (c : Ctx) (a : Int) (id : Nat),
      (a, id) ∈ l →
      ((l.foldl markSubroutinesStep c).poolGet id).callers ≠ [] →
      ((l.foldl markSubroutinesStep c).poolGet id).isSubroutine = true
  | [], _, _, _, hmem, _ => absurd hmem (List.not_mem_nil _)
  | x :: t, c, a, id, hmem, hcallers => by
    rcases List.mem_cons.mp hmem with heq | htail
    · subst heq
      rcases msStep_establishes c (a, id) with hsub | hnocallers
      · exact isSub_mono_msFold t _ id hsub
      · exfalso
        apply hcallers
        have h1 : SubOnly c (markSubroutinesStep c (a, id)) := subOnly_msStep c (a, id)
        have h2 : SubOnly (markSubroutinesStep c (a, id))
            (t.foldl markSubroutinesStep (markSubroutinesStep c (a, id))) :=
          SubOnly.foldl _ subOnly_msStep _ _
        have hup := (h1.trans h2).2.2 id
        show ((t.foldl markSubroutinesStep (markSubroutinesStep c (a, id))).poolGet
          id).callers = []
        rw [hup]
        exact hnocallers
    · exact msFold_spec t _ a id htail hcallers

set_option maxHeartbeats 1600000 in
/-- C2 (amended): after `markSubroutines` has run, every node STORED IN THE
NODE MAP whose callers list is non-empty has `isSubroutine = true`.  (The
claim as written extends to the placeholder nodes synthesized by
`getNodeForFill` for unassigned branch targets; that extension is refuted by
the counterexample, because `markSubroutines` iterates only the node map and
the placeholders are never registered there.) -/
theorem claim_C2_amended_invariant (c : Ctx) (a : Int) (id : Nat)
    (hmem : (a, id) ∈ c.nodesList)
    (hcallers : ((markSubroutines c).poolGet id).callers ≠ []) :
    ((markSubroutines c).poolGet id).isSubroutine = true :=
  msFold_spec c.nodesList c a id hmem hcallers

set_option maxHeartbeats 1600000 in
theorem claim_C2_amended_invariant_witness :
    (0, 0) ∈ c2wctx.nodesList ∧ ((markSubroutines c2wctx).poolGet 0).callers ≠ [] ∧
    ((markSubroutines c2wctx).poolGet 0).isSubroutine = true :=
  ⟨by decide, by decide, claim_C2_amended_invariant c2wctx 0 0 (by decide) (by decide)⟩

theorem labelOnly_refl (c : Ctx) : LabelOnly c c := ⟨rfl, rfl, fun _ => rfl⟩

theorem labelOnly_trans {c1 c2 c3 : Ctx} (h12 : LabelOnly c1 c2) (h23 : LabelOnly c2 c3) :
    LabelOnly c1 c3 := by
  refine ⟨h23.1.trans h12.1, h23.2.1.trans h12.2.1, fun i => ?_⟩
  rw [h23.2.2 i, h12.2.2 i]

theorem labelOnly_setLabel (c : Ctx) (j : Nat) (v : Option String) :
    LabelOnly c (c.modifyNode j (fun n => { n with label := v })) := by
  refine ⟨rfl, modifyNode_poolLength c j _, fun i => ?_⟩
  rw [poolGet_modifyNode]
  by_cases h : j = i ∧ j < c.pool.length
  · rw [if_pos h, h.1]
  · rw [if_neg h]

theorem labelOnly_foldl {β : Type} (f : Ctx → β → Ctx) (h : ∀ c x, LabelOnly c (f c x)) :
    ∀ (l : List β) (c : Ctx), LabelOnly c (l.foldl f c)
  | [], c => labelOnly_refl c
  | x :: t, c => labelOnly_trans (h c x) (labelOnly_foldl f h t (f c x))

theorem labelOnly_callers {c d : Ctx} (h : LabelOnly c d) (i : Nat) :
    (d.poolGet i).callers = (c.poolGet i).callers := by rw [h.2.2 i]

theorem labelOnly_preds {c d : Ctx} (h : LabelOnly c d) (i : Nat) :
    (d.poolGet i).predecessors = (c.poolGet i).predecessors := by rw [h.2.2 i]

theorem labelOnly_start {c d : Ctx} (h : LabelOnly c d) (i : Nat) :
    (d.poolGet i).start = (c.poolGet i).start := by rw [h.2.2 i]

theorem labelOnly_length {c d : Ctx} (h : LabelOnly c d) (i : Nat) :
    (d.poolGet i).length = (c.poolGet i).length := by rw [h.2.2 i]

theorem labelOnly_isSub {c d : Ctx} (h : LabelOnly c d) (i : Nat) :
    (d.poolGet i).isSubroutine = (c.poolGet i).isSubroutine := by rw [h.2.2 i]

theorem labelOnly_getNode {c d : Ctx} (h : LabelOnly c d) (addr : Int) :
    d.getNode? addr = c.getNode? addr := by
  unfold Ctx.getNode?
  rw [h.1]

theorem labelOnly_otherRef {c d : Ctx} (h : LabelOnly c d) (i : Nat) :
    otherReference d i = otherReference c i := by
  unfold otherReference
  simp only []
  have hfun : (fun p => (d.poolGet p).start + (d.poolGet p).length != (d.poolGet i).start)
      = (fun p => (c.poolGet p).start + (c.poolGet p).length != (c.poolGet i).start) := by
    funext p
    rw [labelOnly_start h p, labelOnly_length h p, labelOnly_start h i]
  rw [labelOnly_callers h i, labelOnly_preds h i, hfun]

theorem otherRef_false (c : Ctx) (i : Nat) (hc : (c.poolGet i).callers = [])
    (hp : (c.poolGet i).predecessors = []) : otherReference c i = false := by
  unfold otherReference
  simp only []
  rw [hc, hp]
  rfl

theorem getNode?_start (c : Ctx) (addr : Int) (x : Nat)
    (hwf : ∀ p ∈ c.nodesList, p.2 < c.pool.length ∧ (c.poolGet p.2).start = p.1)
    (h : c.getNode? addr = some x) : (c.poolGet x).start = addr := by
  unfold Ctx.getNode? at h
  cases hf : c.nodesList.find? (fun p => p.1 == addr) with
  | none => rw [hf] at h; exact Option.noConfusion h
  | some q =>
    rw [hf] at h
    have hq2 : q.2 = x := Option.some.inj h
    have hqmem := List.mem_of_find?_eq_some hf
    have hpred := List.find?_some hf
    have hq1 : q.1 = addr := by simpa using hpred
    have hw := (hwf q hqmem).2
    rw [hq2, hq1] at hw
    exact hw

theorem labelOnly_labelNumbered (pre base : String) :
    ∀ (ids : List Nat) (c : Ctx) (k : Nat), LabelOnly c (labelNumbered c pre base k ids)
  | [], c, _ => labelOnly_refl c
  | x :: t, c, k => by
    show LabelOnly c (labelNumbered (c.modifyNode x (fun n =>
      { n with label := some (pre ++ base ++ toString k) })) pre base (k + 1) t)
    exact labelOnly_trans (labelOnly_setLabel c x _)
      (labelOnly_labelNumbered pre base t _ (k + 1))

theorem labelNumbered_untouched (pre base : String) (i : Nat) :
    ∀ (ids : List Nat) (c : Ctx) (k : Nat), i ∉ ids →
      (labelNumbered c pre base k ids).poolGet i = c.poolGet i
  | [], _, _, _ => rfl
  | x :: t, c, k, hni => by
    simp only [List.mem_cons, not_or] at hni
    show (labelNumbered (c.modifyNode x (fun n =>
        { n with label := some (pre ++ base ++ toString k) })) pre base (k + 1) t).poolGet i
      = c.poolGet i
    rw [labelNumbered_untouched pre base i t _ (k + 1) hni.2, poolGet_modifyNode,
      if_neg (fun hh => hni.1 hh.1.symm)]

theorem foldl_untouched_of (i : Nat) (f : Ctx → Nat → Ctx)
    (hf : ∀ d x, x ≠ i → (f d x).poolGet i = d.poolGet i) :
    ∀ (ids : List Nat) (c : Ctx), i ∉ ids → (ids.foldl f c).poolGet i = c.poolGet i
  | [], _, _ => rfl
  | x :: t, c, hni => by
    simp only [List.mem_cons, not_or] at hni
    show (t.foldl f (f c x)).poolGet i = c.poolGet i
    rw [foldl_untouched_of i f hf t (f c x) hni.2, hf c x (fun he => hni.1 he.symm)]

theorem allWalk_mem (c : Ctx) (blocks : Int → Option Nat) (root : Nat) :
    ∀ (fuel bn : Nat) (addr : Int) (acc : List Nat × List Nat) (x : Nat),
      x ∈ (allWalk c blocks root fuel bn addr acc).1 ++
          (allWalk c blocks root fuel bn addr acc).2 →
      x ∈ acc.1 ++ acc.2 ∨
        ((c.poolGet x).label = none ∧ otherReference c x = true ∧
          (x = bn ∨ ∃ a2, c.getNode? a2 = some x ∧ blocks a2 = some root))
  | 0, bn, addr, acc, x, hx => Or.inl hx
  | fuel + 1, bn, addr, (l0, lo0), x, hx => by
    simp only [allWalk] at hx
    by_cases h1 : addr < 0x10000
    case neg =>
      rw [if_neg h1] at hx
      exact Or.inl hx
    case pos =>
    rw [if_pos h1] at hx
    -- key fact for the updated accumulator
    have hK : ∀ (L LO : List Nat),
        (L = l0 ∧ LO = lo0 ∨
          ((c.poolGet bn).label = none ∧ otherReference c bn = true ∧
            (L = l0 ++ [bn] ∧ LO = lo0 ∨ L = l0 ∧ LO = lo0 ++ [bn]))) →
        x ∈ L ++ LO →
        x ∈ l0 ++ lo0 ∨
          ((c.poolGet x).label = none ∧ otherReference c x = true ∧ x = bn) := by
      intro L LO hcase hmem
      rcases hcase with ⟨hL, hLO⟩ | ⟨hn, ho, ⟨hL, hLO⟩ | ⟨hL, hLO⟩⟩
      · subst hL; subst hLO; exact Or.inl hmem
      · subst hL; subst hLO
        rcases List.mem_append.mp hmem with hm | hm
        · rcases List.mem_append.mp hm with hm2 | hm2
          · exact Or.inl (List.mem_append.mpr (Or.inl hm2))
          · have hxbn : x = bn := List.mem_singleton.mp hm2
            subst hxbn
            exact Or.inr ⟨hn, ho, rfl⟩
        · exact Or.inl (List.mem_append.mpr (Or.inr hm))
      · subst hL; subst hLO
        rcases List.mem_append.mp hmem with hm | hm
        · exact Or.inl (List.mem_append.mpr (Or.inl hm))
        · rcases List.mem_append.mp hm with hm2 | hm2
          · exact Or.inl (List.mem_append.mpr (Or.inr hm2))
          · have hxbn : x = bn := List.mem_singleton.mp hm2
            subst hxbn
            exact Or.inr ⟨hn, ho, rfl⟩
    -- the continuation, parameterized by the updated accumulator
    have hCont : ∀ (L LO : List Nat),
        (L = l0 ∧ LO = lo0 ∨
          ((c.poolGet bn).label = none ∧ otherReference c bn = true ∧
            (L = l0 ++ [bn] ∧ LO = lo0 ∨ L = l0 ∧ LO = lo0 ++ [bn]))) →
        x ∈ (if blocks (addr + (c.poolGet bn).length) ≠ some root then (L, LO)
          else match c.getNode? (addr + (c.poolGet bn).length) with
            | some next =>
                allWalk c blocks root fuel next (addr + (c.poolGet bn).length) (L, LO)
            | none => (L, LO)).1 ++
          (if blocks (addr + (c.poolGet bn).length) ≠ some root then (L, LO)
          else match c.getNode? (addr + (c.poolGet bn).length) with
            | some next =>
                allWalk c blocks root fuel next (addr + (c.poolGet bn).length) (L, LO)
            | none => (L, LO)).2 →
        x ∈ l0 ++ lo0 ∨
          ((c.poolGet x).label = none ∧ otherReference c x = true ∧
            (x = bn ∨ ∃ a2, c.getNode? a2 = some x ∧ blocks a2 = some root)) := by
      intro L LO hcase hmem
      by_cases h5 : blocks (addr + (c.poolGet bn).length) ≠ some root
      · rw [if_pos h5] at hmem
        rcases hK L LO hcase hmem with hin | ⟨hn, ho, hbn⟩
        · exact Or.inl hin
        · exact Or.inr ⟨hn, ho, Or.inl hbn⟩
      · rw [if_neg h5] at hmem
        push_neg at h5
        cases hg : c.getNode? (addr + (c.poolGet bn).length) with
        | none =>
          rw [hg] at hmem
          simp only [] at hmem
          rcases hK L LO hcase hmem with hin | ⟨hn, ho, hbn⟩
          · exact Or.inl hin
          · exact Or.inr ⟨hn, ho, Or.inl hbn⟩
        | some next =>
          rw [hg] at hmem
          simp only [] at hmem
          rcases allWalk_mem c blocks root fuel next (addr + (c.poolGet bn).length)
              (L, LO) x hmem with hin | ⟨hn, ho, hwit⟩
          · rcases hK L LO hcase hin with hin2 | ⟨hn, ho, hbn⟩
            · exact Or.inl hin2
            · exact Or.inr ⟨hn, ho, Or.inl hbn⟩
          · rcases hwit with hnext | ⟨a2, hg2, hb2⟩
            · subst hnext
              exact Or.inr ⟨hn, ho, Or.inr ⟨addr + (c.poolGet bn).length, hg, h5⟩⟩
            · exact Or.inr ⟨hn, ho, Or.inr ⟨a2, hg2, hb2⟩⟩
    by_cases h2 : otherReference c bn = true
    · rw [if_pos h2] at hx
      by_cases h3 : (c.poolGet bn).label = none
      · rw [if_pos h3] at hx
        by_cases h4 : isLoopRoot c bn = true
        · rw [if_pos h4] at hx
          simp only [] at hx
          exact hCont l0 (lo0 ++ [bn]) (Or.inr ⟨h3, h2, Or.inr ⟨rfl, rfl⟩⟩) hx
        · rw [if_neg h4] at hx
          simp only [] at hx
          exact hCont (l0 ++ [bn]) lo0 (Or.inr ⟨h3, h2, Or.inl ⟨rfl, rfl⟩⟩) hx
      · rw [if_neg h3] at hx
        simp only [] at hx
        exact hCont l0 lo0 (Or.inl ⟨rfl, rfl⟩) hx
    · rw [if_neg h2] at hx
      simp only [] at hx
      exact hCont l0 lo0 (Or.inl ⟨rfl, rfl⟩) hx

theorem assignLocalLabels_labelOnly (c : Ctx) (blocks : Int → Option Nat) (id : Nat) :
    LabelOnly c (assignLocalLabels c blocks id) := by
  unfold assignLocalLabels
  simp only []
  split
  · split
    · exact labelOnly_trans (labelOnly_labelNumbered _ _ _ _ _) (labelOnly_setLabel _ _ _)
    · exact labelOnly_trans (labelOnly_labelNumbered _ _ _ _ _)
        (labelOnly_labelNumbered _ _ _ _ _)
  · exact labelOnly_trans
      (labelOnly_foldl _ (fun d x => labelOnly_setLabel d x _) _ _)
      (labelOnly_foldl _ (fun d x => labelOnly_setLabel d x _) _ _)

theorem assignLocalLabels_untouched (c : Ctx) (blocks : Int → Option Nat) (root i : Nat)
    (h1 : i ∉ (allWalk c blocks root loopFuel root (c.poolGet root).start ([], [])).1)
    (h2 : i ∉ (allWalk c blocks root loopFuel root (c.poolGet root).start ([], [])).2) :
    (assignLocalLabels c blocks root).poolGet i = c.poolGet i := by
  unfold assignLocalLabels
  simp only []
  have hmf : ∀ (d : Ctx) (x : Nat) (v : Option String), x ≠ i →
      (d.modifyNode x (fun n => { n with label := v })).poolGet i = d.poolGet i := by
    intro d x v hx
    rw [poolGet_modifyNode, if_neg (fun hh => hx hh.1)]
  split
  · split
    · next hlen =>
      rcases List.length_eq_one.mp hlen with ⟨y, hy⟩
      have hyi : y ≠ i := by
        intro he
        exact h2 (by rw [hy, he]; exact List.mem_singleton_self i)
      rw [hy]
      have hget : [y].getD 0 0 = y := rfl
      rw [hget, hmf _ y _ hyi, labelNumbered_untouched _ _ i _ _ _ h1]
    · rw [labelNumbered_untouched _ _ i _ _ _ h2, labelNumbered_untouched _ _ i _ _ _ h1]
  · rw [foldl_untouched_of i _ (fun d x hx => hmf d x _ hx) _ _ h2,
      foldl_untouched_of i _ (fun d x hx => hmf d x _ hx) _ _ h1]

theorem assignLocalLabels_keep (c : Ctx) (blocks : Int → Option Nat) (r i : Nat) (s : String)
    (hs : (c.poolGet i).label = some s) :
    (assignLocalLabels c blocks r).poolGet i = c.poolGet i := by
  apply assignLocalLabels_untouched
  · intro hmem
    rcases allWalk_mem c blocks r loopFuel r _ ([], []) i
        (List.mem_append.mpr (Or.inl hmem)) with habs | ⟨hnone, _, _⟩
    · simp at habs
    · rw [hs] at hnone
      exact Option.noConfusion hnone
  · intro hmem
    rcases allWalk_mem c blocks r loopFuel r _ ([], []) i
        (List.mem_append.mpr (Or.inr hmem)) with habs | ⟨hnone, _, _⟩
    · simp at habs
    · rw [hs] at hnone
      exact Option.noConfusion hnone

theorem assignLocalLabels_unref (c : Ctx) (blocks : Int → Option Nat) (r i : Nat)
    (hor : otherReference c i = false) :
    (assignLocalLabels c blocks r).poolGet i = c.poolGet i := by
  apply assignLocalLabels_untouched
  · intro hmem
    rcases allWalk_mem c blocks r loopFuel r _ ([], []) i
        (List.mem_append.mpr (Or.inl hmem)) with habs | ⟨_, htrue, _⟩
    · simp at habs
    · rw [hor] at htrue
      exact Bool.noConfusion htrue
  · intro hmem
    rcases allWalk_mem c blocks r loopFuel r _ ([], []) i
        (List.mem_append.mpr (Or.inr hmem)) with habs | ⟨_, htrue, _⟩
    · simp at habs
    · rw [hor] at htrue
      exact Bool.noConfusion htrue

theorem assignLocalLabels_other (c0 c : Ctx) (blocks : Int → Option Nat) (r i : Nat) (a : Int)
    (hlo : LabelOnly c0 c)
    (hwf : ∀ p ∈ c0.nodesList, p.2 < c0.pool.length ∧ (c0.poolGet p.2).start = p.1)
    (hstart : (c0.poolGet i).start = a)
    (hblock : blocks a = some i) (hne : r ≠ i) :
    (assignLocalLabels c blocks r).poolGet i = c.poolGet i := by
  have hcase : ∀ hwit : i = r ∨ ∃ a2, c.getNode? a2 = some i ∧ blocks a2 = some r, False := by
    intro hwit
    rcases hwit with heq | ⟨a2, hget, hb2⟩
    · exact hne heq.symm
    · have hgc : c0.getNode? a2 = some i := by
        rw [← labelOnly_getNode hlo a2]
        exact hget
      have hs2 : (c0.poolGet i).start = a2 := getNode?_start c0 a2 i hwf hgc
      rw [hstart] at hs2
      rw [← hs2, hblock] at hb2
      exact hne (Option.some.inj hb2).symm
  apply assignLocalLabels_untouched
  · intro hmem
    rcases allWalk_mem c blocks r loopFuel r _ ([], []) i
        (List.mem_append.mpr (Or.inl hmem)) with habs | ⟨_, _, hwit⟩
    · simp at habs
    · exact hcase hwit
  · intro hmem
    rcases allWalk_mem c blocks r loopFuel r _ ([], []) i
        (List.mem_append.mpr (Or.inr hmem)) with habs | ⟨_, _, hwit⟩
    · simp at habs
    · exact hcase hwit

theorem labelOnly_anlStep (blocks : Int → Option Nat) (c : Ctx) (p : Int × Nat) :
    LabelOnly c (assignNodeLabelsStep blocks c p) := by
  unfold assignNodeLabelsStep
  simp only []
  split
  · exact labelOnly_refl c
  · split
    · refine labelOnly_trans ?_ (assignLocalLabels_labelOnly _ blocks p.2)
      split
      · split
        · split
          · split
            · exact labelOnly_setLabel c p.2 _
            · exact labelOnly_setLabel c p.2 _
          · exact labelOnly_setLabel c p.2 _
        · exact labelOnly_refl c
      · exact labelOnly_refl c
    · exact labelOnly_refl c

theorem anlStep_keep (blocks : Int → Option Nat) (c : Ctx) (p : Int × Nat) (i : Nat)
    (s : String) (hs : (c.poolGet i).label = some s) :
    (assignNodeLabelsStep blocks c p).poolGet i = c.poolGet i := by
  unfold assignNodeLabelsStep
  simp only []
  split
  · rfl
  · split
    · have hC : ∀ (C : Ctx), C.poolGet i = c.poolGet i →
          (assignLocalLabels C blocks p.2).poolGet i = c.poolGet i := by
        intro C hCi
        rw [assignLocalLabels_keep C blocks p.2 i s (by rw [hCi]; exact hs), hCi]
      apply hC
      split
      · next hl =>
        have hpi : p.2 ≠ i := by
          intro he
          rw [he, hs] at hl
          exact Option.noConfusion hl
        split
        · split
          · split
            · rw [poolGet_modifyNode, if_neg (fun hh => hpi hh.1)]
            · rw [poolGet_modifyNode, if_neg (fun hh => hpi hh.1)]
          · rw [poolGet_modifyNode, if_neg (fun hh => hpi hh.1)]
        · rfl
      · rfl
    · rfl

theorem anlStep_unref (blocks : Int → Option Nat) (c d : Ctx) (p : Int × Nat) (id : Nat)
    (hlo : LabelOnly c d)
    (hc : (c.poolGet id).callers = []) (hp : (c.poolGet id).predecessors = []) :
    (assignNodeLabelsStep blocks d p).poolGet id = d.poolGet id := by
  have hord : otherReference d id = false := by
    rw [labelOnly_otherRef hlo id]
    exact otherRef_false c id hc hp
  unfold assignNodeLabelsStep
  simp only []
  split
  · rfl
  · split
    · have hC : ∀ (C : Ctx), LabelOnly c C → C.poolGet id = d.poolGet id →
          (assignLocalLabels C blocks p.2).poolGet id = d.poolGet id := by
        intro C hloC hCi
        rw [assignLocalLabels_unref C blocks p.2 id
          (by rw [labelOnly_otherRef hloC id]; exact otherRef_false c id hc hp), hCi]
      by_cases hpi : p.2 = id
      · subst hpi
        apply hC
        · split
          · split
            · split
              · split
                · exact labelOnly_trans hlo (labelOnly_setLabel d p.2 _)
                · exact labelOnly_trans hlo (labelOnly_setLabel d p.2 _)
              · exact labelOnly_trans hlo (labelOnly_setLabel d p.2 _)
            · exact hlo
          · exact hlo
        · split
          · split
            · next hcond =>
              exfalso
              rw [labelOnly_callers hlo p.2, labelOnly_preds hlo p.2, hc, hp] at hcond
              rcases hcond with h | h <;> simp at h
            · rfl
          · rfl
      · apply hC
        · split
          · split
            · split
              · split
                · exact labelOnly_trans hlo (labelOnly_setLabel d p.2 _)
                · exact labelOnly_trans hlo (labelOnly_setLabel d p.2 _)
              · exact labelOnly_trans hlo (labelOnly_setLabel d p.2 _)
            · exact hlo
          · exact hlo
        · split
          · split
            · split
              · split
                · rw [poolGet_modifyNode, if_neg (fun hh => hpi hh.1)]
                · rw [poolGet_modifyNode, if_neg (fun hh => hpi hh.1)]
              · rw [poolGet_modifyNode, if_neg (fun hh => hpi hh.1)]
            · rfl
          · rfl
    · rfl

theorem anlStep_other (blocks : Int → Option Nat) (c d : Ctx) (p : Int × Nat) (id : Nat)
    (a : Int) (hlo : LabelOnly c d)
    (hwf : ∀ q ∈ c.nodesList, q.2 < c.pool.length ∧ (c.poolGet q.2).start = q.1)
    (hstart : (c.poolGet id).start = a)
    (hblock : blocks a = some id)
    (hne : p.2 ≠ id) :
    (assignNodeLabelsStep blocks d p).poolGet id = d.poolGet id := by
  unfold assignNodeLabelsStep
  simp only []
  split
  · rfl
  · split
    · have hC : ∀ (C : Ctx), LabelOnly c C → C.poolGet id = d.poolGet id →
          (assignLocalLabels C blocks p.2).poolGet id = d.poolGet id := by
        intro C hloC hCi
        rw [assignLocalLabels_other c C blocks p.2 id a hloC hwf hstart hblock hne, hCi]
      apply hC
      · split
        · split
          · split
            · split
              · exact labelOnly_trans hlo (labelOnly_setLabel d p.2 _)
              · exact labelOnly_trans hlo (labelOnly_setLabel d p.2 _)
            · exact labelOnly_trans hlo (labelOnly_setLabel d p.2 _)
          · exact hlo
        · exact hlo
      · split
        · split
          · split
            · split
              · rw [poolGet_modifyNode, if_neg (fun hh => hne hh.1)]
              · rw [poolGet_modifyNode, if_neg (fun hh => hne hh.1)]
            · rw [poolGet_modifyNode, if_neg (fun hh => hne hh.1)]
          · rfl
        · rfl
    · rfl

theorem anlStep_label (blocks : Int → Option Nat) (c d : Ctx) (a : Int) (id : Nat)
    (hlo : LabelOnly c d)
    (hlbl : (d.poolGet id).label = none)
    (hcp : 0 < (c.poolGet id).callers.length ∨ 0 < (c.poolGet id).predecessors.length)
    (hblock : blocks a = some id)
    (hlen : id < c.pool.length) :
    (assignNodeLabelsStep blocks d (a, id)).poolGet id =
      { d.poolGet id with label := some (anlLabelFor c a id) } := by
  have hlend : id < d.pool.length := by rw [hlo.2.1]; exact hlen
  have hcpd : (d.poolGet id).callers.length > 0 ∨ (d.poolGet id).predecessors.length > 0 := by
    rw [labelOnly_callers hlo id, labelOnly_preds hlo id]
    exact hcp
  unfold assignNodeLabelsStep
  simp only []
  rw [hblock]
  simp only []
  rw [if_pos trivial, if_pos hlbl, if_pos hcpd]
  by_cases hsub : (d.poolGet id).isSubroutine = true
  · rw [if_pos hsub]
    have hsubc : (c.poolGet id).isSubroutine = true := by
      rw [← labelOnly_isSub hlo id]
      exact hsub
    by_cases hmask : (d.poolGet id).start.toNat &&& 0xFFFFFFC7 ≠ 0
    · rw [if_pos hmask]
      have hmaskc : (c.poolGet id).start.toNat &&& 0xFFFFFFC7 ≠ 0 := by
        rw [← labelOnly_start hlo id]
        exact hmask
      have hL : anlLabelFor c a id = "SUB_" ++ getHexString a 4 := by
        unfold anlLabelFor
        rw [if_pos hsubc, if_pos hmaskc]
      have hCi : ((d.modifyNode id (fun n =>
          { n with label := some ("SUB_" ++ getHexString a 4) })).poolGet id)
          = { d.poolGet id with label := some ("SUB_" ++ getHexString a 4) } := by
        rw [poolGet_modifyNode, if_pos ⟨rfl, hlend⟩]
      rw [assignLocalLabels_keep _ blocks id id ("SUB_" ++ getHexString a 4)
        (by rw [hCi]), hCi, hL]
    · rw [if_neg hmask]
      have hmaskc : ¬ (c.poolGet id).start.toNat &&& 0xFFFFFFC7 ≠ 0 := by
        rw [← labelOnly_start hlo id]
        exact hmask
      have hL : anlLabelFor c a id = "RST_" ++ getHexString a 2 := by
        unfold anlLabelFor
        rw [if_pos hsubc, if_neg hmaskc]
      have hCi : ((d.modifyNode id (fun n =>
          { n with label := some ("RST_" ++ getHexString a 2) })).poolGet id)
          = { d.poolGet id with label := some ("RST_" ++ getHexString a 2) } := by
        rw [poolGet_modifyNode, if_pos ⟨rfl, hlend⟩]
      rw [assignLocalLabels_keep _ blocks id id ("RST_" ++ getHexString a 2)
        (by rw [hCi]), hCi, hL]
  · rw [if_neg hsub]
    have hsubc : ¬ (c.poolGet id).isSubroutine = true := by
      rw [← labelOnly_isSub hlo id]
      exact hsub
    have hL : anlLabelFor c a id = "LBL_" ++ getHexString a 4 := by
      unfold anlLabelFor
      rw [if_neg hsubc]
    have hCi : ((d.modifyNode id (fun n =>
        { n with label := some ("LBL_" ++ getHexString a 4) })).poolGet id)
        = { d.poolGet id with label := some ("LBL_" ++ getHexString a 4) } := by
      rw [poolGet_modifyNode, if_pos ⟨rfl, hlend⟩]
    rw [assignLocalLabels_keep _ blocks id id ("LBL_" ++ getHexString a 4)
      (by rw [hCi]), hCi, hL]

theorem anlFold_keep (blocks : Int → Option Nat) (i : Nat) (s : String) :
    ∀ (l : List (Int × Nat)) (d : Ctx), (d.poolGet i).label = some s →
      (l.foldl (assignNodeLabelsStep blocks) d).poolGet i = d.poolGet i
  | [], _, _ => rfl
  | x :: t, d, h => by
    have hstep := anlStep_keep blocks d x i s h
    show (t.foldl (assignNodeLabelsStep blocks) (assignNodeLabelsStep blocks d x)).poolGet i
      = d.poolGet i
    rw [anlFold_keep blocks i s t _ (by rw [hstep]; exact h), hstep]

theorem anlFold_unref (blocks : Int → Option Nat) (c : Ctx) (id : Nat)
    (hc : (c.poolGet id).callers = []) (hp : (c.poolGet id).predecessors = []) :
    ∀ (l : List (Int × Nat)) (d : Ctx), LabelOnly c d →
      (l.foldl (assignNodeLabelsStep blocks) d).poolGet id = d.poolGet id
  | [], _, _ => rfl
  | x :: t, d, hlo => by
    have hstep := anlStep_unref blocks c d x id hlo hc hp
    show (t.foldl (assignNodeLabelsStep blocks) (assignNodeLabelsStep blocks d x)).poolGet id
      = d.poolGet id
    rw [anlFold_unref blocks c id hc hp t _
      (labelOnly_trans hlo (labelOnly_anlStep blocks d x)), hstep]

theorem anlFold_lab (blocks : Int → Option Nat) (c : Ctx) (a : Int) (id : Nat)
    (hwf : ∀ q ∈ c.nodesList, q.2 < c.pool.length ∧ (c.poolGet q.2).start = q.1)
    (hblock : blocks a = some id)
    (hstart : (c.poolGet id).start = a)
    (hlen : id < c.pool.length)
    (hcp : 0 < (c.poolGet id).callers.length ∨ 0 < (c.poolGet id).predecessors.length) :
    ∀ (l : List (Int × Nat)), (∀ q ∈ l, q ∈ c.nodesList) → ∀ (d : Ctx), LabelOnly c d →
      (a, id) ∈ l → (d.poolGet id).label = none →
      ((l.foldl (assignNodeLabelsStep blocks) d).poolGet id).label =
        some (anlLabelFor c a id)
  | [], _, _, _, hmem, _ => absurd hmem (List.not_mem_nil _)
  | x :: t, hsub, d, hlo, hmem, hlbl => by
    show ((t.foldl (assignNodeLabelsStep blocks)
      (assignNodeLabelsStep blocks d x)).poolGet id).label = _
    by_cases hxid : x.2 = id
    · have hxmem := hsub x (List.mem_cons_self x t)
      have hws := (hwf x hxmem).2
      rw [hxid, hstart] at hws
      have hx : x = (a, id) := by rw [hws, ← hxid]
      rw [hx]
      have hstep := anlStep_label blocks c d a id hlo hlbl hcp hblock hlen
      rw [anlFold_keep blocks id (anlLabelFor c a id) t _ (by rw [hstep]), hstep]
    · have hmem2 : (a, id) ∈ t := by
        rcases List.mem_cons.mp hmem with he | ht
        · exact absurd (congrArg Prod.snd he.symm) hxid
        · exact ht
      have hstep := anlStep_other blocks c d x id a hlo hwf hstart hblock hxid
      have := anlFold_lab blocks c a id hwf hblock hstart hlen hcp t
        (fun q hq => hsub q (List.mem_cons_of_mem x hq))
        (assignNodeLabelsStep blocks d x)
        (labelOnly_trans hlo (labelOnly_anlStep blocks d x)) hmem2
        (by rw [hstep]; exact hlbl)
      exact this

set_option maxHeartbeats 1600000 in
/-- C4 (amended): for a block-leading map node (its address maps to itself in
`blocks`) that lacks a label when `assignNodeLabels` runs, the label assigned
is: nothing at all when the node has neither callers nor predecessors (this
guard is tested FIRST, so even a subroutine stays unlabeled then — refuting
the claim as stated, see the counterexample); otherwise "RST_xx" when the
node is a subroutine whose start address has all bits outside 0b00111000
clear, "SUB_xxxx" for any other subroutine, and "LBL_xxxx" otherwise. -/
theorem claim_C4_amended (c : Ctx) (blocks : Int → Option Nat) (a : Int) (id : Nat)
    (hwf : ∀ q ∈ c.nodesList, q.2 < c.pool.length ∧ (c.poolGet q.2).start = q.1)
    (hmem : (a, id) ∈ c.nodesList)
    (hblock : blocks a = some id)
    (hlbl : (c.poolGet id).label = none) :
    ((assignNodeLabels c blocks).poolGet id).label =
      if 0 < (c.poolGet id).callers.length ∨ 0 < (c.poolGet id).predecessors.length then
        some (anlLabelFor c a id)
      else none := by
  unfold assignNodeLabels
  by_cases hcp : 0 < (c.poolGet id).callers.length ∨ 0 < (c.poolGet id).predecessors.length
  · rw [if_pos hcp]
    exact anlFold_lab blocks c a id hwf hblock (hwf (a, id) hmem).2 (hwf (a, id) hmem).1 hcp
      c.nodesList (fun q hq => hq) c (labelOnly_refl c) hmem hlbl
  · rw [if_neg hcp]
    push_neg at hcp
    have hc : (c.poolGet id).callers = [] := List.eq_nil_of_length_eq_zero (by omega)
    have hp : (c.poolGet id).predecessors = [] := List.eq_nil_of_length_eq_zero (by omega)
    rw [anlFold_unref blocks c id hc hp c.nodesList c (labelOnly_refl c)]
    exact hlbl

set_option maxHeartbeats 1600000 in
theorem claim_C4_amended_witness :
    ((0x20 : Int), 0) ∈ c4wctx.nodesList ∧
    (c4wctx.poolGet 0).label = none ∧
    ((assignNodeLabels c4wctx c4wblocks).poolGet 0).label = some "RST_20" := by
  refine ⟨by decide, by decide, ?_⟩
  have h := claim_C4_amended c4wctx c4wblocks 0x20 0 (by decide) (by decide) (by decide)
    (by decide)
  rw [h]
  decide

set_option maxRecDepth 10000 in
set_option maxHeartbeats 64000000 in
/-- C4 counterexample: in the bare-RET scenario the node at 0x8000 leads its
own block, lacks a label, and has `isSubroutine = true`; the claim then
demands the label "SUB_8000", but after the full build the label is still
`none` — the code tests the callers/predecessors guard before the
`isSubroutine` test, and this node has neither. -/
theorem claim_C4_counterexample :
    scenRetOnlyRun.blocks 0x8000 = some 0 ∧
    (scenRetOnlyRun.nodeAt 0x8000).map
        (fun n => (n.isSubroutine, n.label, n.callers, n.predecessors)) =
      some (true, none, [], []) := by
  decide

theorem ctxAux_refl (c : Ctx) : CtxAux c c := ⟨rfl, rfl, rfl⟩

theorem ctxAux_trans {c1 c2 c3 : Ctx} (h12 : CtxAux c1 c2) (h23 : CtxAux c2 c3) :
    CtxAux c1 c3 :=
  ⟨h23.1.trans h12.1, h23.2.1.trans h12.2.1, h23.2.2.trans h12.2.2⟩

theorem ctxAux_modifyNode (c : Ctx) (i : Nat) (f : AsmNode → AsmNode) :
    CtxAux c (c.modifyNode i f) := ⟨rfl, rfl, rfl⟩

theorem ctxAux_createNodeInMap (c : Ctx) (a : Int) :
    CtxAux c (c.createNodeInMap a).1 := ⟨rfl, rfl, rfl⟩

theorem ctxAux_addComment (c : Ctx) (a : Int) (t : String) :
    CtxAux c (c.addComment a t) := ⟨rfl, rfl, rfl⟩

theorem ctxAux_foldl {β : Type} (f : Ctx → β → Ctx) (h : ∀ c x, CtxAux c (f c x)) :
    ∀ (l : List β) (c : Ctx), CtxAux c (l.foldl f c)
  | [], c => ctxAux_refl c
  | x :: t, c => ctxAux_trans (h c x) (ctxAux_foldl f h t (f c x))

theorem ctxAux_getNodeForFill (c : Ctx) (o t : Int) :
    CtxAux c (getNodeForFill c o t).1 := by
  unfold getNodeForFill
  split
  · exact ctxAux_refl c
  · simp only []
    split
    · exact ⟨rfl, rfl, rfl⟩
    · exact ⟨rfl, rfl, rfl⟩

theorem ctxAux_fillSkips : ∀ (f : Nat) (c : Ctx) (id : Nat) (a : Int),
    CtxAux c (fillSkips f c id a).1
  | 0, c, _, _ => ctxAux_refl c
  | f + 1, c, id, a => by
    unfold fillSkips
    split
    · split
      · exact ctxAux_trans (ctxAux_modifyNode c id _) (ctxAux_fillSkips f _ id _)
      · exact ctxAux_refl c
    · exact ctxAux_refl c

theorem ctxAux_setNodeLength (c : Ctx) (id : Nat) (a : Int) :
    CtxAux c (setNodeLength c id a) := ctxAux_modifyNode c id _

theorem ctxAux_markPred : ∀ (f : Nat) (c : Ctx) (id : Nat),
    CtxAux c (markPredecessorsAsSubroutine f c id)
  | 0, c, _ => ctxAux_refl c
  | f + 1, c, id => by
    unfold markPredecessorsAsSubroutine
    split
    · exact ctxAux_refl c
    · exact ctxAux_trans (ctxAux_modifyNode c id _)
        (ctxAux_foldl _ (fun c p => ctxAux_markPred f c p) _ _)

theorem ctxAux_msStep (c : Ctx) (p : Int × Nat) : CtxAux c (markSubroutinesStep c p) := by
  unfold markSubroutinesStep
  simp only []
  split
  · exact ctxAux_foldl _ (fun c q => ctxAux_markPred (c.pool.length + 1) c q) _ _
  · split
    · exact ctxAux_modifyNode c p.2 _
    · exact ctxAux_refl c

theorem ctxAux_markSubroutines (c : Ctx) : CtxAux c (markSubroutines c) :=
  ctxAux_foldl _ ctxAux_msStep _ _

theorem ctxAux_labelNumbered (pre base : String) :
    ∀ (ids : List Nat) (c : Ctx) (k : Nat), CtxAux c (labelNumbered c pre base k ids)
  | [], c, _ => ctxAux_refl c
  | x :: t, c, k => by
    show CtxAux c (labelNumbered (c.modifyNode x (fun n =>
      { n with label := some (pre ++ base ++ toString k) })) pre base (k + 1) t)
    exact ctxAux_trans (ctxAux_modifyNode c x _) (ctxAux_labelNumbered pre base t _ (k + 1))

theorem ctxAux_assignLocalLabels (c : Ctx) (blocks : Int → Option Nat) (id : Nat) :
    CtxAux c (assignLocalLabels c blocks id) := by
  unfold assignLocalLabels
  simp only []
  split
  · split
    · exact ctxAux_trans (ctxAux_labelNumbered _ _ _ _ _) (ctxAux_modifyNode _ _ _)
    · exact ctxAux_trans (ctxAux_labelNumbered _ _ _ _ _) (ctxAux_labelNumbered _ _ _ _ _)
  · exact ctxAux_trans
      (ctxAux_foldl _ (fun d x => ctxAux_modifyNode d x _) _ _)
      (ctxAux_foldl _ (fun d x => ctxAux_modifyNode d x _) _ _)

theorem ctxAux_anlStep (blocks : Int → Option Nat) (c : Ctx) (p : Int × Nat) :
    CtxAux c (assignNodeLabelsStep blocks c p) := by
  unfold assignNodeLabelsStep
  simp only []
  split
  · exact ctxAux_refl c
  · split
    · refine ctxAux_trans ?_ (ctxAux_assignLocalLabels _ blocks p.2)
      split
      · split
        · split
          · split
            · exact ctxAux_modifyNode c p.2 _
            · exact ctxAux_modifyNode c p.2 _
          · exact ctxAux_modifyNode c p.2 _
        · exact ctxAux_refl c
      · exact ctxAux_refl c
    · exact ctxAux_refl c

theorem ctxAux_assignNodeLabels (c : Ctx) (blocks : Int → Option Nat) :
    CtxAux c (assignNodeLabels c blocks) :=
  ctxAux_foldl _ (ctxAux_anlStep blocks) _ _

theorem ctxAux_createNodesForLabels (c : Ctx) (lbls : List (Int × String)) :
    CtxAux c (createNodesForLabels c lbls) := by
  refine ctxAux_foldl _ (fun c p => ?_) lbls c
  simp only []
  split
  · split
    · exact ctxAux_trans (ctxAux_refl c) (ctxAux_modifyNode _ _ _)
    · exact ctxAux_trans (ctxAux_createNodeInMap c p.1) (ctxAux_modifyNode _ _ _)
  · exact ⟨rfl, rfl, rfl⟩

theorem ctxAux_fnLoop : ∀ (f : Nat) (c : Ctx) (id : Nat) (a : Int),
    CtxAux c (fnLoop f c id a)
  | 0, c, id, a => ctxAux_setNodeLength c id a
  | f + 1, c, id, a => by
    unfold fnLoop
    lift_lets
    extract_lets op v attr adj cD cI la aN fl cR
    have hcD : CtxAux c cD := by
      unfold cD
      split
      · exact ctxAux_modifyNode c id _
      · exact ctxAux_refl c
    have hcI : CtxAux c cI := ctxAux_trans hcD ⟨rfl, rfl, rfl⟩
    have hcR : CtxAux c cR := by
      unfold cR
      split
      · exact ctxAux_trans hcI ⟨rfl, rfl, rfl⟩
      · exact hcI
    split
    · -- BRANCH_ADDRESS branch
      split
      next c1 a1 heq =>
        have H1 : CtxAux c c1 := by
          split at heq
          · -- no stop: the fall-through was processed first
            split at heq
            next c2 a2 heq2 =>
              have H2 : CtxAux c c2 := by
                have h := ctxAux_fillSkips loopFuel cI id aN
                rw [heq2] at h
                exact ctxAux_trans hcI h
              split at heq
              · -- addr < 0x10000: following node resolved
                split at heq
                next c4 fn heq4 =>
                  have H4 : CtxAux c c4 := by
                    have h := ctxAux_getNodeForFill c2 la ((a2.toNat &&& 65535 : Nat) : Int)
                    rw [heq4] at h
                    exact ctxAux_trans H2 h
                  simp only [] at heq
                  rw [Prod.mk.injEq] at heq
                  rw [← heq.1]
                  exact ctxAux_trans H4 ⟨rfl, rfl, rfl⟩
              · rw [Prod.mk.injEq] at heq
                rw [← heq.1]
                exact H2
          · rw [Prod.mk.injEq] at heq
            rw [← heq.1]
            exact hcI
        split
        next c3 bn heq3 =>
          have H3 : CtxAux c c3 := by
            have h := ctxAux_getNodeForFill c1 la v
            rw [heq3] at h
            exact ctxAux_trans H1 h
          simp only []
          split
          · split
            · exact ctxAux_trans H3 ⟨rfl, rfl, rfl⟩
            · exact ctxAux_trans H3 ⟨rfl, rfl, rfl⟩
          · split
            · exact ctxAux_trans H3 ⟨rfl, rfl, rfl⟩
            · exact ctxAux_trans H3 ⟨rfl, rfl, rfl⟩
    · -- non-branch opcode
      split
      · exact ctxAux_trans hcR ⟨rfl, rfl, rfl⟩
      · split
        · exact ctxAux_trans hcR ⟨rfl, rfl, rfl⟩
        · split
          · exact ctxAux_trans hcR ⟨rfl, rfl, rfl⟩
          · split
            · exact ctxAux_trans hcR ⟨rfl, rfl, rfl⟩
            · exact ctxAux_trans hcR (ctxAux_fnLoop f cR id aN)

theorem ctxAux_fillNode (c : Ctx) (id : Nat) : CtxAux c (fillNode c id) := by
  unfold fillNode
  exact ctxAux_fnLoop loopFuel c id _

theorem ctxAux_fillNodes_aux :
    ∀ (l : List (Int × Nat)) (c : Ctx), CtxAux c (l.foldl (fun c p => fillNode c p.2) c)
  | [], c => ctxAux_refl c
  | x :: t, c => ctxAux_trans (ctxAux_fillNode c x.2) (ctxAux_fillNodes_aux t _)

theorem ctxAux_fillNodes (c : Ctx) : CtxAux c (fillNodes c) := by
  unfold fillNodes
  exact ctxAux_fillNodes_aux c.nodesList c

theorem ctxAux_assignOpcodeReferenceLabels (c : Ctx) (blocks : Int → Option Nat) :
    CtxAux c (assignOpcodeReferenceLabels c blocks) := by
  refine ctxAux_foldl _ (fun c p => ?_) c.nodesList c
  refine ctxAux_foldl _ (fun c addr64k => ?_) _ c
  simp only []
  split
  · exact ctxAux_refl c
  · split
    · split
      · exact ctxAux_refl c
      · exact ⟨rfl, rfl, rfl⟩
    · exact ⟨rfl, rfl, rfl⟩

/-- ORing flags that do not contain a mask bit leaves the masked value. -/
theorem or_and_masked (x f A : Nat) (h : f &&& A = 0) : (x ||| f) &&& A = x &&& A := by
  apply Nat.eq_of_testBit_eq
  intro i
  have hf := congrArg (fun n => n.testBit i) h
  simp only [Nat.testBit_and, Nat.testBit_or, Nat.zero_testBit] at hf ⊢
  cases hx : x.testBit i <;> cases hfb : f.testBit i <;> cases hA : A.testBit i <;> simp_all

theorem ctxBase_refl (c : Ctx) : CtxBase c c := ⟨rfl, fun _ => rfl, rfl, rfl⟩

theorem ctxBase_trans {c1 c2 c3 : Ctx} (h12 : CtxBase c1 c2) (h23 : CtxBase c2 c3) :
    CtxBase c1 c3 :=
  ⟨h23.1.trans h12.1, fun k => (h23.2.1 k).trans (h12.2.1 k),
    h23.2.2.1.trans h12.2.2.1, h23.2.2.2.trans h12.2.2.2⟩

theorem ctxBase_of_aux {c c' : Ctx} (h : CtxAux c c') : CtxBase c c' :=
  ⟨by rw [h.1], fun k => by rw [h.1], h.2.1, h.2.2⟩

theorem ctxBase_foldl {β : Type} (f : Ctx → β → Ctx) (h : ∀ c x, CtxBase c (f c x)) :
    ∀ (l : List β) (c : Ctx), CtxBase c (l.foldl f c)
  | [], c => ctxBase_refl c
  | x :: t, c => ctxBase_trans (h c x) (ctxBase_foldl f h t (f c x))

theorem addAttributeAt_bytes (m : Memory) (a attr : Nat) :
    (m.addAttributeAt a attr).bytes = m.bytes := rfl

theorem addAttributeAt_attrs_masked (m : Memory) (a attr : Nat)
    (h : attr &&& MemAttribute.ASSIGNED = 0) (k : Nat) :
    (m.addAttributeAt a attr).attrs k &&& MemAttribute.ASSIGNED =
      m.attrs k &&& MemAttribute.ASSIGNED := by
  unfold Memory.addAttributeAt
  simp only []
  split
  · exact or_and_masked _ attr _ h
  · rfl

theorem addAttributesAt_bytes :
    ∀ (len : Nat) (m : Memory) (a attr : Nat), (m.addAttributesAt a len attr).bytes = m.bytes
  | 0, _, _, _ => rfl
  | l + 1, m, a, attr =>
    (addAttributesAt_bytes l (m.addAttributeAt a attr) (a + 1) attr).trans rfl

theorem addAttributesAt_attrs_masked :
    ∀ (len : Nat) (m : Memory) (a attr : Nat), attr &&& MemAttribute.ASSIGNED = 0 →
      ∀ k, (m.addAttributesAt a len attr).attrs k &&& MemAttribute.ASSIGNED =
        m.attrs k &&& MemAttribute.ASSIGNED
  | 0, _, _, _, _, _ => rfl
  | l + 1, m, a, attr, h, k =>
    (addAttributesAt_attrs_masked l (m.addAttributeAt a attr) (a + 1) attr h k).trans
      (addAttributeAt_attrs_masked m a attr h k)

theorem ctxBase_cnaInner : ∀ (f : Nat) (c : Ctx) (a : Int), CtxBase c (cnaInner f c a).1
  | 0, c, _ => ctxBase_refl c
  | f + 1, c, a => by
    unfold cnaInner
    lift_lets
    extract_lets refOpcode flowAddr mem1 mem2 cM addr64k memAttrNext flags branchAddress pushed
    have hM : CtxBase c cM := by
      refine ⟨?_, ?_, rfl, rfl⟩
      · show mem2.bytes = c.memory.bytes
        unfold mem2 mem1
        rw [addAttributeAt_bytes, addAttributesAt_bytes]
      · intro k
        show mem2.attrs k &&& MemAttribute.ASSIGNED = c.memory.attrs k &&& MemAttribute.ASSIGNED
        unfold mem2 mem1
        rw [addAttributeAt_attrs_masked _ _ _ (by decide),
          addAttributesAt_attrs_masked _ _ _ _ (by decide)]
    clear_value flowAddr
    cases flowAddr with
    | some fa => exact ctxBase_trans hM (ctxBase_of_aux (ctxAux_addComment cM a _))
    | none =>
      by_cases h1 : flags &&& OpcodeFlag.BRANCH_ADDRESS ≠ 0
      · rw [if_pos h1]
        exact hM
      · rw [if_neg h1]
        by_cases h2 : addr64k > 65535
        · rw [if_pos h2]
          exact hM
        · rw [if_neg h2]
          by_cases h3 : flags &&& OpcodeFlag.RET ≠ 0 ∧ flags &&& OpcodeFlag.CONDITIONAL ≠ 0
          · rw [if_pos h3]
            exact hM
          · rw [if_neg h3]
            by_cases h4 : memAttrNext &&& MemAttribute.FLOW_ANALYZED ≠ 0
            · rw [if_pos h4]
              exact hM
            · rw [if_neg h4]
              by_cases h5 : flags &&& OpcodeFlag.STOP ≠ 0
              · rw [if_pos h5]
                exact hM
              · rw [if_neg h5]
                exact ctxBase_trans hM (ctxBase_cnaInner f cM addr64k)

theorem ctxBase_cnaOuter (f : Nat) : ∀ (c : Ctx) (wl : List Int) (i : Nat),
    CtxBase c (cnaOuter f c wl i) := by
  induction f with
  | zero => exact fun c _ _ => ctxBase_refl c
  | succ f ih =>
    intro c wl i
    unfold cnaOuter
    split
    · lift_lets
      extract_lets addr64k memAttr
      cases hN : c.getNode? addr64k with
      | some x => exact ih c wl (i + 1)
      | none =>
        by_cases h1 : memAttr &&& MemAttribute.FLOW_ANALYZED ≠ 0
        · rw [if_pos h1]
          by_cases h2 : memAttr &&& MemAttribute.CODE_FIRST ≠ 0
          · rw [if_pos h2]
            exact ctxBase_trans (ctxBase_of_aux (ctxAux_createNodeInMap c addr64k))
              (ih _ wl (i + 1))
          · rw [if_neg h2]
            exact ctxBase_trans (ctxBase_of_aux (ctxAux_addComment c addr64k _))
              (ih _ wl (i + 1))
        · rw [if_neg h1]
          by_cases h3 : memAttr &&& MemAttribute.ASSIGNED = 0
          · rw [if_pos h3]
            exact ih c wl (i + 1)
          · rw [if_neg h3]
            split
            · exact ih c wl (i + 1)
            · split
              next c1 snd heq1 =>
                have hc1 : CtxBase c c1 := by
                  have h := ctxBase_of_aux (ctxAux_createNodeInMap c addr64k)
                  rw [heq1] at h
                  exact h
                split
                next c2 pushed heq2 =>
                  have hc2 : CtxBase c c2 := by
                    have h := ctxBase_cnaInner loopFuel c1 addr64k
                    rw [heq2] at h
                    exact ctxBase_trans hc1 h
                  exact ctxBase_trans hc2 (ih c2 (wl ++ pushed) (i + 1))
    · exact ctxBase_refl c

theorem ctxBase_createNodeForAddress (c : Ctx) (addr : Int) :
    CtxBase c (createNodeForAddress c addr) := by
  unfold createNodeForAddress
  exact ctxBase_cnaOuter pass1OuterFuel c [addr] 0

theorem ctxBase_createNodes_aux :
    ∀ (l : List Int) (c : Ctx),
      CtxBase c (l.foldl
        (fun c addr64k =>
          let memAttr := c.memory.getAttributeAt addr64k
          if memAttr &&& MemAttribute.FLOW_ANALYZED ≠ 0 then
            if memAttr &&& MemAttribute.CODE_FIRST = 0 then
              c.addComment addr64k (ambiguousMsg addr64k)
            else c
          else createNodeForAddress c addr64k) c)
  | [], c => ctxBase_refl c
  | x :: t, c => by
    refine ctxBase_trans ?_ (ctxBase_createNodes_aux t _)
    simp only []
    split
    · split
      · exact ctxBase_of_aux (ctxAux_addComment c x _)
      · exact ctxBase_refl c
    · exact ctxBase_createNodeForAddress c x

theorem ctxBase_createNodes (c : Ctx) (addrs : List Int) :
    CtxBase c (createNodes c addrs) := by
  unfold createNodes
  exact ctxBase_createNodes_aux _ c

theorem awb_congr : ∀ (W : List (Option Nat × Int × Int)) (b1 b2 : Int → Option Nat) (k : Int),
    b1 k = b2 k → applyBlockWrites W b1 k = applyBlockWrites W b2 k
  | [], _, _, _, h => h
  | w :: t, b1, b2, k, h =>
    awb_congr t _ _ k (by
      show (if w.2.1 ≤ k ∧ k < w.2.2 ∧ 0 ≤ k ∧ k < 0x10000 then w.1 else b1 k) =
        (if w.2.1 ≤ k ∧ k < w.2.2 ∧ 0 ≤ k ∧ k < 0x10000 then w.1 else b2 k)
      split
      · rfl
      · exact h)

theorem awb_uncovered : ∀ (W : List (Option Nat × Int × Int)) (b : Int → Option Nat) (k : Int),
    (∀ w ∈ W, ¬(w.2.1 ≤ k ∧ k < w.2.2 ∧ 0 ≤ k ∧ k < 0x10000)) →
    applyBlockWrites W b k = b k
  | [], _, _, _ => rfl
  | w :: t, b, k, h =>
    (awb_uncovered t _ k (fun w' hw' => h w' (List.mem_cons_of_mem w hw'))).trans
      (show (if w.2.1 ≤ k ∧ k < w.2.2 ∧ 0 ≤ k ∧ k < 0x10000 then w.1 else b k) = b k from
        if_neg (h w (List.mem_cons_self w t)))

theorem awb_covered : ∀ (W : List (Option Nat × Int × Int)) (b1 b2 : Int → Option Nat)
    (k : Int), (∃ w ∈ W, w.2.1 ≤ k ∧ k < w.2.2 ∧ 0 ≤ k ∧ k < 0x10000) →
    applyBlockWrites W b1 k = applyBlockWrites W b2 k
  | [], _, _, _, h => absurd h (by simp)
  | w :: t, b1, b2, k, h => by
    by_cases hw : w.2.1 ≤ k ∧ k < w.2.2 ∧ 0 ≤ k ∧ k < 0x10000
    · apply awb_congr t _ _ k
      show (if w.2.1 ≤ k ∧ k < w.2.2 ∧ 0 ≤ k ∧ k < 0x10000 then w.1 else b1 k) =
        (if w.2.1 ≤ k ∧ k < w.2.2 ∧ 0 ≤ k ∧ k < 0x10000 then w.1 else b2 k)
      rw [if_pos hw, if_pos hw]
    · have h2 : ∃ w' ∈ t, w'.2.1 ≤ k ∧ k < w'.2.2 ∧ 0 ≤ k ∧ k < 0x10000 := by
        rcases h with ⟨w', hw', hc⟩
        rcases List.mem_cons.mp hw' with he | ht
        · exact absurd (he ▸ hc) hw
        · exact ⟨w', ht, hc⟩
      exact awb_covered t _ _ k h2

theorem applyBlockWrites_idem (W : List (Option Nat × Int × Int)) (b : Int → Option Nat) :
    applyBlockWrites W (applyBlockWrites W b) = applyBlockWrites W b := by
  funext k
  by_cases h : ∃ w ∈ W, w.2.1 ≤ k ∧ k < w.2.2 ∧ 0 ≤ k ∧ k < 0x10000
  · exact awb_covered W _ b k h
  · exact awb_uncovered W _ k (fun w hw hc => h ⟨w, hw, hc⟩)

theorem partitionBlocks_idem (c : Ctx) (b : Int → Option Nat) :
    partitionBlocks c (partitionBlocks c b) = partitionBlocks c b :=
  applyBlockWrites_idem (partitionWrites c) b

theorem getFlowGraph_eq (s : SmartDisassembler) (addresses : List Int)
    (labels : List (Int × String)) :
    getFlowGraph s addresses labels =
      { memory := (gfgCore (initCtx s) s.blocks addresses labels).1.memory,
        nodesList := (gfgCore (initCtx s) s.blocks addresses labels).1.nodesList,
        pool := (gfgCore (initCtx s) s.blocks addresses labels).1.pool,
        blocks := (gfgCore (initCtx s) s.blocks addresses labels).2,
        otherLabels := (gfgCore (initCtx s) s.blocks addresses labels).1.otherLabels,
        comments := (gfgCore (initCtx s) s.blocks addresses labels).1.comments,
        skipAddrs64k := (gfgCore (initCtx s) s.blocks addresses labels).1.skipAddrs64k,
        funcGetLabel := (gfgCore (initCtx s) s.blocks addresses labels).1.funcGetLabel } :=
  rfl

theorem gfgCore_base (c : Ctx) (b0 : Int → Option Nat) (addrs : List Int)
    (lbls : List (Int × String)) : CtxBase c (gfgCore c b0 addrs lbls).1 := by
  unfold gfgCore
  lift_lets
  extract_lets c1 c2 c3 c4 blocks c5 c6
  show CtxBase c c6
  exact ctxBase_trans (ctxBase_createNodes c addrs)
    (ctxBase_of_aux (ctxAux_trans (ctxAux_createNodesForLabels c1 lbls)
      (ctxAux_trans (ctxAux_fillNodes c2)
        (ctxAux_trans (ctxAux_markSubroutines c3)
          (ctxAux_trans (ctxAux_assignNodeLabels c4 blocks)
            (ctxAux_assignOpcodeReferenceLabels c5 blocks))))))

theorem memory_ext {m1 m2 : Memory} (hb : m1.bytes = m2.bytes)
    (ha : m1.attrs = m2.attrs) : m1 = m2 := by
  cases m1 with
  | mk b1 a1 =>
    cases m2 with
    | mk b2 a2 =>
      simp only [] at hb ha
      rw [hb, ha]

theorem resetNotFlags_eq :
    0xFFFFFFFF ^^^ ((0xFFFFFFFF ^^^ MemAttribute.ASSIGNED) &&& 0xFFFFFFFF) =
      MemAttribute.ASSIGNED := by decide

theorem initCtx_getFlowGraph (s : SmartDisassembler) (addrs : List Int)
    (lbls : List (Int × String)) :
    initCtx (getFlowGraph s addrs lbls) = initCtx s := by
  have hb : CtxBase (initCtx s) (gfgCore (initCtx s) s.blocks addrs lbls).1 :=
    gfgCore_base (initCtx s) s.blocks addrs lbls
  rw [getFlowGraph_eq]
  unfold initCtx
  simp only []
  congr 1
  · apply memory_ext
    · exact hb.1
    · funext k
      show (gfgCore (initCtx s) s.blocks addrs lbls).1.memory.attrs k &&&
          (0xFFFFFFFF ^^^ ((0xFFFFFFFF ^^^ MemAttribute.ASSIGNED) &&& 0xFFFFFFFF)) =
        s.memory.attrs k &&&
          (0xFFFFFFFF ^^^ ((0xFFFFFFFF ^^^ MemAttribute.ASSIGNED) &&& 0xFFFFFFFF))
      rw [resetNotFlags_eq]
      refine (hb.2.1 k).trans ?_
      show (s.memory.attrs k &&&
          (0xFFFFFFFF ^^^ ((0xFFFFFFFF ^^^ MemAttribute.ASSIGNED) &&& 0xFFFFFFFF))) &&&
          MemAttribute.ASSIGNED = s.memory.attrs k &&& MemAttribute.ASSIGNED
      rw [resetNotFlags_eq, Nat.and_assoc, Nat.and_self]
  · exact hb.2.2.1
  · exact hb.2.2.2

theorem gfgCore_blocks_idem (c : Ctx) (b0 : Int → Option Nat) (addrs : List Int)
    (lbls : List (Int × String)) :
    gfgCore c ((gfgCore c b0 addrs lbls).2) addrs lbls = gfgCore c b0 addrs lbls := by
  have h : (gfgCore c b0 addrs lbls).2 =
      partitionBlocks
        (markSubroutines (fillNodes (createNodesForLabels (createNodes c addrs) lbls)))
        b0 := rfl
  rw [h]
  unfold gfgCore
  simp only []
  rw [partitionBlocks_idem]

set_option maxHeartbeats 1600000 in
/-- C3: the full build is idempotent — invoking `getFlowGraph` a second time
with the identical entry addresses and labels returns the identical
disassembler state (identical node set, edges, labels, comments and blocks
array), because `getFlowGraph` first clears the node/label/comment state and
resets every memory attribute flag except ASSIGNED, so the second run starts
from the same initial context, and re-applying the block writes changes
nothing. -/
theorem claim_C3_idempotent (s : SmartDisassembler) (addresses : List Int)
    (labels : List (Int × String)) :
    getFlowGraph (getFlowGraph s addresses labels) addresses labels =
      getFlowGraph s addresses labels := by
  have hinit : initCtx (getFlowGraph s addresses labels) = initCtx s :=
    initCtx_getFlowGraph s addresses labels
  have hblocks : (getFlowGraph s addresses labels).blocks =
      (gfgCore (initCtx s) s.blocks addresses labels).2 := by
    rw [getFlowGraph_eq s addresses labels]
  rw [getFlowGraph_eq (getFlowGraph s addresses labels) addresses labels, hinit, hblocks,
    gfgCore_blocks_idem, ← getFlowGraph_eq s addresses labels]

end ZX81
